import Mathlib

/-!
Parameter-block registry and observation pass of `industrial_extrinsic_cal`.

A shallow embedding of `calibration_job.cpp`.

* Objects held through `shared_ptr` live in an explicit `Heap`; a pointer is the
  address of the object it owns.  `make_shared` takes free storage; a `Camera` whose last
  owner lets go of it is released, and its storage is the first to be used again.
* A `P_BLOCK` (a `double*` into an object) is the pair "object address, member";
  two handles are equal exactly when they point at the same member of the same object.
* Every `BOOST_FOREACH` that returns from inside its body is the one combinator
  `foreach_return`; every other loop is a structural recursion over the list.
* The camera observer is an abstract interface (`CameraObserver`), so the observation
  pass is stated for every implementation of it.
-/

namespace industrial_extrinsic_cal

/-! ## Basic types (`basic_types.h`, `calibration_job.hpp`) -/

/-- Modelled from the spec: a `double`.  The embedded code only stores and copies these
values, so a value is kept as an uninterpreted integer code. -/
abbrev Double := Int

/-- Address of a `Camera` object owned by a non-null `shared_ptr<Camera>`. -/
abbrev CameraPtr := Nat

/-- Address of a `Target` object owned by a non-null `shared_ptr<Target>`. -/
abbrev TargetPtr := Nat

/-- Address of a camera observer object. -/
abbrev ObserverPtr := Nat

/-- Modelled from the spec: `P_BLOCK` (`typedef double* P_BLOCK`, declared in the absent
`basic_types.h`).  The only values the source ever forms are `NULL` and the address of
the first element of one of four member arrays; the storage of an empty `pts` vector is
the null pointer, so the address of its element 0 is `NULL` itself. -/
inductive P_BLOCK where
  /-- The not-found value `NULL`. -/
  | NULL
  /-- Value of `&(camera->camera_parameters_.pb_intrinsics[0])`. -/
  | pb_intrinsics (camera : CameraPtr)
  /-- Value of `&(camera->camera_parameters_.pb_extrinsics[0])`. -/
  | pb_extrinsics (camera : CameraPtr)
  /-- Value of `&(target->pose.pb_pose[0])`. -/
  | pb_pose (target : TargetPtr)
  /-- Value of `&(target->pts[point_id].pb[0])` when `pts` has storage; `point_id` is not
  range checked. -/
  | pb (target : TargetPtr) (point_id : Int)
  /-- Value of `&(target->pts[point_id].pb[0])` when `pts` is empty and `point_id` is not
  0: the null pointer moved by `point_id` elements. -/
  | null_offset (point_id : Int)
  deriving DecidableEq, Repr

/-- Modelled from the spec: `CameraParameters` (absent `basic_types.h`), 6 extrinsic values
(`pb_extrinsics`: angle axis, position) followed by 9 intrinsic values (`pb_intrinsics`). -/
structure CameraParameters where
  angle_axis_0 : Double
  angle_axis_1 : Double
  angle_axis_2 : Double
  position_0 : Double
  position_1 : Double
  position_2 : Double
  focal_length_x : Double
  focal_length_y : Double
  center_x : Double
  center_y : Double
  distortion_k1 : Double
  distortion_k2 : Double
  distortion_k3 : Double
  distortion_p1 : Double
  distortion_p2 : Double
  deriving DecidableEq, Repr, Inhabited

/-- Modelled from the spec: `Pose6d` (absent `basic_types.h`), the six values of `pb_pose`. -/
structure Pose6d where
  ax : Double
  ay : Double
  az : Double
  x : Double
  y : Double
  z : Double
  deriving DecidableEq, Repr, Inhabited

/-- Modelled from the spec: `Point3d` (absent `basic_types.h`), the three values of `pb`. -/
structure Point3d where
  x : Double
  y : Double
  z : Double
  deriving DecidableEq, Repr, Inhabited

/-- Modelled from the spec: rows and columns of a checker board pattern. -/
structure CheckerBoardParameters where
  pattern_rows : Int
  pattern_cols : Int
  deriving DecidableEq, Repr, Inhabited

/-- Modelled from the spec: rows, columns and symmetry of a circle grid pattern. -/
structure CircleGridParameters where
  pattern_rows : Int
  pattern_cols : Int
  is_symmetric : Bool
  deriving DecidableEq, Repr, Inhabited

/-- Modelled from the spec: `Target` (absent `basic_types.h`), with the members the
sources read or write. -/
structure Target where
  target_name : String
  target_type : Nat
  is_moving : Bool
  pose : Pose6d
  num_points : Nat
  pts : List Point3d
  checker_board_parameters : CheckerBoardParameters
  circle_grid_parameters : CircleGridParameters
  deriving DecidableEq, Repr, Inhabited

/-- Modelled from the spec: `Camera` (absent `calibration_job.hpp`), with the members the
sources read or write.  `camera_observer_` is a `shared_ptr` and may be null. -/
structure Camera where
  camera_name_ : String
  camera_parameters_ : CameraParameters
  is_moving_ : Bool
  camera_observer_ : Option ObserverPtr
  deriving DecidableEq, Repr, Inhabited

/-- Modelled from the spec: `MovingCamera` (absent `calibration_job.hpp`): a camera and
the scene it belongs to. -/
structure MovingCamera where
  cam : CameraPtr
  scene_id : Int
  deriving DecidableEq, Repr

/-- Modelled from the spec: `MovingTarget` (absent `calibration_job.hpp`): a target and
the scene it belongs to. -/
structure MovingTarget where
  targ : TargetPtr
  scene_id : Int
  deriving DecidableEq, Repr

/-! ## The heap -/

/-- Object store.  `cameras a` is the content of the camera storage at address `a`,
likewise for targets.  Camera storage below `camera_brk` has been handed out at least
once; `camera_free` lists the addresses whose `Camera` has been released since, the most
recently released first.  Storage at or above `camera_brk` and released storage hold no
object: their content is what was left there.  `target_brk` is the next address
`make_shared<Target>` hands out. -/
structure Heap where
  cameras : CameraPtr → Camera
  targets : TargetPtr → Target
  camera_brk : Nat
  target_brk : Nat
  camera_free : List CameraPtr := []

/-- The address holds a `Camera` object: it has been handed out and not released. -/
def Heap.live_camera (h : Heap) (camera : CameraPtr) : Prop :=
  camera < h.camera_brk ∧ camera ∉ h.camera_free

instance Heap.decidable_live_camera (h : Heap) (camera : CameraPtr) :
    Decidable (h.live_camera camera) :=
  inferInstanceAs (Decidable (camera < h.camera_brk ∧ camera ∉ h.camera_free))

/-- The address holds a `Target` object. -/
def Heap.live_target (h : Heap) (target : TargetPtr) : Prop :=
  target < h.target_brk

instance Heap.decidable_live_target (h : Heap) (target : TargetPtr) :
    Decidable (h.live_target target) :=
  inferInstanceAs (Decidable (target < h.target_brk))

/-- The storage the next `make_shared<Camera>` uses: the most recently released storage,
and fresh storage when none is released (the usual last-released-first-reused policy of
`operator new`).  Entries of `camera_free` at or above `camera_brk` are not storage that
was handed out and are passed over. -/
def Heap.next_Camera (h : Heap) : CameraPtr :=
  match h.camera_free.find? (fun a => decide (a < h.camera_brk)) with
  | some a => a
  | none => h.camera_brk

/-- The last owner of the `Camera` at `camera` lets go of it: the object is destroyed and
its storage is free for the next `make_shared<Camera>`. -/
def Heap.release_Camera (h : Heap) (camera : CameraPtr) : Heap :=
  { h with camera_free := camera :: h.camera_free }

/-- `Camera::Camera()`: name "NONE", not moving. -/
def Camera.ctor0 (storage : Camera) : Camera :=
  { storage with camera_name_ := "NONE", is_moving_ := false, camera_observer_ := none }

/-- `Camera::Camera(string name, CameraParameters camera_parameters, bool is_moving)`,
run on the raw `storage` of the new object.  The member initialiser is
`camera_parameters_(camera_parameters_)`: the member is initialised from itself, so it
keeps whatever the storage held and the argument `camera_parameters` is not used. -/
def Camera.ctor (storage : Camera) (name : String) (_camera_parameters : CameraParameters)
    (is_moving : Bool) : Camera :=
  { camera_name_ := name
    camera_parameters_ := storage.camera_parameters_
    is_moving_ := is_moving
    camera_observer_ := none }

/-- `Camera::isMoving`. -/
def Camera.isMoving (self : Camera) : Bool :=
  self.is_moving_

/-- `make_shared<Camera>(name, camera_parameters, is_moving)`: constructs the camera in
the storage `next_Camera` and returns its address. -/
def Heap.make_shared_Camera (h : Heap) (name : String) (camera_parameters : CameraParameters)
    (is_moving : Bool) : CameraPtr × Heap :=
  (h.next_Camera,
   { h with
     cameras := Function.update h.cameras h.next_Camera
       (Camera.ctor (h.cameras h.next_Camera) name camera_parameters is_moving)
     camera_brk := if h.next_Camera = h.camera_brk then h.camera_brk + 1 else h.camera_brk
     camera_free := h.camera_free.filter (fun a => decide (a ≠ h.next_Camera)) })

/-- Value of `&(target->pts[point_id].pb[0])`: element `point_id` of the storage of
`pts`, without a range check; an empty `pts` has no storage. -/
def Heap.point_block (h : Heap) (target : TargetPtr) (point_id : Int) : P_BLOCK :=
  if (h.targets target).pts = [] then
    if point_id = 0 then P_BLOCK.NULL else P_BLOCK.null_offset point_id
  else P_BLOCK.pb target point_id

/-- Modelled from the spec: the value-initialised `Target` that `make_shared<Target>()`
builds (the struct is declared in the absent `basic_types.h`). -/
def Target.value_init : Target :=
  { target_name := ""
    target_type := 0
    is_moving := false
    pose := ⟨0, 0, 0, 0, 0, 0⟩
    num_points := 0
    pts := []
    checker_board_parameters := ⟨0, 0⟩
    circle_grid_parameters := ⟨0, 0, false⟩ }

/-- `make_shared<Target>()`. -/
def Heap.make_shared_Target (h : Heap) : TargetPtr × Heap :=
  (h.target_brk,
   { h with
     targets := Function.update h.targets h.target_brk Target.value_init
     target_brk := h.target_brk + 1 })

/-! ## CeresBlocks: the registry -/

/-- Modelled from the spec: the four collections of `CeresBlocks` (absent
`calibration_job.hpp`), each a `std::vector` of shared pointers in insertion order. -/
structure CeresBlocks where
  static_cameras_ : List CameraPtr
  static_targets_ : List TargetPtr
  moving_cameras_ : List MovingCamera
  moving_targets_ : List MovingTarget
  deriving DecidableEq, Repr

/-- The loop `BOOST_FOREACH(x, xs) { if (test x) return (found x); } return (otherwise);`. -/
def foreach_return {α β : Type} (test : α → Bool) (found : α → β) (otherwise : β) :
    List α → β
  | [] => otherwise
  | x :: xs => if test x then found x else foreach_return test found otherwise xs

/-- `CeresBlocks::CeresBlocks()`. -/
def CeresBlocks.ctor : CeresBlocks :=
  { static_cameras_ := [], static_targets_ := [], moving_cameras_ := [], moving_targets_ := [] }

/-- `CeresBlocks::clearCamerasTargets`: the four `clear()` calls.  The `Camera` of a
moving entry is the copy `addMovingCamera` made for it and the entry is its only owner,
so clearing `moving_cameras_` releases these copies, the first entry first.  A static
camera and the target of any entry are the objects that were handed to the `add` call;
the heap does not count the owners of an object, and these are taken to have an owner
besides the registry (the scene or the observation that names them), so that dropping
the registry's pointer releases nothing. -/
def CeresBlocks.clearCamerasTargets (h : Heap) (self : CeresBlocks) : Heap × CeresBlocks :=
  (self.moving_cameras_.foldl (fun heap moving_camera => heap.release_Camera moving_camera.cam) h,
   { static_cameras_ := [], static_targets_ := [], moving_cameras_ := [],
     moving_targets_ := [] })

/-- `CeresBlocks::getStaticCameraParameterBlockIntrinsics`. -/
def CeresBlocks.getStaticCameraParameterBlockIntrinsics (h : Heap) (self : CeresBlocks)
    (camera_name : String) : P_BLOCK :=
  foreach_return (fun camera => decide (camera_name = (h.cameras camera).camera_name_))
    (fun camera => P_BLOCK.pb_intrinsics camera) P_BLOCK.NULL self.static_cameras_

/-- `CeresBlocks::getMovingCameraParameterBlockIntrinsics`: the first entry with the
name, whatever its scene. -/
def CeresBlocks.getMovingCameraParameterBlockIntrinsics (h : Heap) (self : CeresBlocks)
    (camera_name : String) : P_BLOCK :=
  foreach_return
    (fun moving_camera => decide (camera_name = (h.cameras moving_camera.cam).camera_name_))
    (fun moving_camera => P_BLOCK.pb_intrinsics moving_camera.cam) P_BLOCK.NULL
    self.moving_cameras_

/-- `CeresBlocks::getStaticCameraParameterBlockExtrinsics`. -/
def CeresBlocks.getStaticCameraParameterBlockExtrinsics (h : Heap) (self : CeresBlocks)
    (camera_name : String) : P_BLOCK :=
  foreach_return (fun camera => decide (camera_name = (h.cameras camera).camera_name_))
    (fun camera => P_BLOCK.pb_extrinsics camera) P_BLOCK.NULL self.static_cameras_

/-- `CeresBlocks::getMovingCameraParameterBlockExtrinsics`. -/
def CeresBlocks.getMovingCameraParameterBlockExtrinsics (h : Heap) (self : CeresBlocks)
    (camera_name : String) (scene_id : Int) : P_BLOCK :=
  foreach_return
    (fun camera => decide (camera_name = (h.cameras camera.cam).camera_name_) &&
      decide (scene_id = camera.scene_id))
    (fun camera => P_BLOCK.pb_extrinsics camera.cam) P_BLOCK.NULL self.moving_cameras_

/-- `CeresBlocks::getStaticTargetPoseParameterBlock`. -/
def CeresBlocks.getStaticTargetPoseParameterBlock (h : Heap) (self : CeresBlocks)
    (target_name : String) : P_BLOCK :=
  foreach_return (fun target => decide (target_name = (h.targets target).target_name))
    (fun target => P_BLOCK.pb_pose target) P_BLOCK.NULL self.static_targets_

/-- `CeresBlocks::getStaticTargetPointParameterBlock`. -/
def CeresBlocks.getStaticTargetPointParameterBlock (h : Heap) (self : CeresBlocks)
    (target_name : String) (point_id : Int) : P_BLOCK :=
  foreach_return (fun target => decide (target_name = (h.targets target).target_name))
    (fun target => h.point_block target point_id) P_BLOCK.NULL self.static_targets_

/-- `CeresBlocks::getMovingTargetPoseParameterBlock`. -/
def CeresBlocks.getMovingTargetPoseParameterBlock (h : Heap) (self : CeresBlocks)
    (target_name : String) (scene_id : Int) : P_BLOCK :=
  foreach_return
    (fun moving_target => decide (target_name = (h.targets moving_target.targ).target_name) &&
      decide (scene_id = moving_target.scene_id))
    (fun moving_target => P_BLOCK.pb_pose moving_target.targ) P_BLOCK.NULL self.moving_targets_

/-- `CeresBlocks::getMovingTargetPointParameterBlock`: the first entry with the name,
whatever its scene. -/
def CeresBlocks.getMovingTargetPointParameterBlock (h : Heap) (self : CeresBlocks)
    (target_name : String) (pnt_id : Int) : P_BLOCK :=
  foreach_return
    (fun moving_target => decide (target_name = (h.targets moving_target.targ).target_name))
    (fun moving_target => h.point_block moving_target.targ pnt_id) P_BLOCK.NULL
    self.moving_targets_

/-- `CeresBlocks::addStaticCamera`. -/
def CeresBlocks.addStaticCamera (h : Heap) (self : CeresBlocks) (camera_to_add : CameraPtr) :
    Bool × CeresBlocks :=
  foreach_return
    (fun cam => decide ((h.cameras cam).camera_name_ = (h.cameras camera_to_add).camera_name_))
    (fun _ => (false, self))
    (true, { self with static_cameras_ := self.static_cameras_ ++ [camera_to_add] })
    self.static_cameras_

/-- `CeresBlocks::addStaticTarget`. -/
def CeresBlocks.addStaticTarget (h : Heap) (self : CeresBlocks) (target_to_add : TargetPtr) :
    Bool × CeresBlocks :=
  foreach_return
    (fun targ => decide ((h.targets targ).target_name = (h.targets target_to_add).target_name))
    (fun _ => (false, self))
    (true, { self with static_targets_ := self.static_targets_ ++ [target_to_add] })
    self.static_targets_

/-- `CeresBlocks::addMovingCamera`: when no entry has the name and the scene, a new
`Camera` is allocated from the name and parameters of `camera_to_add` and entered. -/
def CeresBlocks.addMovingCamera (h : Heap) (self : CeresBlocks) (camera_to_add : CameraPtr)
    (scene_id : Int) : Bool × Heap × CeresBlocks :=
  foreach_return
    (fun cam => decide ((h.cameras cam.cam).camera_name_ = (h.cameras camera_to_add).camera_name_)
      && decide (cam.scene_id = scene_id))
    (fun _ => (false, h, self))
    (let temp_camera := h.make_shared_Camera (h.cameras camera_to_add).camera_name_
        (h.cameras camera_to_add).camera_parameters_ true
     let temp_moving_camera : MovingCamera := { cam := temp_camera.1, scene_id := scene_id }
     (true, temp_camera.2,
      { self with moving_cameras_ := self.moving_cameras_ ++ [temp_moving_camera] }))
    self.moving_cameras_

/-- `CeresBlocks::addMovingTarget`: when no entry has the name and the scene, the entry
holds `target_to_add` itself.  The `Target` the function allocates (`temp_camera`) is
never linked to the entry and is released on return, so the heap is left as it was. -/
def CeresBlocks.addMovingTarget (h : Heap) (self : CeresBlocks) (target_to_add : TargetPtr)
    (scene_id : Int) : Bool × CeresBlocks :=
  foreach_return
    (fun targ => decide ((h.targets targ.targ).target_name = (h.targets target_to_add).target_name)
      && decide (targ.scene_id = scene_id))
    (fun _ => (false, self))
    (let _temp_camera := h.make_shared_Target
     let temp_moving_target : MovingTarget := { targ := target_to_add, scene_id := scene_id }
     (true, { self with moving_targets_ := self.moving_targets_ ++ [temp_moving_target] }))
    self.moving_targets_

/-! ## Scenes, observations and the observation store -/

/-- Modelled from the spec: `Roi` (absent `basic_types.h`), a region of interest. -/
structure Roi where
  x_min : Int
  x_max : Int
  y_min : Int
  y_max : Int
  deriving DecidableEq, Repr, Inhabited

/-- Modelled from the spec: `ObservationCmd` (absent `calibration_job.hpp`). -/
structure ObservationCmd where
  camera : CameraPtr
  target : TargetPtr
  roi : Roi
  deriving DecidableEq, Repr

/-- Modelled from the spec: `ObservationScene` (absent `calibration_job.hpp`); `scene_id_`
is what `get_id()` returns. -/
structure ObservationScene where
  scene_id_ : Int
  observation_command_list_ : List ObservationCmd
  cameras_in_scene_ : List CameraPtr
  deriving DecidableEq, Repr

/-- `ObservationScene::addObservationToScene`.  The flag is set inside two nested loops:
once for every command already in the scene, every camera of the scene is compared with
the camera of the new command. -/
def ObservationScene.addObservationToScene (h : Heap) (self : ObservationScene)
    (new_obs_cmd : ObservationCmd) : ObservationScene :=
  let camera_already_in_scene : Bool :=
    self.observation_command_list_.foldl
      (fun flag _command =>
        self.cameras_in_scene_.foldl
          (fun flag camera =>
            if (h.cameras camera).camera_name_ = (h.cameras new_obs_cmd.camera).camera_name_
            then true else flag)
          flag)
      false
  { self with
    cameras_in_scene_ :=
      if camera_already_in_scene then self.cameras_in_scene_
      else self.cameras_in_scene_ ++ [new_obs_cmd.camera]
    observation_command_list_ := self.observation_command_list_ ++ [new_obs_cmd] }

/-- Modelled from the spec: `Observation` (absent `basic_types.h`): one detected feature,
tied to the target it belongs to. -/
structure Observation where
  target : TargetPtr
  point_id : Int
  image_loc_x : Double
  image_loc_y : Double
  deriving DecidableEq, Repr

/-- Modelled from the spec: `CameraObservations` (absent `basic_types.h`). -/
structure CameraObservations where
  observations : List Observation
  deriving DecidableEq, Repr

/-- Modelled from the spec: `ObservationDataPoint` (absent `calibration_job.hpp`); the
constructor stores its ten arguments. -/
structure ObservationDataPoint where
  camera_name_ : String
  target_name_ : String
  scene_id_ : Int
  camera_intrinsics_ : P_BLOCK
  camera_extrinsics_ : P_BLOCK
  point_id_ : Int
  target_pose_ : P_BLOCK
  point_position_ : P_BLOCK
  image_x_ : Double
  image_y_ : Double
  deriving DecidableEq, Repr

/-- Modelled from the spec: `ObservationDataPointList` (absent `calibration_job.hpp`). -/
structure ObservationDataPointList where
  items : List ObservationDataPoint
  deriving DecidableEq, Repr

/-- `ObservationDataPointList::addObservationPoint`. -/
def ObservationDataPointList.addObservationPoint (self : ObservationDataPointList)
    (new_data_point : ObservationDataPoint) : ObservationDataPointList :=
  { items := self.items ++ [new_data_point] }

/-- Modelled from the spec: the abstract class `CameraObserver` (absent
`camera_observer.hpp`): the six virtual methods `runObservations` calls.  `σ` is the joint
state of all observer objects and of whatever they observe; every method is a transition
of it, selected by the address of the observer it is called on.  `getObservations` gets
the `CameraObservations` passed by reference and returns it with the `int` result. -/
structure CameraObserver (σ : Type) where
  clearObservations : ObserverPtr → σ → σ
  clearTargets : ObserverPtr → σ → σ
  addTarget : Heap → ObserverPtr → TargetPtr → Roi → σ → Bool × σ
  triggerCamera : ObserverPtr → σ → σ
  observationsDone : ObserverPtr → σ → Bool
  getObservations : ObserverPtr → CameraObservations → σ → (Int × CameraObservations) × σ

/-- Modelled from the spec: the members of `CalibrationJob` (absent
`calibration_job.hpp`) that the observation pass reads or writes. -/
structure CalibrationJob where
  ceres_blocks_ : CeresBlocks
  scene_list_ : List ObservationScene
  observation_data_point_list_ : ObservationDataPointList
  deriving DecidableEq, Repr

/-- A calibration job together with the heap its pointers refer to and the state of the
camera observers. -/
structure Machine (σ : Type) where
  heap : Heap
  observers : σ
  job : CalibrationJob

/-! ## CalibrationJob::runObservations -/

/-- First loop of a scene: `clearObservations` and `clearTargets` on the observer of
every camera of the scene.  A null observer pointer ends the run. -/
def runObservations_clear {σ : Type} (observer : CameraObserver σ) (h : Heap) :
    List CameraPtr → σ → Option σ
  | [], s => some s
  | current_camera :: rest, s =>
    match (h.cameras current_camera).camera_observer_ with
    | none => none
    | some o =>
      runObservations_clear observer h rest
        (observer.clearTargets o (observer.clearObservations o s))

/-- Second loop of a scene: `addTarget(o_command.target, o_command.roi)` on the observer
of the camera of every command; the returned `bool` is dropped. -/
def runObservations_addTarget {σ : Type} (observer : CameraObserver σ) (h : Heap) :
    List ObservationCmd → σ → Option σ
  | [], s => some s
  | o_command :: rest, s =>
    match (h.cameras o_command.camera).camera_observer_ with
    | none => none
    | some o =>
      runObservations_addTarget observer h rest
        (observer.addTarget h o o_command.target o_command.roi s).2

/-- Third loop of a scene: `triggerCamera` on the observer of every camera. -/
def runObservations_trigger {σ : Type} (observer : CameraObserver σ) (h : Heap) :
    List CameraPtr → σ → Option σ
  | [], s => some s
  | current_camera :: rest, s =>
    match (h.cameras current_camera).camera_observer_ with
    | none => none
    | some o => runObservations_trigger observer h rest (observer.triggerCamera o s)

/-- Body of the loop over the observations of one camera: registers the target of the
observation, resolves its pose and point blocks and appends one data point. -/
def runObservations_observation {σ : Type} (scene_id : Int) (camera_name : String)
    (intrinsics extrinsics : P_BLOCK) (m : Machine σ) (observation : Observation) :
    Machine σ :=
  let target_name := (m.heap.targets observation.target).target_name
  let pnt_id := observation.point_id
  let observation_x := observation.image_loc_x
  let observation_y := observation.image_loc_y
  if (m.heap.targets observation.target).is_moving then
    let blocks := (m.job.ceres_blocks_.addMovingTarget m.heap observation.target scene_id).2
    let target_pose := blocks.getMovingTargetPoseParameterBlock m.heap target_name scene_id
    let pnt_pos := blocks.getMovingTargetPointParameterBlock m.heap target_name pnt_id
    let temp_ODP : ObservationDataPoint :=
      ⟨camera_name, target_name, scene_id, intrinsics, extrinsics, pnt_id, target_pose,
        pnt_pos, observation_x, observation_y⟩
    { m with
      job := { m.job with
        ceres_blocks_ := blocks
        observation_data_point_list_ :=
          m.job.observation_data_point_list_.addObservationPoint temp_ODP } }
  else
    let blocks := (m.job.ceres_blocks_.addStaticTarget m.heap observation.target).2
    let target_pose := blocks.getStaticTargetPoseParameterBlock m.heap target_name
    let pnt_pos := blocks.getStaticTargetPointParameterBlock m.heap target_name pnt_id
    let temp_ODP : ObservationDataPoint :=
      ⟨camera_name, target_name, scene_id, intrinsics, extrinsics, pnt_id, target_pose,
        pnt_pos, observation_x, observation_y⟩
    { m with
      job := { m.job with
        ceres_blocks_ := blocks
        observation_data_point_list_ :=
          m.job.observation_data_point_list_.addObservationPoint temp_ODP } }

/-- Body of the loop that collects the results of one camera.  The busy wait
`while (!observationsDone());` calls nothing that changes the observers, so it either
falls through at once or never ends; a wait that never ends, like a null observer
pointer, gives no result. -/
def runObservations_camera {σ : Type} (observer : CameraObserver σ) (scene_id : Int)
    (m : Machine σ) (camera : CameraPtr) : Option (Machine σ) :=
  match (m.heap.cameras camera).camera_observer_ with
  | none => none
  | some o =>
    if observer.observationsDone o m.observers = false then none
    else
      let camera_name := (m.heap.cameras camera).camera_name_
      let registered : Heap × CeresBlocks × P_BLOCK × P_BLOCK :=
        if (m.heap.cameras camera).isMoving then
          let r := m.job.ceres_blocks_.addMovingCamera m.heap camera scene_id
          (r.2.1, r.2.2,
            r.2.2.getMovingCameraParameterBlockIntrinsics r.2.1 camera_name,
            r.2.2.getMovingCameraParameterBlockExtrinsics r.2.1 camera_name scene_id)
        else
          let r := m.job.ceres_blocks_.addStaticCamera m.heap camera
          (m.heap, r.2,
            r.2.getStaticCameraParameterBlockIntrinsics m.heap camera_name,
            r.2.getStaticCameraParameterBlockExtrinsics m.heap camera_name)
      let intrinsics := registered.2.2.1
      let extrinsics := registered.2.2.2
      let got := observer.getObservations o { observations := [] } m.observers
      let camera_observations := got.1.2
      some (camera_observations.observations.foldl
        (runObservations_observation scene_id camera_name intrinsics extrinsics)
        { heap := registered.1
          observers := got.2
          job := { m.job with ceres_blocks_ := registered.2.1 } })

/-- Fourth loop of a scene: every camera of the scene in turn. -/
def runObservations_cameras {σ : Type} (observer : CameraObserver σ) (scene_id : Int) :
    List CameraPtr → Machine σ → Option (Machine σ)
  | [], m => some m
  | camera :: rest, m =>
    match runObservations_camera observer scene_id m camera with
    | none => none
    | some m1 => runObservations_cameras observer scene_id rest m1

/-- Body of the loop over the scenes. -/
def runObservations_scene {σ : Type} (observer : CameraObserver σ) (m : Machine σ)
    (current_scene : ObservationScene) : Option (Machine σ) :=
  let scene_id := current_scene.scene_id_
  match runObservations_clear observer m.heap current_scene.cameras_in_scene_ m.observers with
  | none => none
  | some s1 =>
    match runObservations_addTarget observer m.heap current_scene.observation_command_list_ s1 with
    | none => none
    | some s2 =>
      match runObservations_trigger observer m.heap current_scene.cameras_in_scene_ s2 with
      | none => none
      | some s3 =>
        runObservations_cameras observer scene_id current_scene.cameras_in_scene_
          { m with observers := s3 }

/-- The loop over `scene_list_`. -/
def runObservations_scenes {σ : Type} (observer : CameraObserver σ) :
    List ObservationScene → Machine σ → Option (Machine σ)
  | [], m => some m
  | current_scene :: rest, m =>
    match runObservations_scene observer m current_scene with
    | none => none
    | some m1 => runObservations_scenes observer rest m1

/-- How the body of a function declared to return `bool` is left: through a `return`
statement with a value, or by control reaching the closing brace, where there is no value
to return and what the caller gets is undefined. -/
inductive Completion (α : Type) where
  | returned (value : Bool) (state : α)
  | no_return (state : α)

/-- The state in which the body is left. -/
def Completion.state {α : Type} : Completion α → α
  | .returned _ state => state
  | .no_return state => state

/-- First statement of `runObservations`: `this->ceres_blocks_.clearCamerasTargets()`. -/
def runObservations_begin {σ : Type} (m : Machine σ) : Machine σ :=
  { m with
    heap := (m.job.ceres_blocks_.clearCamerasTargets m.heap).1
    job := { m.job with ceres_blocks_ := (m.job.ceres_blocks_.clearCamerasTargets m.heap).2 } }

/-- `CalibrationJob::runObservations`: clears the registry (not the observation store)
and processes the scenes in order.  The function is declared `bool` and has no `return`
statement, so when the loop over the scenes ends control reaches the closing brace:
`Completion.no_return`.  `none` is a run in which control never gets there (a null
observer pointer, a wait that never ends). -/
def CalibrationJob.runObservations {σ : Type} (observer : CameraObserver σ) (m : Machine σ) :
    Option (Completion (Machine σ)) :=
  (runObservations_scenes observer m.job.scene_list_ (runObservations_begin m)).map
    Completion.no_return

/-! ## Vocabulary of the statements -/

/-- Every camera pointer held by the registry owns a `Camera` object. -/
def CeresBlocks.live (h : Heap) (self : CeresBlocks) : Prop :=
  (∀ c ∈ self.static_cameras_, h.live_camera c) ∧
  (∀ mc ∈ self.moving_cameras_, h.live_camera mc.cam)

/-- No two entries of one collection have the same identity: the name for static
entries, the name and the scene for moving entries. -/
def CeresBlocks.distinct (h : Heap) (self : CeresBlocks) : Prop :=
  self.static_cameras_.Pairwise
    (fun c1 c2 => (h.cameras c1).camera_name_ ≠ (h.cameras c2).camera_name_) ∧
  self.static_targets_.Pairwise
    (fun t1 t2 => (h.targets t1).target_name ≠ (h.targets t2).target_name) ∧
  self.moving_cameras_.Pairwise
    (fun m1 m2 => ¬ ((h.cameras m1.cam).camera_name_ = (h.cameras m2.cam).camera_name_ ∧
      m1.scene_id = m2.scene_id)) ∧
  self.moving_targets_.Pairwise
    (fun m1 m2 => ¬ ((h.targets m1.targ).target_name = (h.targets m2.targ).target_name ∧
      m1.scene_id = m2.scene_id))

/-- A call of one of the five mutating methods of `CeresBlocks`, with its arguments. -/
inductive RegistryCall where
  | addStaticCamera (camera_to_add : CameraPtr)
  | addStaticTarget (target_to_add : TargetPtr)
  | addMovingCamera (camera_to_add : CameraPtr) (scene_id : Int)
  | addMovingTarget (target_to_add : TargetPtr) (scene_id : Int)
  | clearCamerasTargets
  deriving DecidableEq, Repr

/-- Heap and registry after the call. -/
def RegistryCall.run (h : Heap) (b : CeresBlocks) : RegistryCall → Heap × CeresBlocks
  | .addStaticCamera camera_to_add => (h, (b.addStaticCamera h camera_to_add).2)
  | .addStaticTarget target_to_add => (h, (b.addStaticTarget h target_to_add).2)
  | .addMovingCamera camera_to_add scene_id => (b.addMovingCamera h camera_to_add scene_id).2
  | .addMovingTarget target_to_add scene_id => (h, (b.addMovingTarget h target_to_add scene_id).2)
  | .clearCamerasTargets => b.clearCamerasTargets h

/-- The call is one of the four `add` methods. -/
def RegistryCall.isAdd : RegistryCall → Bool
  | .clearCamerasTargets => false
  | _ => true

/-- The camera passed to the call, when there is one, is an allocated object. -/
def RegistryCall.argLive (h : Heap) : RegistryCall → Prop
  | .addStaticCamera camera_to_add => h.live_camera camera_to_add
  | .addMovingCamera camera_to_add _ => h.live_camera camera_to_add
  | _ => True

/-- The registry states: what a `CeresBlocks` that starts empty, over any heap, can
become through calls of its five mutating methods on allocated cameras and any targets. -/
inductive Reachable : Heap → CeresBlocks → Prop where
  | ctor (h : Heap) : Reachable h CeresBlocks.ctor
  | call {h : Heap} {b : CeresBlocks} (c : RegistryCall) :
      Reachable h b → c.argLive h → Reachable (c.run h b).1 (c.run h b).2

/-- A call of one of the eight lookup methods of `CeresBlocks`, with the identity it
looks up. -/
inductive Lookup where
  | StaticCameraIntrinsics (camera_name : String)
  | MovingCameraIntrinsics (camera_name : String)
  | StaticCameraExtrinsics (camera_name : String)
  | MovingCameraExtrinsics (camera_name : String) (scene_id : Int)
  | StaticTargetPose (target_name : String)
  | StaticTargetPoint (target_name : String) (point_id : Int)
  | MovingTargetPose (target_name : String) (scene_id : Int)
  | MovingTargetPoint (target_name : String) (pnt_id : Int)
  deriving DecidableEq, Repr

/-- The handle the lookup returns. -/
def Lookup.get (h : Heap) (b : CeresBlocks) : Lookup → P_BLOCK
  | .StaticCameraIntrinsics n => b.getStaticCameraParameterBlockIntrinsics h n
  | .MovingCameraIntrinsics n => b.getMovingCameraParameterBlockIntrinsics h n
  | .StaticCameraExtrinsics n => b.getStaticCameraParameterBlockExtrinsics h n
  | .MovingCameraExtrinsics n s => b.getMovingCameraParameterBlockExtrinsics h n s
  | .StaticTargetPose n => b.getStaticTargetPoseParameterBlock h n
  | .StaticTargetPoint n i => b.getStaticTargetPointParameterBlock h n i
  | .MovingTargetPose n s => b.getMovingTargetPoseParameterBlock h n s
  | .MovingTargetPoint n i => b.getMovingTargetPointParameterBlock h n i

/-- The heap `h2` is `h1` after some allocations: the camera objects of `h1` are
untouched and still there, the targets are the same. -/
def Heap.grows (h1 h2 : Heap) : Prop :=
  (∀ p, h1.live_camera p → h2.cameras p = h1.cameras p) ∧
  h2.targets = h1.targets ∧ ∀ p, h1.live_camera p → h2.live_camera p

/-- The registry `b2` is `b1` with entries appended: every collection of `b1` is an
initial segment of the same collection of `b2`. -/
def CeresBlocks.grows (b1 b2 : CeresBlocks) : Prop :=
  b1.static_cameras_ <+: b2.static_cameras_ ∧
  b1.static_targets_ <+: b2.static_targets_ ∧
  b1.moving_cameras_ <+: b2.moving_cameras_ ∧
  b1.moving_targets_ <+: b2.moving_targets_


/-! ## Example objects (used to instantiate the theorems) -/

/-- A static camera "A" watched by observer 0. -/
def Example.camera_A : Camera := ⟨"A", default, false, some 0⟩

/-- A moving camera "B" watched by observer 1. -/
def Example.camera_B : Camera := ⟨"B", default, true, some 1⟩

/-- A static target "T" with four points. -/
def Example.target_T : Target :=
  { Target.value_init with
    target_name := "T"
    num_points := 4
    pts := [⟨0, 0, 0⟩, ⟨1, 0, 0⟩, ⟨0, 1, 0⟩, ⟨1, 1, 0⟩] }

/-- A moving target "M" with no points. -/
def Example.target_M : Target :=
  { Target.value_init with target_name := "M", is_moving := true }

/-- A heap with cameras "A" (address 0) and "B" (address 1) and targets "T" (address 0)
and "M" (address 1). -/
def Example.heap : Heap :=
  { cameras := fun a => if a = 0 then Example.camera_A else if a = 1 then Example.camera_B
      else default
    targets := fun a => if a = 0 then Example.target_T else if a = 1 then Example.target_M
      else default
    camera_brk := 2
    target_brk := 2 }

/-- The registry holding the static camera "A" and nothing else. -/
def Example.blocks_A : CeresBlocks :=
  { static_cameras_ := [0], static_targets_ := [], moving_cameras_ := [], moving_targets_ := [] }

/-- Heap and registry after a sequence of calls, first call first. -/
def RegistryCall.runAll (h : Heap) (b : CeresBlocks) : List RegistryCall → Heap × CeresBlocks
  | [] => (h, b)
  | c :: rest => RegistryCall.runAll (c.run h b).1 (c.run h b).2 rest

/-- A sequence of calls that repeats identities: camera "A" twice as a static camera,
camera "B" under scenes 0, 1 and 0 again, target "M" under scenes 0 and 1, target "T"
twice as a static target. -/
def Example.calls : List RegistryCall :=
  [.addStaticCamera 0, .addStaticCamera 0, .addMovingCamera 1 0, .addMovingCamera 1 1,
   .addMovingCamera 1 0, .addMovingTarget 1 0, .addMovingTarget 1 1, .addStaticTarget 0,
   .addStaticTarget 0]

/-- State of the job between two steps of the observation pass: the registry. -/
abbrev Machine.blocks {σ : Type} (m : Machine σ) : CeresBlocks :=
  m.job.ceres_blocks_

/-- State of the job between two steps of the observation pass: the data points. -/
abbrev Machine.items {σ : Type} (m : Machine σ) : List ObservationDataPoint :=
  m.job.observation_data_point_list_.items

/-- The extrinsics lookup for a camera: per scene when the camera is moving (its member
`is_moving_` is set), by name when it is static. -/
def camera_extrinsics_lookup (h : Heap) (camera : CameraPtr) (scene_id : Int) : Lookup :=
  if (h.cameras camera).is_moving_ then
    Lookup.MovingCameraExtrinsics (h.cameras camera).camera_name_ scene_id
  else Lookup.StaticCameraExtrinsics (h.cameras camera).camera_name_

/-- The intrinsics lookup for a camera: among the moving cameras when its member
`is_moving_` is set, among the static cameras otherwise. -/
def camera_intrinsics_lookup (h : Heap) (camera : CameraPtr) : Lookup :=
  if (h.cameras camera).is_moving_ then
    Lookup.MovingCameraIntrinsics (h.cameras camera).camera_name_
  else Lookup.StaticCameraIntrinsics (h.cameras camera).camera_name_

/-- The pose lookup `runObservations` uses for the target of an observation. -/
def target_pose_lookup (h : Heap) (target : TargetPtr) (scene_id : Int) : Lookup :=
  if (h.targets target).is_moving then
    Lookup.MovingTargetPose (h.targets target).target_name scene_id
  else Lookup.StaticTargetPose (h.targets target).target_name

/-- The point lookup `runObservations` uses for an observation. -/
def target_point_lookup (h : Heap) (target : TargetPtr) (pnt_id : Int) : Lookup :=
  if (h.targets target).is_moving then
    Lookup.MovingTargetPoint (h.targets target).target_name pnt_id
  else Lookup.StaticTargetPoint (h.targets target).target_name pnt_id

/-- The data point that heap `h` and registry `b` resolve for an observation made by
`camera` in scene `scene_id`: the four handles are what the four lookups return in `b`. -/
def resolved_data_point (h : Heap) (b : CeresBlocks) (scene_id : Int) (camera : CameraPtr)
    (observation : Observation) : ObservationDataPoint :=
  { camera_name_ := (h.cameras camera).camera_name_
    target_name_ := (h.targets observation.target).target_name
    scene_id_ := scene_id
    camera_intrinsics_ := (camera_intrinsics_lookup h camera).get h b
    camera_extrinsics_ := (camera_extrinsics_lookup h camera scene_id).get h b
    point_id_ := observation.point_id
    target_pose_ := (target_pose_lookup h observation.target scene_id).get h b
    point_position_ := (target_point_lookup h observation.target observation.point_id).get h b
    image_x_ := observation.image_loc_x
    image_y_ := observation.image_loc_y }

/-- What the observers hand over in the fourth loop of a scene: for every camera in turn,
the observations its `getObservations` returns in the observer state reached so far. -/
def collected {σ : Type} (observer : CameraObserver σ) (h : Heap) :
    List CameraPtr → σ → List (CameraPtr × List Observation)
  | [], _ => []
  | camera :: rest, s =>
    match (h.cameras camera).camera_observer_ with
    | none => []
    | some o =>
      (camera, (observer.getObservations o { observations := [] } s).1.2.observations) ::
        collected observer h rest (observer.getObservations o { observations := [] } s).2

/-- Camera `c` has an entry in the registry. -/
def CeresBlocks.has_camera (b : CeresBlocks) (c : CameraPtr) : Prop :=
  c ∈ b.static_cameras_ ∨ ∃ mc ∈ b.moving_cameras_, mc.cam = c

/-- Target `t` has an entry in the registry. -/
def CeresBlocks.has_target (b : CeresBlocks) (t : TargetPtr) : Prop :=
  t ∈ b.static_targets_ ∨ ∃ mt ∈ b.moving_targets_, mt.targ = t

/-- The handle points inside the object it belongs to: a point handle `pb t i` is element
`i` of the point sequence of target `t` only when `0 ≤ i < pts.size()`, and a null
pointer, moved or not, points into no object. -/
def P_BLOCK.in_bounds (h : Heap) : P_BLOCK → Prop
  | .NULL => False
  | .null_offset _ => False
  | .pb t i => 0 ≤ i ∧ i < ((h.targets t).pts.length : Int)
  | _ => True

/-- The camera blocks and the target pose block of the data point are blocks of entries
of the registry `b` that carry the names stored in the data point, and its point block is
the value of `&pts[point_id_].pb[0]` on such a target entry. -/
def ObservationDataPoint.resolved (h : Heap) (b : CeresBlocks) (p : ObservationDataPoint) :
    Prop :=
  (∃ c, p.camera_intrinsics_ = P_BLOCK.pb_intrinsics c ∧ b.has_camera c ∧
    (h.cameras c).camera_name_ = p.camera_name_) ∧
  (∃ c, p.camera_extrinsics_ = P_BLOCK.pb_extrinsics c ∧ b.has_camera c ∧
    (h.cameras c).camera_name_ = p.camera_name_) ∧
  (∃ t, p.target_pose_ = P_BLOCK.pb_pose t ∧ b.has_target t ∧
    (h.targets t).target_name = p.target_name_) ∧
  (∃ t, p.point_position_ = h.point_block t p.point_id_ ∧ b.has_target t ∧
    (h.targets t).target_name = p.target_name_)

/-- A synthetic observer without state: every camera is done at once and reports the
observations `obs`. -/
def Example.detector (obs : List Observation) : CameraObserver Unit :=
  { clearObservations := fun _ s => s
    clearTargets := fun _ s => s
    addTarget := fun _ _ _ _ s => (true, s)
    triggerCamera := fun _ s => s
    observationsDone := fun _ _ => true
    getObservations := fun _ _ s => ((1, { observations := obs }), s) }

/-- Four observations of target "T" (address 0), point ids 0 to 3. -/
def Example.four_points : List Observation :=
  [⟨0, 0, 10, 11⟩, ⟨0, 1, 20, 21⟩, ⟨0, 2, 30, 31⟩, ⟨0, 3, 40, 41⟩]

/-- A region of interest. -/
def Example.roi : Roi := ⟨0, 640, 0, 480⟩

/-- One scene, id 0: cameras "A" and "B" both look at target "T". -/
def Example.scene_AB : ObservationScene :=
  { scene_id_ := 0
    observation_command_list_ := [⟨0, 0, Example.roi⟩, ⟨1, 0, Example.roi⟩]
    cameras_in_scene_ := [0, 1] }

/-- A scene with the static camera "A" looking at the static target "T". -/
def Example.scene_A (scene_id : Int) : ObservationScene :=
  { scene_id_ := scene_id
    observation_command_list_ := [⟨0, 0, Example.roi⟩]
    cameras_in_scene_ := [0] }

/-- A job over `Example.heap` with the given scenes, an empty registry and no data
points. -/
def Example.machine (scenes : List ObservationScene) : Machine Unit :=
  { heap := Example.heap
    observers := ()
    job := { ceres_blocks_ := CeresBlocks.ctor
             scene_list_ := scenes
             observation_data_point_list_ := { items := [] } } }

/-- The registration an observation causes in `runObservations`: its target is entered as
a moving target of the scene or as a static target. -/
def register_target (h : Heap) (b : CeresBlocks) (target : TargetPtr) (scene_id : Int) :
    CeresBlocks :=
  if (h.targets target).is_moving then (b.addMovingTarget h target scene_id).2
  else (b.addStaticTarget h target).2

/-- The registration a camera of a scene causes in `runObservations`: it is entered as a
moving camera of the scene when its member `is_moving_` is set, as a static camera
otherwise. -/
def register_camera (h : Heap) (b : CeresBlocks) (camera : CameraPtr) (scene_id : Int) :
    Heap × CeresBlocks :=
  if (h.cameras camera).is_moving_ then (b.addMovingCamera h camera scene_id).2
  else (h, (b.addStaticCamera h camera).2)

/-- Some entry of the collection the lookup searches has the identity it looks for. -/
def Lookup.hits (h : Heap) (b : CeresBlocks) : Lookup → Bool
  | .StaticCameraIntrinsics n =>
    b.static_cameras_.any (fun c => decide (n = (h.cameras c).camera_name_))
  | .MovingCameraIntrinsics n =>
    b.moving_cameras_.any (fun mc => decide (n = (h.cameras mc.cam).camera_name_))
  | .StaticCameraExtrinsics n =>
    b.static_cameras_.any (fun c => decide (n = (h.cameras c).camera_name_))
  | .MovingCameraExtrinsics n s =>
    b.moving_cameras_.any
      (fun mc => decide (n = (h.cameras mc.cam).camera_name_) && decide (s = mc.scene_id))
  | .StaticTargetPose n =>
    b.static_targets_.any (fun t => decide (n = (h.targets t).target_name))
  | .StaticTargetPoint n _ =>
    b.static_targets_.any (fun t => decide (n = (h.targets t).target_name))
  | .MovingTargetPose n s =>
    b.moving_targets_.any
      (fun mt => decide (n = (h.targets mt.targ).target_name) && decide (s = mt.scene_id))
  | .MovingTargetPoint n _ =>
    b.moving_targets_.any (fun mt => decide (n = (h.targets mt.targ).target_name))

/-- The four lookups `runObservations` makes for an observation of `camera` in scene
`scene_id` all find an entry. -/
def found_all (h : Heap) (b : CeresBlocks) (scene_id : Int) (camera : CameraPtr)
    (observation : Observation) : Prop :=
  (camera_intrinsics_lookup h camera).get h b ≠ P_BLOCK.NULL ∧
  (camera_extrinsics_lookup h camera scene_id).get h b ≠ P_BLOCK.NULL ∧
  (target_pose_lookup h observation.target scene_id).get h b ≠ P_BLOCK.NULL ∧
  (target_point_lookup h observation.target observation.point_id).hits h b = true

/-- The data point made from handles that were looked up for it. -/
def data_point_with (h : Heap) (b : CeresBlocks) (sid : Int) (name : String) (I E : P_BLOCK)
    (ob : Observation) : ObservationDataPoint :=
  { camera_name_ := name
    target_name_ := (h.targets ob.target).target_name
    scene_id_ := sid
    camera_intrinsics_ := I
    camera_extrinsics_ := E
    point_id_ := ob.point_id
    target_pose_ := (target_pose_lookup h ob.target sid).get h b
    point_position_ := (target_point_lookup h ob.target ob.point_id).get h b
    image_x_ := ob.image_loc_x
    image_y_ := ob.image_loc_y }

/-- The data point `p` is the one that heap `h` and registry `b` resolve for an
observation which the observer of a camera of one of the `scenes` returned in some state,
and the four lookups for it find an entry. -/
def from_scenes {σ : Type} (observer : CameraObserver σ) (h : Heap) (b : CeresBlocks)
    (scenes : List ObservationScene) (p : ObservationDataPoint) : Prop :=
  ∃ sc ∈ scenes, ∃ c ∈ sc.cameras_in_scene_, ∃ o s ob,
    (h.cameras c).camera_observer_ = some o ∧
    ob ∈ (observer.getObservations o { observations := [] } s).1.2.observations ∧
    found_all h b sc.scene_id_ c ob ∧ p = resolved_data_point h b sc.scene_id_ c ob

/-! ## CalibrationJob::runOptimization -/

/-- Modelled from the spec: the value `block[i]` read through a `P_BLOCK` (the member
arrays are declared in the absent `basic_types.h`): `pb_intrinsics` holds the focal
lengths, the centre and the five distortion values (the source reads `[0]` to `[3]` as
`focal_length_x`, `focal_length_y`, `center_pnt_x`, `center_pnt_y`), `pb_extrinsics` the
angle axis and the position, `pb_pose` the six pose values, `pb` the three coordinates of
a point.  Reading through a null pointer, through a handle into storage that holds no
object (released or never handed out), through a point that is not in the target's
sequence or past the end of the array has no defined value. -/
def Heap.read (h : Heap) : P_BLOCK → Nat → Option Double
  | .NULL, _ => none
  | .null_offset _, _ => none
  | .pb_intrinsics c, i =>
    if h.live_camera c then
      let p := (h.cameras c).camera_parameters_
      [p.focal_length_x, p.focal_length_y, p.center_x, p.center_y, p.distortion_k1,
        p.distortion_k2, p.distortion_k3, p.distortion_p1, p.distortion_p2].get? i
    else none
  | .pb_extrinsics c, i =>
    if h.live_camera c then
      let p := (h.cameras c).camera_parameters_
      [p.angle_axis_0, p.angle_axis_1, p.angle_axis_2, p.position_0, p.position_1,
        p.position_2].get? i
    else none
  | .pb_pose t, i =>
    if h.live_target t then
      let p := (h.targets t).pose
      [p.ax, p.ay, p.az, p.x, p.y, p.z].get? i
    else none
  | .pb t k, i =>
    if h.live_target t ∧ 0 ≤ k then
      match (h.targets t).pts.get? k.toNat with
      | none => none
      | some pt => [pt.x, pt.y, pt.z].get? i
    else none

/-- Modelled from the spec: the cost function
`TargetCameraReprjErrorNoDistortion::Create(ox, oy, fx, fy, cx, cy, pnt_x, pnt_y, pnt_z)`
(absent `ceres_costs_utils.hpp`), kept as the nine constants it is created from. -/
structure CostFunction where
  ox : Double
  oy : Double
  fx : Double
  fy : Double
  cx : Double
  cy : Double
  pnt_x : Double
  pnt_y : Double
  pnt_z : Double
  deriving DecidableEq, Repr

/-- Modelled from the spec: what one call
`problem_.AddResidualBlock(cost_function, loss_function, x0, x1)` adds to a
`ceres::Problem`; `loss_function` is `none` for `NULL`. -/
structure ResidualBlock where
  cost_function : CostFunction
  loss_function : Option Unit
  parameter_blocks : List P_BLOCK
  deriving DecidableEq, Repr

/-- Modelled from the spec: a `ceres::Problem`, kept as the residual blocks added so
far, in order. -/
structure Problem where
  residual_blocks : List ResidualBlock
  deriving DecidableEq, Repr

/-- `ceres::Problem::AddResidualBlock` with two parameter blocks. -/
def Problem.AddResidualBlock (self : Problem) (cost_function : CostFunction)
    (loss_function : Option Unit) (x0 x1 : P_BLOCK) : Problem :=
  { residual_blocks := self.residual_blocks ++ [⟨cost_function, loss_function, [x0, x1]⟩] }

/-- Modelled from the spec: the three members of `ceres::Solver::Options` the source
sets; `linear_solver_type` is the name of the enumerator. -/
structure SolverOptions where
  linear_solver_type : String
  minimizer_progress_to_stdout : Bool
  max_num_iterations : Int
  deriving DecidableEq, Repr

/-- Modelled from the spec: `ceres::Solver::Summary`, as the interface of the
optimization engine describes it. -/
structure SolverSummary where
  converged : Bool
  iterations : Int
  final_cost : Double
  deriving DecidableEq, Repr

/-- What a call of `runOptimization` leaves behind: the `bool` it returns, the problem,
the calls of `ceres::Solve` it made (options and problem of each, in order) and the
summary handed to the caller, if any.  The signature of the function is
`bool runOptimization()`: there is no summary result. -/
structure OptimizationResult where
  returned : Bool
  problem_ : Problem
  solver_calls : List (SolverOptions × Problem)
  summary : Option SolverSummary
  deriving DecidableEq, Repr

/-- Body of the inner loop of `runOptimization`: the constants are read through the
handles of the data point (`none` when a read has no defined value), the cost function
is created and the residual is added on the extrinsics and the target pose blocks. -/
def runOptimization_residual (h : Heap) (problem_ : Problem) (ODP : ObservationDataPoint) :
    Option Problem :=
  match h.read ODP.camera_intrinsics_ 0, h.read ODP.camera_intrinsics_ 1,
    h.read ODP.camera_intrinsics_ 2, h.read ODP.camera_intrinsics_ 3,
    h.read ODP.point_position_ 0, h.read ODP.point_position_ 1,
    h.read ODP.point_position_ 2 with
  | some focal_length_x, some focal_length_y, some center_pnt_x, some center_pnt_y,
    some point_x, some point_y, some point_z =>
    let image_x := ODP.image_x_
    let image_y := ODP.image_y_
    let cost_function : CostFunction :=
      ⟨image_x, image_y, focal_length_x, focal_length_y, center_pnt_x, center_pnt_y,
        point_x, point_y, point_z⟩
    let extrinsics := ODP.camera_extrinsics_
    let target_pose := ODP.target_pose_
    some (problem_.AddResidualBlock cost_function none extrinsics target_pose)
  | _, _, _, _, _, _, _ => none

/-- The inner loop of `runOptimization`, over all data points. -/
def runOptimization_inner (h : Heap) : List ObservationDataPoint → Problem → Option Problem
  | [], problem_ => some problem_
  | ODP :: rest, problem_ =>
    match runOptimization_residual h problem_ ODP with
    | none => none
    | some p => runOptimization_inner h rest p

/-- `CalibrationJob::runOptimization`.  The outer loop runs over the data points; its
body runs the inner loop over all data points, fills in the solver options, declares the
summary and returns `true`, so it is left in its first iteration; with no data point the
`return true` behind the loop is reached.  The call `ceres::Solve(options, &problem,
&summary)` is commented out in the source: the options are not used and no solver is
called. -/
def CalibrationJob.runOptimization (h : Heap) (problem_ : Problem)
    (observation_data_point_list_ : ObservationDataPointList) : Option OptimizationResult :=
  match observation_data_point_list_.items with
  | [] => some { returned := true, problem_ := problem_, solver_calls := [], summary := none }
  | _ODP :: _ =>
    match runOptimization_inner h observation_data_point_list_.items problem_ with
    | none => none
    | some p =>
      let _options : SolverOptions :=
        { linear_solver_type := "DENSE_SCHUR"
          minimizer_progress_to_stdout := true
          max_num_iterations := 1000 }
      some { returned := true, problem_ := p, solver_calls := [], summary := none }

/-- The reads `runOptimization` makes through the handles of the data point all have a
value. -/
def ObservationDataPoint.readable (h : Heap) (p : ObservationDataPoint) : Prop :=
  (h.read p.camera_intrinsics_ 0).isSome = true ∧ (h.read p.camera_intrinsics_ 1).isSome = true ∧
  (h.read p.camera_intrinsics_ 2).isSome = true ∧ (h.read p.camera_intrinsics_ 3).isSome = true ∧
  (h.read p.point_position_ 0).isSome = true ∧ (h.read p.point_position_ 1).isSome = true ∧
  (h.read p.point_position_ 2).isSome = true

/-- Two data points of camera "A" (address 0) looking at points 0 and 1 of target "T". -/
def Example.two_items : List ObservationDataPoint :=
  [⟨"A", "T", 0, .pb_intrinsics 0, .pb_extrinsics 0, 0, .pb_pose 0, .pb 0 0, 10, 11⟩,
   ⟨"A", "T", 0, .pb_intrinsics 0, .pb_extrinsics 0, 1, .pb_pose 0, .pb 0 1, 20, 21⟩]

/-! ## ROSCameraObserver -/

/-- Modelled from the spec: `pattern_options::Chessboard` (absent header); the source
tests `pattern_` against the values 0, 1 and 2. -/
def pattern_options.Chessboard : Nat := 0

/-- Modelled from the spec: `pattern_options::CircleGrid` (absent header). -/
def pattern_options.CircleGrid : Nat := 1

/-- Modelled from the spec: `pattern_options::ARtag` (absent header). -/
def pattern_options.ARtag : Nat := 2

/-- Modelled from the spec: a `cv::Rect`. -/
structure Rect where
  x : Int
  y : Int
  width : Int
  height : Int
  deriving DecidableEq, Repr, Inhabited

/-- Modelled from the spec: a `cv::Point2f`. -/
structure Point2f where
  x : Double
  y : Double
  deriving DecidableEq, Repr

/-- Modelled from the spec: the image behind a `cv_bridge::CvImagePtr`: its size and an
uninterpreted code for its pixels. -/
structure CvImage where
  rows : Int
  cols : Int
  pixels : Nat
  deriving DecidableEq, Repr

/-- Modelled from the spec: the members of `ROSCameraObserver` (absent
`ros_camera_observer.h`) that its methods read or write.  `instance_target_` and the three
image bridges are shared pointers and may be null. -/
structure ROSCameraObserver where
  image_topic_ : String
  sym_circle_ : Bool
  pattern_ : Nat
  pattern_rows_ : Int
  pattern_cols_ : Int
  instance_target_ : Option TargetPtr
  input_roi_ : Rect
  camera_obs_ : CameraObservations
  observation_pts_ : List Point2f
  input_bridge_ : Option CvImage
  output_bridge_ : Option CvImage
  out_bridge_ : Option CvImage
  deriving DecidableEq, Repr

/-- `ROSCameraObserver::ROSCameraObserver(camera_topic)`, on the raw `storage` of the new
object: the initialiser list and the topic; the other members keep what the storage held
(the shared pointers start null). -/
def ROSCameraObserver.ctor (storage : ROSCameraObserver) (camera_topic : String) :
    ROSCameraObserver :=
  { storage with
    sym_circle_ := true
    pattern_ := pattern_options.Chessboard
    pattern_rows_ := 0
    pattern_cols_ := 0
    image_topic_ := camera_topic
    instance_target_ := none
    camera_obs_ := { observations := [] }
    observation_pts_ := []
    input_bridge_ := none
    output_bridge_ := none
    out_bridge_ := none }

/-- What `ROSCameraObserver::addTarget` does once the first `switch` has set `pattern_`:
the test of `pattern_` against 0, 1 and 2, then the second `switch`, which sets rows and
columns for a chessboard or a circle grid and returns `false` for an AR tag ("recognized
but pattern not supported yet") and for any other value, then the region of interest. -/
def ROSCameraObserver.addTarget_pattern (h : Heap) (self : ROSCameraObserver)
    (targ : TargetPtr) (roi : Roi) : Bool × ROSCameraObserver :=
  if self.pattern_ ≠ 0 ∧ self.pattern_ ≠ 1 ∧ self.pattern_ ≠ 2 then (false, self)
  else if self.pattern_ = pattern_options.Chessboard then
    let s2 := { self with
      pattern_rows_ := (h.targets targ).checker_board_parameters.pattern_rows
      pattern_cols_ := (h.targets targ).checker_board_parameters.pattern_cols }
    (true, { s2 with
      input_roi_ := ⟨roi.x_min, roi.y_min, roi.x_max - roi.x_min, roi.y_max - roi.y_min⟩ })
  else if self.pattern_ = pattern_options.CircleGrid then
    let s2 := { self with
      pattern_rows_ := (h.targets targ).circle_grid_parameters.pattern_rows
      pattern_cols_ := (h.targets targ).circle_grid_parameters.pattern_cols
      sym_circle_ := (h.targets targ).circle_grid_parameters.is_symmetric }
    (true, { s2 with
      input_roi_ := ⟨roi.x_min, roi.y_min, roi.x_max - roi.x_min, roi.y_max - roi.y_min⟩ })
  else if self.pattern_ = pattern_options.ARtag then (false, self)
  else (false, self)

/-- `ROSCameraObserver::addTarget`.  The target is stored in `instance_target_` first;
the first `switch` sets `pattern_` from `target_type` and returns `false` for a type that
is no pattern option. -/
def ROSCameraObserver.addTarget (h : Heap) (self : ROSCameraObserver) (targ : TargetPtr)
    (roi : Roi) : Bool × ROSCameraObserver :=
  let s0 := { self with instance_target_ := some targ }
  if (h.targets targ).target_type = pattern_options.Chessboard then
    ROSCameraObserver.addTarget_pattern h { s0 with pattern_ := pattern_options.Chessboard }
      targ roi
  else if (h.targets targ).target_type = pattern_options.CircleGrid then
    ROSCameraObserver.addTarget_pattern h { s0 with pattern_ := pattern_options.CircleGrid }
      targ roi
  else if (h.targets targ).target_type = pattern_options.ARtag then
    ROSCameraObserver.addTarget_pattern h { s0 with pattern_ := pattern_options.ARtag }
      targ roi
  else (false, s0)

/-- `ROSCameraObserver::clearTargets`. -/
def ROSCameraObserver.clearTargets (self : ROSCameraObserver) : ROSCameraObserver :=
  { self with instance_target_ := none }

/-- `ROSCameraObserver::clearObservations`. -/
def ROSCameraObserver.clearObservations (self : ROSCameraObserver) : ROSCameraObserver :=
  { self with camera_obs_ := { observations := [] } }

/-- `ROSCameraObserver::observationsDone`. -/
def ROSCameraObserver.observationsDone (self : ROSCameraObserver) : Bool :=
  self.input_bridge_.isSome

/-- An observer that has no target, as `clearTargets` leaves it. -/
def Example.observer : ROSCameraObserver :=
  ROSCameraObserver.ctor
    { image_topic_ := "", sym_circle_ := false, pattern_ := 0, pattern_rows_ := 0,
      pattern_cols_ := 0, instance_target_ := none, input_roi_ := ⟨0, 0, 0, 0⟩,
      camera_obs_ := ⟨[]⟩, observation_pts_ := [], input_bridge_ := none,
      output_bridge_ := none, out_bridge_ := none }
    "camera/image_raw"

/-- Targets of the four kinds: a chessboard "T" at address 0, a circle grid at 2, an AR
tag at 3 and a target of the unknown type 7 at 4. -/
def Example.pattern_heap : Heap :=
  { cameras := fun _ => default
    targets := fun a =>
      if a = 0 then Example.target_T
      else if a = 2 then { Target.value_init with target_name := "G", target_type := 1 }
      else if a = 3 then { Target.value_init with target_name := "R", target_type := 2 }
      else if a = 4 then { Target.value_init with target_name := "U", target_type := 7 }
      else default
    camera_brk := 0
    target_brk := 5 }

/-- The cameras of a list with pairwise different names, in order of first appearance:
a camera is kept when no camera before it in the list has its name. -/
def first_appearances (h : Heap) : List CameraPtr → List CameraPtr
  | [] => []
  | c :: rest =>
    c :: (first_appearances h rest).filter
      (fun x => decide ((h.cameras x).camera_name_ ≠ (h.cameras c).camera_name_))

/-- The scene a sequence of `addObservationToScene` calls builds from the empty scene
with the given id. -/
def ObservationScene.build (h : Heap) (scene_id : Int) (cmds : List ObservationCmd) :
    ObservationScene :=
  cmds.foldl (fun sc cmd => sc.addObservationToScene h cmd)
    { scene_id_ := scene_id, observation_command_list_ := [], cameras_in_scene_ := [] }

/-- Camera parameters with values that are not all zero. -/
def Example.parameters : CameraParameters :=
  { angle_axis_0 := 1, angle_axis_1 := 2, angle_axis_2 := 3
    position_0 := 4, position_1 := 5, position_2 := 6
    focal_length_x := 500, focal_length_y := 501, center_x := 320, center_y := 240
    distortion_k1 := 7, distortion_k2 := 8, distortion_k3 := 9
    distortion_p1 := 10, distortion_p2 := 11 }

/-- A heap with one camera, the moving camera "C" with `Example.parameters` at address 0;
the free storage holds zeros. -/
def Example.heap_C : Heap :=
  { cameras := fun a => if a = 0 then ⟨"C", Example.parameters, true, some 0⟩ else default
    targets := fun _ => default
    camera_brk := 1
    target_brk := 0 }

/-! ## CalibrationJob::load -/

/-- Modelled from the spec: a node of a parsed YAML document (`YAML::Node` of yaml-cpp,
an external library).  A scalar carries its text and what the conversions to `double`, to
`float` (widened to `double`) and to `unsigned int` give for it, `none` when the
conversion fails. -/
inductive YamlNode where
  | null
  | scalar (text : String) (as_double as_float : Option Double) (as_unsigned : Option Nat)
  | sequence (items : List YamlNode)
  | map (entries : List (String × YamlNode))

/-- How a step of `load` ends when it does not run to its end.  The accessors of a node
throw a `YAML::RepresentationException` (key not found, scalar not convertible), which the
handlers of `load` (`catch (YAML::ParserException&)`) do not catch; a call through a null
`Node*` and an element of a vector that is too short are undefined. -/
inductive Abort where
  | RepresentationException
  | undefined_behaviour
  deriving DecidableEq, Repr

/-- `Node::FindValue(key)`: the value of the key in a map, null (`none`) otherwise. -/
def YamlNode.FindValue (self : YamlNode) (key : String) : Option YamlNode :=
  match self with
  | .map entries =>
    match entries.find? (fun e => decide (e.1 = key)) with
    | some e => some e.2
    | none => none
  | _ => none

/-- `Node::size()`. -/
def YamlNode.size (self : YamlNode) : Nat :=
  match self with
  | .sequence items => items.length
  | .map entries => entries.length
  | _ => 0

/-- `Node::operator[](const char* key)`: throws when the key is not found. -/
def YamlNode.key (self : YamlNode) (key : String) : Except Abort YamlNode :=
  match self.FindValue key with
  | some v => .ok v
  | none => .error Abort.RepresentationException

/-- `Node::operator[](unsigned i)`: the item of a sequence, the value of the key with the
decimal text of `i` in a map; throws when there is none. -/
def YamlNode.at (self : YamlNode) (i : Nat) : Except Abort YamlNode :=
  match self with
  | .sequence items =>
    match items.get? i with
    | some v => .ok v
    | none => .error Abort.RepresentationException
  | other => other.key (toString i)

/-- `node >> std::string`. -/
def YamlNode.to_string (self : YamlNode) : Except Abort String :=
  match self with
  | .scalar text _ _ _ => .ok text
  | _ => .error Abort.RepresentationException

/-- `node >> double`. -/
def YamlNode.to_double (self : YamlNode) : Except Abort Double :=
  match self with
  | .scalar _ (some d) _ _ => .ok d
  | _ => .error Abort.RepresentationException

/-- `node >> float`, widened to `double`. -/
def YamlNode.to_float (self : YamlNode) : Except Abort Double :=
  match self with
  | .scalar _ _ (some d) _ => .ok d
  | _ => .error Abort.RepresentationException

/-- `node >> unsigned int`. -/
def YamlNode.to_unsigned (self : YamlNode) : Except Abort Nat :=
  match self with
  | .scalar _ _ _ (some n) => .ok n
  | _ => .error Abort.RepresentationException

/-- The loop behind `node >> std::vector<float>`. -/
def YamlNode.to_floats : List YamlNode → Except Abort (List Double)
  | [] => .ok []
  | item :: rest =>
    match item.to_float with
    | .error e => .error e
    | .ok d =>
      match YamlNode.to_floats rest with
      | .error e => .error e
      | .ok ds => .ok (d :: ds)

/-- `node >> std::vector<float>`. -/
def YamlNode.to_float_vector (self : YamlNode) : Except Abort (List Double) :=
  match self with
  | .sequence items => YamlNode.to_floats items
  | _ => .error Abort.RepresentationException

/-- The conversion of an `unsigned int` to the `int` parameter `scene_id`. -/
def unsigned_to_int (n : Nat) : Int :=
  if n % 2 ^ 32 < 2 ^ 31 then ((n % 2 ^ 32 : Nat) : Int) else ((n % 2 ^ 32 : Nat) : Int) - 2 ^ 32

/-- One of the three configuration files as `load` meets it: the stream cannot be opened
(`fail()`), or `GetNextDocument` throws a `YAML::ParserException`, or it delivers a
document. -/
inductive ConfigFile where
  | unreadable
  | malformed
  | document (root : YamlNode)

/-- Heap and registry, the state `load` works on. -/
structure LoadState where
  heap : Heap
  ceres_blocks_ : CeresBlocks

/-- How a call of `load` ends: it returns a `bool`, or an exception that is not caught
leaves it, or its behaviour is undefined. -/
inductive LoadOutcome where
  | returned (b : Bool)
  | aborted (a : Abort)
  deriving DecidableEq, Repr

/-- The sixteen reads of one camera entry, in source order: the name and the fifteen
parameters. -/
def load_camera_entry (entry : YamlNode) : Except Abort (String × CameraParameters) := do
  let temp_name ← (← entry.key "camera_name").to_string
  let angle_axis_0 ← (← entry.key "angle_axis_ax").to_double
  let angle_axis_1 ← (← entry.key "angle_axis_ay").to_double
  let angle_axis_2 ← (← entry.key "angle_axis_az").to_double
  let position_0 ← (← entry.key "position_x").to_double
  let position_1 ← (← entry.key "position_y").to_double
  let position_2 ← (← entry.key "position_z").to_double
  let focal_length_x ← (← entry.key "focal_length_x").to_double
  let focal_length_y ← (← entry.key "focal_length_y").to_double
  let center_x ← (← entry.key "center_x").to_double
  let center_y ← (← entry.key "center_y").to_double
  let distortion_k1 ← (← entry.key "distortion_k1").to_double
  let distortion_k2 ← (← entry.key "distortion_k2").to_double
  let distortion_k3 ← (← entry.key "distortion_k3").to_double
  let distortion_p1 ← (← entry.key "distortion_p1").to_double
  let distortion_p2 ← (← entry.key "distortion_p2").to_double
  pure (temp_name,
    { angle_axis_0 := angle_axis_0, angle_axis_1 := angle_axis_1, angle_axis_2 := angle_axis_2
      position_0 := position_0, position_1 := position_1, position_2 := position_2
      focal_length_x := focal_length_x, focal_length_y := focal_length_y
      center_x := center_x, center_y := center_y
      distortion_k1 := distortion_k1, distortion_k2 := distortion_k2
      distortion_k3 := distortion_k3
      distortion_p1 := distortion_p1, distortion_p2 := distortion_p2 })

/-- The loop over the static cameras, for the indices `i` still to do: the entry is
read, a static camera is allocated from it and passed to `addStaticCamera`.  The local
`temp_camera` goes out of scope at the end of the iteration: when the registry did not
enter the camera, it was its only owner and the camera is released. -/
def load_static_cameras (camera_parameters : YamlNode) :
    List Nat → LoadState → Option Abort × LoadState
  | [], s => (none, s)
  | i :: rest, s =>
    match camera_parameters.at i >>= load_camera_entry with
    | .error e => (some e, s)
    | .ok (temp_name, temp_parameters) =>
      let temp_camera := s.heap.make_shared_Camera temp_name temp_parameters false
      let r := s.ceres_blocks_.addStaticCamera temp_camera.2 temp_camera.1
      load_static_cameras camera_parameters rest
        { heap := if r.1 then temp_camera.2 else temp_camera.2.release_Camera temp_camera.1
          ceres_blocks_ := r.2 }

/-- The loop over the moving cameras: as for the static ones, with the scene id read
last and `addMovingCamera`.  The registry enters a copy at most, so `temp_camera` is the
only owner of the camera it points to, and the camera is released at the end of the
iteration. -/
def load_moving_cameras (camera_parameters : YamlNode) :
    List Nat → LoadState → Option Abort × LoadState
  | [], s => (none, s)
  | i :: rest, s =>
    match camera_parameters.at i >>= load_camera_entry,
      camera_parameters.at i >>= (fun entry => entry.key "scene_id") >>=
        YamlNode.to_unsigned with
    | .error e, _ => (some e, s)
    | .ok _, .error e => (some e, s)
    | .ok (temp_name, temp_parameters), .ok scene_id =>
      let temp_camera := s.heap.make_shared_Camera temp_name temp_parameters true
      let r := s.ceres_blocks_.addMovingCamera temp_camera.2 temp_camera.1
        (unsigned_to_int scene_id)
      load_moving_cameras camera_parameters rest
        { heap := r.2.1.release_Camera temp_camera.1, ceres_blocks_ := r.2.2 }

/-- The first `try` block behind `GetNextDocument`: the static cameras, when the document
has the key `static_cameras`, then the moving cameras, when it has `moving_cameras`. -/
def load_cameras (camera_doc : YamlNode) (s : LoadState) : Option Abort × LoadState :=
  let r1 :=
    match camera_doc.FindValue "static_cameras" with
    | some camera_parameters =>
      load_static_cameras camera_parameters (List.range camera_parameters.size) s
    | none => (none, s)
  match r1 with
  | (some e, s1) => (some e, s1)
  | (none, s1) =>
    match camera_doc.FindValue "moving_cameras" with
    | some camera_parameters =>
      load_moving_cameras camera_parameters (List.range camera_parameters.size) s1
    | none => (none, s1)


/-- The target stored at address `p` becomes `t`. -/
def Heap.set_target (h : Heap) (p : TargetPtr) (t : Target) : Heap :=
  { h with targets := Function.update h.targets p t }

/-- One statement `node >> member` in a run of such statements: when the read `r` throws,
the run ends with what has been assigned so far; otherwise the value is assigned and the
run goes on with `next`. -/
def load_assign {σ α : Type} (r : Except Abort α) (set : α → σ → σ)
    (next : σ → Option Abort × σ) (t : σ) : Option Abort × σ :=
  match r with
  | .error e => (some e, t)
  | .ok v => next (set v t)

/-- The loop over the points of a target entry, for the indices `j` still to do: the
node `pnt` of the item is read as a vector of floats and its first three elements are
pushed to `pts` as a point. -/
def load_points (points_node : YamlNode) : List Nat → Target → Option Abort × Target
  | [], t => (none, t)
  | j :: rest, t =>
    match points_node.at j with
    | .error e => (some e, t)
    | .ok item =>
      match item.FindValue "pnt" with
      | none => (some Abort.undefined_behaviour, t)
      | some pnt_node =>
        match pnt_node.to_float_vector with
        | .error e => (some e, t)
        | .ok temp_pnt =>
          match temp_pnt.get? 0, temp_pnt.get? 1, temp_pnt.get? 2 with
          | some x, some y, some z =>
            load_points points_node rest { t with pts := t.pts ++ [⟨x, y, z⟩] }
          | _, _, _ => (some Abort.undefined_behaviour, t)

/-- The points of a target entry: `FindValue("points")`, whose result is used without a
null test, and the loop over its items. -/
def load_entry_points (entry : YamlNode) (t : Target) : Option Abort × Target :=
  match entry.FindValue "points" with
  | none => (some Abort.undefined_behaviour, t)
  | some points_node => load_points points_node (List.range points_node.size) t

/-- The reads of one static target entry, in source order, each assigned to its member
of `temp_target`. -/
def load_static_target_entry (entry : YamlNode) : Target → Option Abort × Target :=
  load_assign (entry.key "target_name" >>= YamlNode.to_string)
    (fun v t => { t with target_name := v }) <|
  load_assign (entry.key "angle_axis_ax" >>= YamlNode.to_double)
    (fun v t => { t with pose := { t.pose with ax := v } }) <|
  load_assign (entry.key "angle_axis_ay" >>= YamlNode.to_double)
    (fun v t => { t with pose := { t.pose with ay := v } }) <|
  load_assign (entry.key "angle_axis_az" >>= YamlNode.to_double)
    (fun v t => { t with pose := { t.pose with az := v } }) <|
  load_assign (entry.key "position_x" >>= YamlNode.to_double)
    (fun v t => { t with pose := { t.pose with x := v } }) <|
  load_assign (entry.key "position_y" >>= YamlNode.to_double)
    (fun v t => { t with pose := { t.pose with y := v } }) <|
  load_assign (entry.key "position_z" >>= YamlNode.to_double)
    (fun v t => { t with pose := { t.pose with z := v } }) <|
  load_assign (entry.key "num_points" >>= YamlNode.to_unsigned)
    (fun v t => { t with num_points := v }) <|
  load_entry_points entry

/-- The loop over the static targets: every entry is read into the one object
`temp_target`, which is then passed to `addStaticTarget`. -/
def load_static_targets (target_parameters : YamlNode) (temp_target : TargetPtr) :
    List Nat → LoadState → Option Abort × LoadState
  | [], s => (none, s)
  | i :: rest, s =>
    match target_parameters.at i with
    | .error e => (some e, s)
    | .ok entry =>
      let r := load_static_target_entry entry (s.heap.targets temp_target)
      let h1 := s.heap.set_target temp_target r.2
      match r.1 with
      | some e => (some e, { s with heap := h1 })
      | none =>
        load_static_targets target_parameters temp_target rest
          { heap := h1, ceres_blocks_ := (s.ceres_blocks_.addStaticTarget h1 temp_target).2 }

/-- The reads of one moving target entry, in source order, on `temp_target` and the local
`scene_id`.  The source reads `angle_axis_ax` into `pose.ax` and again into `pose.ay`, and
`angle_axis_ay` into `pose.az`. -/
def load_moving_target_entry (entry : YamlNode) : Target × Nat → Option Abort × (Target × Nat) :=
  load_assign (entry.key "target_name" >>= YamlNode.to_string)
    (fun v t => ({ t.1 with target_name := v }, t.2)) <|
  load_assign (entry.key "angle_axis_ax" >>= YamlNode.to_double)
    (fun v t => ({ t.1 with pose := { t.1.pose with ax := v } }, t.2)) <|
  load_assign (entry.key "angle_axis_ax" >>= YamlNode.to_double)
    (fun v t => ({ t.1 with pose := { t.1.pose with ay := v } }, t.2)) <|
  load_assign (entry.key "angle_axis_ay" >>= YamlNode.to_double)
    (fun v t => ({ t.1 with pose := { t.1.pose with az := v } }, t.2)) <|
  load_assign (entry.key "position_x" >>= YamlNode.to_double)
    (fun v t => ({ t.1 with pose := { t.1.pose with x := v } }, t.2)) <|
  load_assign (entry.key "position_y" >>= YamlNode.to_double)
    (fun v t => ({ t.1 with pose := { t.1.pose with y := v } }, t.2)) <|
  load_assign (entry.key "position_z" >>= YamlNode.to_double)
    (fun v t => ({ t.1 with pose := { t.1.pose with z := v } }, t.2)) <|
  load_assign (entry.key "scene_id" >>= YamlNode.to_unsigned)
    (fun v t => (t.1, v)) <|
  load_assign (entry.key "num_points" >>= YamlNode.to_unsigned)
    (fun v t => ({ t.1 with num_points := v }, t.2)) <|
  fun t => ((load_entry_points entry t.1).1, ((load_entry_points entry t.1).2, t.2))

/-- The loop over the moving targets: every entry is read into the one object
`temp_target` and the local `scene_id`, which are then passed to `addMovingTarget`. -/
def load_moving_targets (target_parameters : YamlNode) (temp_target : TargetPtr) :
    List Nat → Nat → LoadState → Option Abort × LoadState
  | [], _, s => (none, s)
  | i :: rest, scene_id, s =>
    match target_parameters.at i with
    | .error e => (some e, s)
    | .ok entry =>
      let r := load_moving_target_entry entry (s.heap.targets temp_target, scene_id)
      let h1 := s.heap.set_target temp_target r.2.1
      match r.1 with
      | some e => (some e, { s with heap := h1 })
      | none =>
        load_moving_targets target_parameters temp_target rest r.2.2
          { heap := h1
            ceres_blocks_ :=
              (s.ceres_blocks_.addMovingTarget h1 temp_target (unsigned_to_int r.2.2)).2 }

/-- The second `try` block behind `GetNextDocument`: for the static targets, when the
document has the key `static_targets`, one `Target` is allocated, marked static and used
for all entries; then the same for the moving targets.  The local `scene_id` of the
second part is not initialised; `scene_id0` is what it holds. -/
def load_targets (target_doc : YamlNode) (scene_id0 : Nat) (s : LoadState) :
    Option Abort × LoadState :=
  let r1 :=
    match target_doc.FindValue "static_targets" with
    | some target_parameters =>
      let temp_target := s.heap.make_shared_Target
      let h1 := temp_target.2.set_target temp_target.1
        { temp_target.2.targets temp_target.1 with is_moving := false }
      load_static_targets target_parameters temp_target.1 (List.range target_parameters.size)
        { s with heap := h1 }
    | none => (none, s)
  match r1 with
  | (some e, s1) => (some e, s1)
  | (none, s1) =>
    match target_doc.FindValue "moving_targets" with
    | some target_parameters =>
      let temp_target := s1.heap.make_shared_Target
      let h1 := temp_target.2.set_target temp_target.1
        { temp_target.2.targets temp_target.1 with is_moving := true }
      load_moving_targets target_parameters temp_target.1
        (List.range target_parameters.size) scene_id0 { s1 with heap := h1 }
    | none => (none, s1)

/-- The loop over the observations of a scene of the job document: the names of the
camera and of the target are read into the name of `temp_target`, one over the other. -/
def load_caljob_observations (obs_node : YamlNode) : List Nat → Target → Option Abort × Target
  | [], t => (none, t)
  | j :: rest, t =>
    match obs_node.at j with
    | .error e => (some e, t)
    | .ok ob =>
      (load_assign (ob.key "camera" >>= YamlNode.to_string)
        (fun v t => { t with target_name := v }) <|
      load_assign (ob.key "target" >>= YamlNode.to_string)
        (fun v t => { t with target_name := v }) <|
      load_caljob_observations obs_node rest) t

/-- The loop over the scenes of the job document: scene id and trigger type are read
into the name of `temp_target`; `FindValue("observations")` is used without a null
test. -/
def load_caljob_scenes (caljob_scenes : YamlNode) : List Nat → Target → Option Abort × Target
  | [], t => (none, t)
  | i :: rest, t =>
    match caljob_scenes.at i with
    | .error e => (some e, t)
    | .ok scene =>
      (load_assign (scene.key "scene_id" >>= YamlNode.to_string)
        (fun v t => { t with target_name := v }) <|
      load_assign (scene.key "trigger_type" >>= YamlNode.to_string)
        (fun v t => { t with target_name := v }) <|
      fun t =>
        match scene.FindValue "observations" with
        | none => (some Abort.undefined_behaviour, t)
        | some obs_node =>
          match load_caljob_observations obs_node (List.range obs_node.size) t with
          | (some e, t1) => (some e, t1)
          | (none, t1) => load_caljob_scenes caljob_scenes rest t1) t

/-- The third `try` block behind `GetNextDocument`: a `Target` is allocated and the
names of the job document are read into its name; nothing is registered. -/
def load_caljob (caljob_doc : YamlNode) (s : LoadState) : Option Abort × LoadState :=
  let temp_target := s.heap.make_shared_Target
  let r :=
    (load_assign (caljob_doc.key "reference_frame" >>= YamlNode.to_string)
      (fun v t => { t with target_name := v }) <|
    load_assign (caljob_doc.key "optimization_parameters" >>= YamlNode.to_string)
      (fun v t => { t with target_name := v }) <|
    fun t =>
      match caljob_doc.FindValue "scenes" with
      | some caljob_scenes =>
        load_caljob_scenes caljob_scenes (List.range caljob_scenes.size) t
      | none => (none, t)) (temp_target.2.targets temp_target.1)
  (r.1, { s with heap := temp_target.2.set_target temp_target.1 r.2 })

/-- The stream of the file is in the `fail()` state. -/
def ConfigFile.fail : ConfigFile → Bool
  | .unreadable => true
  | _ => false

/-- One `try { ... } catch (YAML::ParserException&) { return (false); }` of `load`:
`GetNextDocument` throws for a malformed document, which is caught; otherwise the block
runs on the document and `load` goes on with `next`, unless the block is left by an
exception that is not caught. -/
def load_try (file : ConfigFile) (block : YamlNode → LoadState → Option Abort × LoadState)
    (next : LoadState → LoadOutcome × LoadState) (s : LoadState) : LoadOutcome × LoadState :=
  match file with
  | .unreadable => (LoadOutcome.returned false, s)
  | .malformed => (LoadOutcome.returned false, s)
  | .document doc =>
    match block doc s with
    | (some e, s1) => (LoadOutcome.aborted e, s1)
    | (none, s1) => next s1

/-- `CalibrationJob::load`: the three streams are opened and tested, then the camera
document, the target document and the job document are parsed and read, each in its own
`try` block. -/
def CalibrationJob.load (camera_input_file target_input_file caljob_input_file : ConfigFile)
    (scene_id0 : Nat) (s : LoadState) : LoadOutcome × LoadState :=
  if camera_input_file.fail then (LoadOutcome.returned false, s)
  else if target_input_file.fail then (LoadOutcome.returned false, s)
  else if caljob_input_file.fail then (LoadOutcome.returned false, s)
  else
    load_try camera_input_file load_cameras
      (load_try target_input_file (fun doc => load_targets doc scene_id0)
        (load_try caljob_input_file load_caljob
          (fun s3 => (LoadOutcome.returned true, s3)))) s

/-- A scalar node holding a name. -/
def Example.yaml_text (text : String) : YamlNode := YamlNode.scalar text none none none

/-- A scalar node holding a number. -/
def Example.yaml_number (n : Nat) : YamlNode :=
  YamlNode.scalar (toString n) (some n) (some n) (some n)

/-- The entry of a camera named `name` in a camera document. -/
def Example.yaml_camera (name : String) : YamlNode :=
  YamlNode.map
    [("camera_name", Example.yaml_text name),
     ("angle_axis_ax", Example.yaml_number 0), ("angle_axis_ay", Example.yaml_number 0),
     ("angle_axis_az", Example.yaml_number 0),
     ("position_x", Example.yaml_number 1), ("position_y", Example.yaml_number 2),
     ("position_z", Example.yaml_number 3),
     ("focal_length_x", Example.yaml_number 500), ("focal_length_y", Example.yaml_number 500),
     ("center_x", Example.yaml_number 320), ("center_y", Example.yaml_number 240),
     ("distortion_k1", Example.yaml_number 0), ("distortion_k2", Example.yaml_number 0),
     ("distortion_k3", Example.yaml_number 0),
     ("distortion_p1", Example.yaml_number 0), ("distortion_p2", Example.yaml_number 0)]

/-- A camera document with one static camera, `A`. -/
def Example.camera_doc : YamlNode :=
  YamlNode.map [("static_cameras", YamlNode.sequence [Example.yaml_camera "A"])]

/-- A fresh job: an empty heap and the registry as constructed. -/
def Example.load_state : LoadState :=
  ⟨{ cameras := fun _ => Example.camera_A, targets := fun _ => Example.target_T,
     camera_brk := 0, target_brk := 0 }, CeresBlocks.ctor⟩

/-! ## Vocabulary of the statements on whole observation passes -/

/-- What the observer of one camera hands over in one scene. -/
structure CameraReport where
  scene_id : Int
  camera : CameraPtr
  observations : List Observation
  deriving DecidableEq, Repr

/-- Heap and registry after `runObservations` has handled one camera of a scene: the
camera is registered, then the target of every observation in turn. -/
def register_report (hb : Heap × CeresBlocks) (r : CameraReport) : Heap × CeresBlocks :=
  ((register_camera hb.1 hb.2 r.camera r.scene_id).1,
   r.observations.foldl
     (fun b ob => register_target (register_camera hb.1 hb.2 r.camera r.scene_id).1 b
       ob.target r.scene_id)
     (register_camera hb.1 hb.2 r.camera r.scene_id).2)

/-- The data points of one camera of a scene: one per observation, resolved in the
heap and registry reached when the camera has been handled. -/
def report_points (hb : Heap × CeresBlocks) (r : CameraReport) : List ObservationDataPoint :=
  r.observations.map
    (resolved_data_point (register_report hb r).1 (register_report hb r).2 r.scene_id r.camera)

/-- The data points of a sequence of reports handled one after the other. -/
def reports_points (hb : Heap × CeresBlocks) : List CameraReport → List ObservationDataPoint
  | [] => []
  | r :: rest => report_points hb r ++ reports_points (register_report hb r) rest

/-- Number of entries of the registry for the identity of a camera: the static cameras
with the name, or the moving cameras with the name and the scene. -/
def CeresBlocks.camera_entries (h : Heap) (b : CeresBlocks) (camera_name : String)
    (is_moving : Bool) (scene_id : Int) : Nat :=
  if is_moving then
    b.moving_cameras_.countP
      (fun e => decide ((h.cameras e.cam).camera_name_ = camera_name) &&
        decide (e.scene_id = scene_id))
  else b.static_cameras_.countP (fun e => decide ((h.cameras e).camera_name_ = camera_name))

/-- Number of entries of the registry for the identity of a target: the static targets
with the name, or the moving targets with the name and the scene. -/
def CeresBlocks.target_entries (h : Heap) (b : CeresBlocks) (target_name : String)
    (is_moving : Bool) (scene_id : Int) : Nat :=
  if is_moving then
    b.moving_targets_.countP
      (fun e => decide ((h.targets e.targ).target_name = target_name) &&
        decide (e.scene_id = scene_id))
  else b.static_targets_.countP (fun e => decide ((h.targets e).target_name = target_name))

/-- An item of the `points` sequence of a target entry: the point `(x, y, z)`. -/
def Example.yaml_point (x y z : Nat) : YamlNode :=
  YamlNode.map [("pnt", YamlNode.sequence
    [Example.yaml_number x, Example.yaml_number y, Example.yaml_number z])]

/-- The entry of a static target in a target document: the name, the pose with angle
axis `(ax, ay, az)` and position `(x, y, z)`, and the points. -/
def Example.yaml_static_target (name : String) (ax ay az x y z : Nat)
    (points : List YamlNode) : YamlNode :=
  YamlNode.map
    [("target_name", Example.yaml_text name),
     ("angle_axis_ax", Example.yaml_number ax), ("angle_axis_ay", Example.yaml_number ay),
     ("angle_axis_az", Example.yaml_number az),
     ("position_x", Example.yaml_number x), ("position_y", Example.yaml_number y),
     ("position_z", Example.yaml_number z),
     ("num_points", Example.yaml_number points.length),
     ("points", YamlNode.sequence points)]

/-- The entry of a moving target in a target document: as for a static target, with the
scene id. -/
def Example.yaml_moving_target (name : String) (ax ay az x y z scene_id : Nat)
    (points : List YamlNode) : YamlNode :=
  YamlNode.map
    [("target_name", Example.yaml_text name),
     ("angle_axis_ax", Example.yaml_number ax), ("angle_axis_ay", Example.yaml_number ay),
     ("angle_axis_az", Example.yaml_number az),
     ("position_x", Example.yaml_number x), ("position_y", Example.yaml_number y),
     ("position_z", Example.yaml_number z),
     ("scene_id", Example.yaml_number scene_id),
     ("num_points", Example.yaml_number points.length),
     ("points", YamlNode.sequence points)]

/-- A target document with two static targets: "T1" with pose `(1, 2, 3, 4, 5, 6)` and
the point `(0, 0, 0)`, then "T2" with pose `(7, 8, 9, 10, 11, 12)` and the point
`(1, 1, 0)`. -/
def Example.target_doc_static : YamlNode :=
  YamlNode.map [("static_targets", YamlNode.sequence
    [Example.yaml_static_target "T1" 1 2 3 4 5 6 [Example.yaml_point 0 0 0],
     Example.yaml_static_target "T2" 7 8 9 10 11 12 [Example.yaml_point 1 1 0]])]

/-- A target document with one moving target: "M" in scene 5 with angle axis `(1, 2, 3)`,
position `(4, 5, 6)` and the point `(0, 0, 0)`. -/
def Example.target_doc_moving : YamlNode :=
  YamlNode.map [("moving_targets", YamlNode.sequence
    [Example.yaml_moving_target "M" 1 2 3 4 5 6 5 [Example.yaml_point 0 0 0]])]

/-- A job document without scenes. -/
def Example.caljob_doc : YamlNode :=
  YamlNode.map
    [("reference_frame", Example.yaml_text "world"),
     ("optimization_parameters", Example.yaml_text "none")]


/-- A heap with two cameras of one name: the static camera "A" (address 0, observer 0)
and a moving camera that is also named "A" (address 1, observer 1); the targets are
those of `Example.heap`. -/
def Example.heap_AA : Heap :=
  { cameras := fun a => if a = 0 then Example.camera_A
      else if a = 1 then ⟨"A", default, true, some 1⟩ else default
    targets := Example.heap.targets
    camera_brk := 2
    target_brk := 2 }

/-- A job over `Example.heap_AA` with one scene, id 0, built by `addObservationToScene`
from a command for the static camera "A" and a command for the moving camera "A", both
on target "T". -/
def Example.machine_AA : Machine Unit :=
  { heap := Example.heap_AA
    observers := ()
    job := { ceres_blocks_ := CeresBlocks.ctor
             scene_list_ := [ObservationScene.build Example.heap_AA 0
               [⟨0, 0, Example.roi⟩, ⟨1, 0, Example.roi⟩]]
             observation_data_point_list_ := { items := [] } } }

theorem foreach_return_const {α β : Type} (test : α → Bool) (a o : β) (l : List α) :
    foreach_return test (fun _ => a) o l = if l.any test then a else o := by
  induction l with
  | nil => simp [foreach_return]
  | cons x xs ih =>
    by_cases hx : test x = true
    · simp [foreach_return, hx]
    · simp [foreach_return, hx, ih]

theorem foreach_return_none {α β : Type} (test : α → Bool) (found : α → β) (o : β)
    (l : List α) (hl : ∀ x ∈ l, test x = false) : foreach_return test found o l = o := by
  induction l with
  | nil => rfl
  | cons x xs ih =>
    have hx : test x = false := hl x (List.mem_cons_self x xs)
    simp only [foreach_return, hx]
    exact ih (fun y hy => hl y (List.mem_cons_of_mem x hy))

theorem foreach_return_append {α β : Type} (test : α → Bool) (found : α → β) (o : β)
    (l l2 : List α) :
    foreach_return test found o (l ++ l2) =
      foreach_return test found (foreach_return test found o l2) l := by
  induction l with
  | nil => rfl
  | cons x xs ih =>
    by_cases hx : test x = true
    · simp [foreach_return, hx]
    · simp [foreach_return, hx, ih]

theorem foreach_return_congr {α β : Type} (test test2 : α → Bool) (found found2 : α → β)
    (o : β) (l : List α) (ht : ∀ x ∈ l, test x = test2 x) (hf : ∀ x ∈ l, found x = found2 x) :
    foreach_return test found o l = foreach_return test2 found2 o l := by
  induction l with
  | nil => rfl
  | cons x xs ih =>
    have h1 := ht x (List.mem_cons_self x xs)
    have h2 := hf x (List.mem_cons_self x xs)
    have h3 := ih (fun y hy => ht y (List.mem_cons_of_mem x hy))
      (fun y hy => hf y (List.mem_cons_of_mem x hy))
    simp only [foreach_return, h1, h2, h3]

/-- The loop returns `found x` for the first `x` that passes the test, `otherwise` when
there is none. -/
theorem foreach_return_first {α β : Type} (test : α → Bool) (found : α → β) (o : β)
    (l : List α) :
    ((∀ x ∈ l, test x = false) ∧ foreach_return test found o l = o) ∨
    (∃ pre x post, l = pre ++ x :: post ∧ (∀ y ∈ pre, test y = false) ∧ test x = true ∧
      foreach_return test found o l = found x) := by
  induction l with
  | nil => left; simp [foreach_return]
  | cons a as ih =>
    by_cases ha : test a = true
    · right
      exact ⟨[], a, as, rfl, by simp, ha, by simp [foreach_return, ha]⟩
    · have ha2 : test a = false := by simpa using ha
      rcases ih with ⟨hn, he⟩ | ⟨pre, x, post, hl, hpre, hx, he⟩
      · left
        refine ⟨?_, by simp [foreach_return, ha2, he]⟩
        intro y hy
        rcases List.mem_cons.mp hy with rfl | hy
        · exact ha2
        · exact hn y hy
      · right
        refine ⟨a :: pre, x, post, by simp [hl], ?_, hx, by simp [foreach_return, ha2, he]⟩
        intro y hy
        rcases List.mem_cons.mp hy with rfl | hy
        · exact ha2
        · exact hpre y hy

/-- Once the loop has found an entry, entries appended behind do not change the result. -/
theorem foreach_return_append_found {α β : Type} (test : α → Bool) (found : α → β) (o : β)
    (l l2 : List α) (hl : l.any test = true) :
    foreach_return test found o (l ++ l2) = foreach_return test found o l := by
  induction l with
  | nil => simp at hl
  | cons x xs ih =>
    by_cases hx : test x = true
    · simp [foreach_return, hx]
    · have hx2 : test x = false := by simpa using hx
      have : xs.any test = true := by simpa [hx2] using hl
      simp [foreach_return, hx2, ih this]

theorem foreach_return_any {α β : Type} (test : α → Bool) (found : α → β) (o : β)
    (l : List α) (ho : ∀ x, found x ≠ o) :
    foreach_return test found o l ≠ o ↔ l.any test = true := by
  induction l with
  | nil => simp [foreach_return]
  | cons x xs ih =>
    by_cases hx : test x = true
    · simp [foreach_return, hx, ho]
    · have hx2 : test x = false := by simpa using hx
      simp only [foreach_return, hx2, List.any_cons, Bool.false_or]
      exact ih


/-- A loop that does not return `otherwise` has found an entry. -/
theorem foreach_return_ne_any {α β : Type} (test : α → Bool) (found : α → β) (o : β)
    (l : List α) (h : foreach_return test found o l ≠ o) : l.any test = true := by
  by_contra hc
  apply h
  apply foreach_return_none
  intro x hx
  by_contra hx2
  exact hc (List.any_eq_true.mpr ⟨x, hx, by simpa using hx2⟩)

/-! ## Heap and registry frame lemmas -/

theorem Heap.grows_self (h : Heap) : h.grows h :=
  ⟨fun _ _ => rfl, rfl, fun _ hp => hp⟩

theorem Heap.grows_chain {h1 h2 h3 : Heap} (h12 : h1.grows h2) (h23 : h2.grows h3) :
    h1.grows h3 := by
  refine ⟨fun p hp => ?_, h23.2.1.trans h12.2.1, fun p hp => h23.2.2 p (h12.2.2 p hp)⟩
  rw [h23.1 p (h12.2.2 p hp), h12.1 p hp]

/-- The storage the next `make_shared<Camera>` uses holds no object. -/
theorem Heap.next_Camera_not_live (h : Heap) : ¬ h.live_camera h.next_Camera := by
  intro hl
  unfold Heap.next_Camera at hl
  cases hf : h.camera_free.find? (fun a => decide (a < h.camera_brk)) with
  | none =>
    rw [hf] at hl
    exact Nat.lt_irrefl _ hl.1
  | some a =>
    rw [hf] at hl
    exact hl.2 (List.mem_of_find?_eq_some hf)

/-- The storage the next `make_shared<Camera>` uses is fresh or was handed out before. -/
theorem Heap.next_Camera_le (h : Heap) : h.next_Camera ≤ h.camera_brk := by
  unfold Heap.next_Camera
  cases hf : h.camera_free.find? (fun a => decide (a < h.camera_brk)) with
  | none => exact Nat.le_refl _
  | some a =>
    have := List.find?_some hf
    exact Nat.le_of_lt (by simpa using this)

theorem Heap.ne_next_Camera {h : Heap} {p : CameraPtr} (hp : h.live_camera p) :
    p ≠ h.next_Camera := by
  intro he
  rw [he] at hp
  exact h.next_Camera_not_live hp

/-- The camera that `make_shared<Camera>` constructs is an object of the new heap. -/
theorem Heap.make_shared_Camera_live (h : Heap) (name : String) (cp : CameraParameters)
    (mv : Bool) : (h.make_shared_Camera name cp mv).2.live_camera h.next_Camera := by
  refine ⟨?_, ?_⟩
  · show h.next_Camera < (if h.next_Camera = h.camera_brk then h.camera_brk + 1
      else h.camera_brk)
    split
    · rename_i he
      rw [he]
      exact Nat.lt_succ_self _
    · rename_i he
      exact Nat.lt_of_le_of_ne h.next_Camera_le he
  · show h.next_Camera ∉ h.camera_free.filter (fun a => decide (a ≠ h.next_Camera))
    intro hm
    have := (List.mem_filter.mp hm).2
    simp at this

theorem Heap.grows_make_shared_Camera (h : Heap) (name : String) (cp : CameraParameters)
    (mv : Bool) : h.grows (h.make_shared_Camera name cp mv).2 := by
  refine ⟨fun p hp => ?_, rfl, fun p hp => ⟨?_, ?_⟩⟩
  · show Function.update h.cameras h.next_Camera _ p = h.cameras p
    exact Function.update_noteq (Heap.ne_next_Camera hp) _ _
  · show p < (if h.next_Camera = h.camera_brk then h.camera_brk + 1 else h.camera_brk)
    split
    · exact Nat.lt_succ_of_lt hp.1
    · exact hp.1
  · show p ∉ h.camera_free.filter (fun a => decide (a ≠ h.next_Camera))
    intro hm
    exact hp.2 (List.mem_filter.mp hm).1

/-- Releasing a camera leaves every other camera object in place. -/
theorem Heap.release_Camera_live (h : Heap) (c p : CameraPtr) :
    (h.release_Camera c).live_camera p ↔ h.live_camera p ∧ p ≠ c := by
  show (p < h.camera_brk ∧ p ∉ c :: h.camera_free) ↔ _
  simp only [List.mem_cons, not_or, Heap.live_camera]
  tauto

/-- What `clearCamerasTargets` does to the heap: the copies held by the moving entries
hold no object any more, every other camera object is in place, nothing is written. -/
theorem Heap.release_all (l : List MovingCamera) (h : Heap) :
    (∀ p, (l.foldl (fun heap mc => heap.release_Camera mc.cam) h).live_camera p ↔
      h.live_camera p ∧ ∀ mc ∈ l, mc.cam ≠ p) ∧
    (l.foldl (fun heap mc => heap.release_Camera mc.cam) h).cameras = h.cameras ∧
    (l.foldl (fun heap mc => heap.release_Camera mc.cam) h).targets = h.targets := by
  induction l generalizing h with
  | nil => exact ⟨fun p => by simp, rfl, rfl⟩
  | cons x xs ih =>
    simp only [List.foldl_cons]
    obtain ⟨i1, i2, i3⟩ := ih (h.release_Camera x.cam)
    refine ⟨fun p => ?_, i2, i3⟩
    rw [i1 p, Heap.release_Camera_live]
    simp only [List.mem_cons, forall_eq_or_imp]
    constructor
    · rintro ⟨⟨a, b⟩, c⟩
      exact ⟨a, fun hx => b hx.symm, c⟩
    · rintro ⟨a, b, c⟩
      exact ⟨⟨a, fun hx => b hx.symm⟩, c⟩

theorem CeresBlocks.grows_refl (b : CeresBlocks) : b.grows b :=
  ⟨List.prefix_refl _, List.prefix_refl _, List.prefix_refl _, List.prefix_refl _⟩

theorem CeresBlocks.grows_trans {b1 b2 b3 : CeresBlocks} (h12 : b1.grows b2)
    (h23 : b2.grows b3) : b1.grows b3 :=
  ⟨h12.1.trans h23.1, h12.2.1.trans h23.2.1, h12.2.2.1.trans h23.2.2.1,
    h12.2.2.2.trans h23.2.2.2⟩

theorem CeresBlocks.live_of_grows {h1 h2 : Heap} {b : CeresBlocks} (hb : b.live h1)
    (he : h1.grows h2) : b.live h2 :=
  ⟨fun c hc => he.2.2 c (hb.1 c hc), fun mc hmc => he.2.2 mc.cam (hb.2 mc hmc)⟩

/-! ## The four `add` methods, case by case -/

theorem CeresBlocks.addStaticCamera_eq (h : Heap) (b : CeresBlocks) (c : CameraPtr) :
    b.addStaticCamera h c =
      if b.static_cameras_.any
        (fun cam => decide ((h.cameras cam).camera_name_ = (h.cameras c).camera_name_)) then
        (false, b)
      else (true, { b with static_cameras_ := b.static_cameras_ ++ [c] }) := by
  unfold CeresBlocks.addStaticCamera
  exact foreach_return_const _ _ _ _

theorem CeresBlocks.addStaticTarget_eq (h : Heap) (b : CeresBlocks) (t : TargetPtr) :
    b.addStaticTarget h t =
      if b.static_targets_.any
        (fun targ => decide ((h.targets targ).target_name = (h.targets t).target_name)) then
        (false, b)
      else (true, { b with static_targets_ := b.static_targets_ ++ [t] }) := by
  unfold CeresBlocks.addStaticTarget
  exact foreach_return_const _ _ _ _

theorem CeresBlocks.addMovingCamera_eq (h : Heap) (b : CeresBlocks) (c : CameraPtr)
    (s : Int) :
    b.addMovingCamera h c s =
      if b.moving_cameras_.any
        (fun cam => decide ((h.cameras cam.cam).camera_name_ = (h.cameras c).camera_name_)
          && decide (cam.scene_id = s)) then
        (false, h, b)
      else
        (true,
          (h.make_shared_Camera (h.cameras c).camera_name_ (h.cameras c).camera_parameters_
            true).2,
          { b with moving_cameras_ := b.moving_cameras_ ++ [⟨h.next_Camera, s⟩] }) := by
  unfold CeresBlocks.addMovingCamera
  exact foreach_return_const _ _ _ _

theorem CeresBlocks.addMovingTarget_eq (h : Heap) (b : CeresBlocks) (t : TargetPtr)
    (s : Int) :
    b.addMovingTarget h t s =
      if b.moving_targets_.any
        (fun targ => decide ((h.targets targ.targ).target_name = (h.targets t).target_name)
          && decide (targ.scene_id = s)) then
        (false, b)
      else (true, { b with moving_targets_ := b.moving_targets_ ++ [⟨t, s⟩] }) := by
  unfold CeresBlocks.addMovingTarget
  exact foreach_return_const _ _ _ _


/-! ## Lookups under heap and registry growth -/

theorem Heap.point_block_congr {h1 h2 : Heap} (ht : h2.targets = h1.targets)
    (t : TargetPtr) (i : Int) : h2.point_block t i = h1.point_block t i := by
  simp only [Heap.point_block, ht]

theorem Lookup.get_heap_grows {h1 h2 : Heap} {b : CeresBlocks} (hb : b.live h1)
    (he : h1.grows h2) (q : Lookup) : q.get h2 b = q.get h1 b := by
  have hc : ∀ c ∈ b.static_cameras_, h2.cameras c = h1.cameras c :=
    fun c hc => he.1 c (hb.1 c hc)
  have hm : ∀ mc ∈ b.moving_cameras_, h2.cameras mc.cam = h1.cameras mc.cam :=
    fun mc hmc => he.1 mc.cam (hb.2 mc hmc)
  have ht : h2.targets = h1.targets := he.2.1
  have hp := Heap.point_block_congr ht
  cases q <;>
    simp only [Lookup.get, CeresBlocks.getStaticCameraParameterBlockIntrinsics,
      CeresBlocks.getMovingCameraParameterBlockIntrinsics,
      CeresBlocks.getStaticCameraParameterBlockExtrinsics,
      CeresBlocks.getMovingCameraParameterBlockExtrinsics,
      CeresBlocks.getStaticTargetPoseParameterBlock,
      CeresBlocks.getStaticTargetPointParameterBlock,
      CeresBlocks.getMovingTargetPoseParameterBlock,
      CeresBlocks.getMovingTargetPointParameterBlock, ht, hp]
  · exact foreach_return_congr _ _ _ _ _ _ (fun c hc2 => by rw [hc c hc2]) (fun _ _ => rfl)
  · exact foreach_return_congr _ _ _ _ _ _ (fun c hc2 => by rw [hm c hc2]) (fun _ _ => rfl)
  · exact foreach_return_congr _ _ _ _ _ _ (fun c hc2 => by rw [hc c hc2]) (fun _ _ => rfl)
  · exact foreach_return_congr _ _ _ _ _ _ (fun c hc2 => by rw [hm c hc2]) (fun _ _ => rfl)

theorem Lookup.hits_heap_grows {h1 h2 : Heap} {b : CeresBlocks} (hb : b.live h1)
    (he : h1.grows h2) (q : Lookup) : q.hits h2 b = q.hits h1 b := by
  have hc : ∀ c ∈ b.static_cameras_, h2.cameras c = h1.cameras c :=
    fun c hc => he.1 c (hb.1 c hc)
  have hm : ∀ mc ∈ b.moving_cameras_, h2.cameras mc.cam = h1.cameras mc.cam :=
    fun mc hmc => he.1 mc.cam (hb.2 mc hmc)
  have ht : h2.targets = h1.targets := he.2.1
  have hany : ∀ {α : Type} (l : List α) (f g : α → Bool), (∀ x ∈ l, f x = g x) →
      l.any f = l.any g := by
    intro α l f g hfg
    induction l with
    | nil => rfl
    | cons x xs ih =>
      simp only [List.any_cons, hfg x (List.mem_cons_self x xs),
        ih (fun y hy => hfg y (List.mem_cons_of_mem x hy))]
  cases q <;> simp only [Lookup.hits, ht]
  · exact hany _ _ _ (fun c hc2 => by rw [hc c hc2])
  · exact hany _ _ _ (fun c hc2 => by rw [hm c hc2])
  · exact hany _ _ _ (fun c hc2 => by rw [hc c hc2])
  · exact hany _ _ _ (fun c hc2 => by rw [hm c hc2])

/-- A lookup that returns a handle has found an entry. -/
theorem Lookup.hits_of_get {h : Heap} {b : CeresBlocks} (q : Lookup)
    (hq : q.get h b ≠ P_BLOCK.NULL) : q.hits h b = true := by
  cases q <;>
    simp only [Lookup.get, CeresBlocks.getStaticCameraParameterBlockIntrinsics,
      CeresBlocks.getMovingCameraParameterBlockIntrinsics,
      CeresBlocks.getStaticCameraParameterBlockExtrinsics,
      CeresBlocks.getMovingCameraParameterBlockExtrinsics,
      CeresBlocks.getStaticTargetPoseParameterBlock,
      CeresBlocks.getStaticTargetPointParameterBlock,
      CeresBlocks.getMovingTargetPoseParameterBlock,
      CeresBlocks.getMovingTargetPointParameterBlock] at hq <;>
    exact foreach_return_ne_any _ _ _ _ hq

theorem foreach_return_prefix {α : Type} (test : α → Bool) (found : α → P_BLOCK)
    (l l2 : List α) (hp : l <+: l2) (hq : l.any test = true) :
    foreach_return test found P_BLOCK.NULL l2 = foreach_return test found P_BLOCK.NULL l := by
  obtain ⟨t, rfl⟩ := hp
  exact foreach_return_append_found _ _ _ _ _ hq

/-- A lookup that finds an entry returns the same handle when the registry grows. -/
theorem Lookup.get_registry_grows_hits {h : Heap} {b1 b2 : CeresBlocks} (hg : b1.grows b2)
    (q : Lookup) (hq : q.hits h b1 = true) : q.get h b2 = q.get h b1 := by
  obtain ⟨g1, g2, g3, g4⟩ := hg
  cases q <;>
    simp only [Lookup.get, CeresBlocks.getStaticCameraParameterBlockIntrinsics,
      CeresBlocks.getMovingCameraParameterBlockIntrinsics,
      CeresBlocks.getStaticCameraParameterBlockExtrinsics,
      CeresBlocks.getMovingCameraParameterBlockExtrinsics,
      CeresBlocks.getStaticTargetPoseParameterBlock,
      CeresBlocks.getStaticTargetPointParameterBlock,
      CeresBlocks.getMovingTargetPoseParameterBlock,
      CeresBlocks.getMovingTargetPointParameterBlock]
  · exact foreach_return_prefix _ _ _ _ g1 hq
  · exact foreach_return_prefix _ _ _ _ g3 hq
  · exact foreach_return_prefix _ _ _ _ g1 hq
  · exact foreach_return_prefix _ _ _ _ g3 hq
  · exact foreach_return_prefix _ _ _ _ g2 hq
  · exact foreach_return_prefix _ _ _ _ g2 hq
  · exact foreach_return_prefix _ _ _ _ g4 hq
  · exact foreach_return_prefix _ _ _ _ g4 hq

/-- A lookup that finds an entry keeps finding one when the registry grows. -/
theorem Lookup.hits_registry_grows {h : Heap} {b1 b2 : CeresBlocks} (hg : b1.grows b2)
    (q : Lookup) (hq : q.hits h b1 = true) : q.hits h b2 = true := by
  obtain ⟨g1, g2, g3, g4⟩ := hg
  have hany : ∀ {α : Type} (l k : List α) (f : α → Bool), l <+: k → l.any f = true →
      k.any f = true := by
    intro α l k f hp hl
    obtain ⟨x, hx, hfx⟩ := List.any_eq_true.mp hl
    exact List.any_eq_true.mpr ⟨x, hp.subset hx, hfx⟩
  cases q <;> simp only [Lookup.hits] at hq ⊢
  · exact hany _ _ _ g1 hq
  · exact hany _ _ _ g3 hq
  · exact hany _ _ _ g1 hq
  · exact hany _ _ _ g3 hq
  · exact hany _ _ _ g2 hq
  · exact hany _ _ _ g2 hq
  · exact hany _ _ _ g4 hq
  · exact hany _ _ _ g4 hq

theorem Lookup.get_registry_grows {h : Heap} {b1 b2 : CeresBlocks} (hg : b1.grows b2)
    (q : Lookup) (hq : q.get h b1 ≠ P_BLOCK.NULL) : q.get h b2 = q.get h b1 :=
  Lookup.get_registry_grows_hits hg q (Lookup.hits_of_get q hq)

/-- A lookup that finds an entry returns the same handle when the heap and the registry
grow. -/
theorem Lookup.get_grows_hits {h1 h2 : Heap} {b1 b2 : CeresBlocks} (hb : b1.live h1)
    (he : h1.grows h2) (hg : b1.grows b2) (q : Lookup) (hq : q.hits h1 b1 = true) :
    q.get h2 b2 = q.get h1 b1 := by
  have h1eq : q.get h2 b1 = q.get h1 b1 := Lookup.get_heap_grows hb he q
  rw [← h1eq]
  exact Lookup.get_registry_grows_hits hg q (by rw [Lookup.hits_heap_grows hb he]; exact hq)

/-- A lookup that finds an entry keeps finding one when the heap and the registry grow. -/
theorem Lookup.hits_grows {h1 h2 : Heap} {b1 b2 : CeresBlocks} (hb : b1.live h1)
    (he : h1.grows h2) (hg : b1.grows b2) (q : Lookup) (hq : q.hits h1 b1 = true) :
    q.hits h2 b2 = true :=
  Lookup.hits_registry_grows hg q (by rw [Lookup.hits_heap_grows hb he]; exact hq)

/-- A lookup that finds a handle keeps finding it when the heap and the registry grow. -/
theorem Lookup.get_grows {h1 h2 : Heap} {b1 b2 : CeresBlocks} (hb : b1.live h1)
    (he : h1.grows h2) (hg : b1.grows b2) (q : Lookup) (hq : q.get h1 b1 ≠ P_BLOCK.NULL) :
    q.get h2 b2 = q.get h1 b1 :=
  Lookup.get_grows_hits hb he hg q (Lookup.hits_of_get q hq)

/-! ## What one call does to the heap and the registry -/

theorem RegistryCall.run_heap_grows (h : Heap) (b : CeresBlocks) (c : RegistryCall)
    (hc : c.isAdd = true) : h.grows (c.run h b).1 := by
  cases c with
  | addMovingCamera cam s =>
    simp only [RegistryCall.run, CeresBlocks.addMovingCamera_eq]
    split
    · exact Heap.grows_self h
    · exact Heap.grows_make_shared_Camera h _ _ _
  | clearCamerasTargets => simp [RegistryCall.isAdd] at hc
  | _ => exact Heap.grows_self h

theorem RegistryCall.run_registry_grows (h : Heap) (b : CeresBlocks) (c : RegistryCall)
    (hc : c.isAdd = true) : b.grows (c.run h b).2 := by
  cases c with
  | addStaticCamera cam =>
    simp only [RegistryCall.run, CeresBlocks.addStaticCamera_eq]
    split
    · exact CeresBlocks.grows_refl b
    · exact ⟨List.prefix_append _ _, List.prefix_refl _, List.prefix_refl _, List.prefix_refl _⟩
  | addStaticTarget t =>
    simp only [RegistryCall.run, CeresBlocks.addStaticTarget_eq]
    split
    · exact CeresBlocks.grows_refl b
    · exact ⟨List.prefix_refl _, List.prefix_append _ _, List.prefix_refl _, List.prefix_refl _⟩
  | addMovingCamera cam s =>
    simp only [RegistryCall.run, CeresBlocks.addMovingCamera_eq]
    split
    · exact CeresBlocks.grows_refl b
    · exact ⟨List.prefix_refl _, List.prefix_refl _, List.prefix_append _ _, List.prefix_refl _⟩
  | addMovingTarget t s =>
    simp only [RegistryCall.run, CeresBlocks.addMovingTarget_eq]
    split
    · exact CeresBlocks.grows_refl b
    · exact ⟨List.prefix_refl _, List.prefix_refl _, List.prefix_refl _, List.prefix_append _ _⟩
  | clearCamerasTargets => simp [RegistryCall.isAdd] at hc


/-! ## The registry invariant -/

theorem RegistryCall.run_live {h : Heap} {b : CeresBlocks} (c : RegistryCall)
    (hb : b.live h) (ha : c.argLive h) : (c.run h b).2.live (c.run h b).1 := by
  cases c with
  | addStaticCamera cam =>
    simp only [RegistryCall.run, CeresBlocks.addStaticCamera_eq]
    split
    · exact hb
    · refine ⟨fun x hx => ?_, hb.2⟩
      rcases List.mem_append.mp hx with hx | hx
      · exact hb.1 x hx
      · simp only [List.mem_singleton] at hx
        subst hx
        exact ha
  | addStaticTarget t =>
    simp only [RegistryCall.run, CeresBlocks.addStaticTarget_eq]
    split
    · exact hb
    · exact hb
  | addMovingCamera cam s =>
    simp only [RegistryCall.run, CeresBlocks.addMovingCamera_eq]
    split
    · exact hb
    · have he := Heap.grows_make_shared_Camera h (h.cameras cam).camera_name_
        (h.cameras cam).camera_parameters_ true
      refine ⟨fun x hx => he.2.2 x (hb.1 x hx), fun x hx => ?_⟩
      rcases List.mem_append.mp hx with hx | hx
      · exact he.2.2 x.cam (hb.2 x hx)
      · simp only [List.mem_singleton] at hx
        subst hx
        exact Heap.make_shared_Camera_live h _ _ _
  | addMovingTarget t s =>
    simp only [RegistryCall.run, CeresBlocks.addMovingTarget_eq]
    split
    · exact hb
    · exact hb
  | clearCamerasTargets =>
    exact ⟨fun x hx => by simp [RegistryCall.run, CeresBlocks.clearCamerasTargets] at hx,
      fun x hx => by simp [RegistryCall.run, CeresBlocks.clearCamerasTargets] at hx⟩

theorem CeresBlocks.distinct_of_grows {h1 h2 : Heap} {b : CeresBlocks} (hb : b.live h1)
    (he : h1.grows h2) (hd : b.distinct h1) : b.distinct h2 := by
  obtain ⟨d1, d2, d3, d4⟩ := hd
  refine ⟨?_, ?_, ?_, ?_⟩
  · refine d1.imp_of_mem ?_
    intro x y hx hy hxy
    rw [he.1 x (hb.1 x hx), he.1 y (hb.1 y hy)]
    exact hxy
  · rw [he.2.1]
    exact d2
  · refine d3.imp_of_mem ?_
    intro x y hx hy hxy
    rw [he.1 x.cam (hb.2 x hx), he.1 y.cam (hb.2 y hy)]
    exact hxy
  · rw [he.2.1]
    exact d4

theorem RegistryCall.run_distinct {h : Heap} {b : CeresBlocks} (c : RegistryCall)
    (hb : b.live h) (hd : b.distinct h) : (c.run h b).2.distinct (c.run h b).1 := by
  cases c with
  | addStaticCamera cam =>
    simp only [RegistryCall.run, CeresBlocks.addStaticCamera_eq]
    split
    · exact hd
    · rename_i hany
      refine ⟨?_, hd.2.1, hd.2.2.1, hd.2.2.2⟩
      refine List.pairwise_append.mpr ⟨hd.1, List.pairwise_singleton _ _, ?_⟩
      intro x hx y hy
      simp only [List.mem_singleton] at hy
      subst hy
      intro hxy
      exact hany (List.any_eq_true.mpr ⟨x, hx, by simpa using hxy⟩)
  | addStaticTarget t =>
    simp only [RegistryCall.run, CeresBlocks.addStaticTarget_eq]
    split
    · exact hd
    · rename_i hany
      refine ⟨hd.1, ?_, hd.2.2.1, hd.2.2.2⟩
      refine List.pairwise_append.mpr ⟨hd.2.1, List.pairwise_singleton _ _, ?_⟩
      intro x hx y hy
      simp only [List.mem_singleton] at hy
      subst hy
      intro hxy
      exact hany (List.any_eq_true.mpr ⟨x, hx, by simpa using hxy⟩)
  | addMovingCamera cam s =>
    simp only [RegistryCall.run, CeresBlocks.addMovingCamera_eq]
    split
    · exact hd
    · rename_i hany
      have he := Heap.grows_make_shared_Camera h (h.cameras cam).camera_name_
        (h.cameras cam).camera_parameters_ true
      have hd2 := CeresBlocks.distinct_of_grows hb he hd
      refine ⟨hd2.1, hd2.2.1, ?_, hd2.2.2.2⟩
      refine List.pairwise_append.mpr ⟨hd2.2.2.1, List.pairwise_singleton _ _, ?_⟩
      intro x hx y hy
      simp only [List.mem_singleton] at hy
      subst hy
      intro hxy
      apply hany
      refine List.any_eq_true.mpr ⟨x, hx, ?_⟩
      have hxl : h.live_camera x.cam := hb.2 x hx
      have hx1 := he.1 x.cam hxl
      rw [hx1] at hxy
      simp only [Heap.make_shared_Camera, Function.update_same, Camera.ctor] at hxy
      simpa using hxy
  | addMovingTarget t s =>
    simp only [RegistryCall.run, CeresBlocks.addMovingTarget_eq]
    split
    · exact hd
    · rename_i hany
      refine ⟨hd.1, hd.2.1, hd.2.2.1, ?_⟩
      refine List.pairwise_append.mpr ⟨hd.2.2.2, List.pairwise_singleton _ _, ?_⟩
      intro x hx y hy
      simp only [List.mem_singleton] at hy
      subst hy
      intro hxy
      exact hany (List.any_eq_true.mpr ⟨x, hx, by simpa using hxy⟩)
  | clearCamerasTargets =>
    simp [RegistryCall.run, CeresBlocks.clearCamerasTargets, CeresBlocks.distinct]

theorem Reachable.live_distinct {h : Heap} {b : CeresBlocks} (hr : Reachable h b) :
    b.live h ∧ b.distinct h := by
  induction hr with
  | ctor h =>
    exact ⟨⟨fun x hx => by simp [CeresBlocks.ctor] at hx,
      fun x hx => by simp [CeresBlocks.ctor] at hx⟩,
      by simp [CeresBlocks.ctor, CeresBlocks.distinct]⟩
  | call c _ ha ih => exact ⟨RegistryCall.run_live c ih.1 ha, RegistryCall.run_distinct c ih.1 ih.2⟩


theorem Example.reachable_blocks_A : Reachable Example.heap Example.blocks_A :=
  Reachable.call (RegistryCall.addStaticCamera 0) (Reachable.ctor Example.heap)
    (show Example.heap.live_camera 0 by decide)

/-! ## Claims about the registry -/

theorem countP_le_one_of_pairwise {α : Type} (key : α → String) (n : String) (l : List α)
    (hp : l.Pairwise (fun x y => key x ≠ key y)) :
    l.countP (fun x => decide (key x = n)) ≤ 1 := by
  induction l with
  | nil => simp
  | cons a as ih =>
    rw [List.pairwise_cons] at hp
    by_cases ha : key a = n
    · have h0 : as.countP (fun x => decide (key x = n)) = 0 := by
        rw [List.countP_eq_zero]
        intro x hx
        have := hp.1 x hx
        simp only [decide_eq_true_eq]
        intro hxn
        exact this (ha.trans hxn.symm)
      simp [List.countP_cons, ha, h0]
    · simp only [List.countP_cons, ha, decide_False]
      simpa using ih hp.2

theorem countP_eq_one_of_pairwise {α : Type} (key : α → String) (n : String) (l : List α)
    (hp : l.Pairwise (fun x y => key x ≠ key y))
    (hany : l.any (fun x => decide (key x = n)) = true) :
    l.countP (fun x => decide (key x = n)) = 1 := by
  have h1 := countP_le_one_of_pairwise key n l hp
  have h2 : 0 < l.countP (fun x => decide (key x = n)) := by
    rw [List.countP_pos_iff]
    obtain ⟨x, hx, hxn⟩ := List.any_eq_true.mp hany
    exact ⟨x, hx, hxn⟩
  omega

/-- C1: in every registry state, calling `addStaticCamera(c)` twice in a row makes the
second call return false and leave the registry exactly as the first call left it, with
exactly one static camera entry named like `c`; the same for `addStaticTarget(t)`. -/
theorem addStatic_twice (h : Heap) (b : CeresBlocks) (hr : Reachable h b) (c : CameraPtr)
    (t : TargetPtr) :
    (((b.addStaticCamera h c).2.addStaticCamera h c).1 = false ∧
      ((b.addStaticCamera h c).2.addStaticCamera h c).2 = (b.addStaticCamera h c).2 ∧
      (b.addStaticCamera h c).2.static_cameras_.countP
        (fun x => decide ((h.cameras x).camera_name_ = (h.cameras c).camera_name_)) = 1) ∧
    (((b.addStaticTarget h t).2.addStaticTarget h t).1 = false ∧
      ((b.addStaticTarget h t).2.addStaticTarget h t).2 = (b.addStaticTarget h t).2 ∧
      (b.addStaticTarget h t).2.static_targets_.countP
        (fun x => decide ((h.targets x).target_name = (h.targets t).target_name)) = 1) := by
  have hd := hr.live_distinct.2
  constructor
  · by_cases hany : b.static_cameras_.any
        (fun cam => decide ((h.cameras cam).camera_name_ = (h.cameras c).camera_name_)) = true
    · have e1 : b.addStaticCamera h c = (false, b) := by
        rw [CeresBlocks.addStaticCamera_eq, if_pos hany]
      rw [e1]
      simp only
      rw [e1]
      exact ⟨rfl, rfl, countP_eq_one_of_pairwise _ _ _ hd.1 hany⟩
    · have e1 : b.addStaticCamera h c =
          (true, { b with static_cameras_ := b.static_cameras_ ++ [c] }) := by
        rw [CeresBlocks.addStaticCamera_eq, if_neg hany]
      have e2 : ({ b with static_cameras_ := b.static_cameras_ ++ [c] } : CeresBlocks).addStaticCamera
          h c = (false, { b with static_cameras_ := b.static_cameras_ ++ [c] }) := by
        rw [CeresBlocks.addStaticCamera_eq, if_pos]
        simp
      rw [e1]
      simp only
      rw [e2]
      refine ⟨rfl, rfl, ?_⟩
      have h0 : b.static_cameras_.countP
          (fun x => decide ((h.cameras x).camera_name_ = (h.cameras c).camera_name_)) = 0 := by
        rw [List.countP_eq_zero]
        intro x hx hxn
        exact hany (List.any_eq_true.mpr ⟨x, hx, hxn⟩)
      simp [List.countP_append, h0]
  · by_cases hany : b.static_targets_.any
        (fun targ => decide ((h.targets targ).target_name = (h.targets t).target_name)) = true
    · have e1 : b.addStaticTarget h t = (false, b) := by
        rw [CeresBlocks.addStaticTarget_eq, if_pos hany]
      rw [e1]
      simp only
      rw [e1]
      exact ⟨rfl, rfl, countP_eq_one_of_pairwise _ _ _ hd.2.1 hany⟩
    · have e1 : b.addStaticTarget h t =
          (true, { b with static_targets_ := b.static_targets_ ++ [t] }) := by
        rw [CeresBlocks.addStaticTarget_eq, if_neg hany]
      have e2 : ({ b with static_targets_ := b.static_targets_ ++ [t] } : CeresBlocks).addStaticTarget
          h t = (false, { b with static_targets_ := b.static_targets_ ++ [t] }) := by
        rw [CeresBlocks.addStaticTarget_eq, if_pos]
        simp
      rw [e1]
      simp only
      rw [e2]
      refine ⟨rfl, rfl, ?_⟩
      have h0 : b.static_targets_.countP
          (fun x => decide ((h.targets x).target_name = (h.targets t).target_name)) = 0 := by
        rw [List.countP_eq_zero]
        intro x hx hxn
        exact hany (List.any_eq_true.mpr ⟨x, hx, hxn⟩)
      simp [List.countP_append, h0]

/-- Witness of C1: the registry holding static camera "A", adding camera "B" (address 1)
and target "T" (address 0) twice. -/
theorem addStatic_twice_witness :
    Reachable Example.heap Example.blocks_A ∧
    (((Example.blocks_A.addStaticCamera Example.heap 1).2.addStaticCamera Example.heap 1).1
        = false ∧
      ((Example.blocks_A.addStaticCamera Example.heap 1).2.addStaticCamera Example.heap 1).2 =
        (Example.blocks_A.addStaticCamera Example.heap 1).2 ∧
      (Example.blocks_A.addStaticCamera Example.heap 1).2.static_cameras_.countP
        (fun x => decide ((Example.heap.cameras x).camera_name_ =
          (Example.heap.cameras 1).camera_name_)) = 1) ∧
    (((Example.blocks_A.addStaticTarget Example.heap 0).2.addStaticTarget Example.heap 0).1
        = false ∧
      ((Example.blocks_A.addStaticTarget Example.heap 0).2.addStaticTarget Example.heap 0).2 =
        (Example.blocks_A.addStaticTarget Example.heap 0).2 ∧
      (Example.blocks_A.addStaticTarget Example.heap 0).2.static_targets_.countP
        (fun x => decide ((Example.heap.targets x).target_name =
          (Example.heap.targets 0).target_name)) = 1) :=
  ⟨Example.reachable_blocks_A,
    addStatic_twice Example.heap Example.blocks_A Example.reachable_blocks_A 1 0⟩


theorem foreach_return_skip {α β : Type} (test : α → Bool) (found : α → β) (o : β)
    (l l2 : List α) (hl : ∀ x ∈ l, test x = false) :
    foreach_return test found o (l ++ l2) = foreach_return test found o l2 := by
  rw [foreach_return_append, foreach_return_none _ _ _ _ hl]

theorem Heap.make_shared_Camera_cameras (h : Heap) (name : String) (cp : CameraParameters)
    (mv : Bool) (x : CameraPtr) :
    (h.make_shared_Camera name cp mv).2.cameras x =
      if x = h.next_Camera then Camera.ctor (h.cameras h.next_Camera) name cp mv
      else h.cameras x := by
  simp [Heap.make_shared_Camera, Function.update_apply]

theorem Heap.make_shared_Camera_name (h : Heap) (c x : CameraPtr) (cp : CameraParameters)
    (mv : Bool) (hx : (h.cameras x).camera_name_ = (h.cameras c).camera_name_) :
    ((h.make_shared_Camera (h.cameras c).camera_name_ cp mv).2.cameras x).camera_name_ =
      (h.cameras c).camera_name_ := by
  rw [Heap.make_shared_Camera_cameras]
  split
  · rfl
  · exact hx

/-- C2: from a registry with no moving camera named like `c`, `addMovingCamera(c, s1)`
and `addMovingCamera(c, s2)` with `s1 ≠ s2` both return true and append one entry each
(two entries with that name in all); the extrinsics lookups for the two scenes are found
and distinct, and the intrinsics lookup returns the intrinsics block of the entry
registered for `s1`. -/
theorem addMovingCamera_two_scenes (h : Heap) (b : CeresBlocks) (c : CameraPtr)
    (s1 s2 : Int) (hs : s1 ≠ s2) (hb : b.live h)
    (hn : ∀ mc ∈ b.moving_cameras_,
      (h.cameras mc.cam).camera_name_ ≠ (h.cameras c).camera_name_) :
    ∃ h1 b1 h2 b2,
      b.addMovingCamera h c s1 = (true, h1, b1) ∧
      b1.addMovingCamera h1 c s2 = (true, h2, b2) ∧
      b2.moving_cameras_ =
        b.moving_cameras_ ++ [⟨h.next_Camera, s1⟩, ⟨h1.next_Camera, s2⟩] ∧
      b2.moving_cameras_.countP
        (fun mc => decide ((h2.cameras mc.cam).camera_name_ = (h.cameras c).camera_name_)) = 2 ∧
      b2.getMovingCameraParameterBlockExtrinsics h2 (h.cameras c).camera_name_ s1 =
        P_BLOCK.pb_extrinsics h.next_Camera ∧
      b2.getMovingCameraParameterBlockExtrinsics h2 (h.cameras c).camera_name_ s2 =
        P_BLOCK.pb_extrinsics h1.next_Camera ∧
      b2.getMovingCameraParameterBlockExtrinsics h2 (h.cameras c).camera_name_ s1 ≠
        b2.getMovingCameraParameterBlockExtrinsics h2 (h.cameras c).camera_name_ s2 ∧
      b2.getMovingCameraParameterBlockIntrinsics h2 (h.cameras c).camera_name_ =
        P_BLOCK.pb_intrinsics h.next_Camera := by
  -- the first call
  have hany1 : ¬ b.moving_cameras_.any
      (fun cam => decide ((h.cameras cam.cam).camera_name_ = (h.cameras c).camera_name_)
        && decide (cam.scene_id = s1)) = true := by
    intro hany
    obtain ⟨x, hx, hxn⟩ := List.any_eq_true.mp hany
    simp only [Bool.and_eq_true, decide_eq_true_eq] at hxn
    exact hn x hx hxn.1
  have e1 := CeresBlocks.addMovingCamera_eq h b c s1
  rw [if_neg hany1] at e1
  -- the heap after the first call
  have hc1 : ((h.make_shared_Camera (h.cameras c).camera_name_ (h.cameras c).camera_parameters_
      true).2.cameras c).camera_name_ = (h.cameras c).camera_name_ :=
    Heap.make_shared_Camera_name h c c _ _ rfl
  have hold1 : ∀ x ∈ b.moving_cameras_,
      (h.make_shared_Camera (h.cameras c).camera_name_ (h.cameras c).camera_parameters_
        true).2.cameras x.cam = h.cameras x.cam := by
    intro x hx
    rw [Heap.make_shared_Camera_cameras, if_neg (Heap.ne_next_Camera (hb.2 x hx))]
  have hlive1 : ∀ p, h.live_camera p → (h.make_shared_Camera (h.cameras c).camera_name_
      (h.cameras c).camera_parameters_ true).2.live_camera p :=
    (Heap.grows_make_shared_Camera h _ _ _).2.2
  have hlnew1 := Heap.make_shared_Camera_live h (h.cameras c).camera_name_
    (h.cameras c).camera_parameters_ true
  generalize hh1 : (h.make_shared_Camera (h.cameras c).camera_name_
    (h.cameras c).camera_parameters_ true).2 = h1 at e1 hc1 hold1 hlive1 hlnew1
  have hnew1 : (h1.cameras h.next_Camera).camera_name_ = (h.cameras c).camera_name_ := by
    rw [← hh1, Heap.make_shared_Camera_cameras, if_pos rfl]; rfl
  -- the second call
  have hany2 : ¬ (b.moving_cameras_ ++ [(⟨h.next_Camera, s1⟩ : MovingCamera)]).any
      (fun cam => decide ((h1.cameras cam.cam).camera_name_ = (h1.cameras c).camera_name_)
        && decide (cam.scene_id = s2)) = true := by
    intro hany
    obtain ⟨x, hx, hxn⟩ := List.any_eq_true.mp hany
    simp only [Bool.and_eq_true, decide_eq_true_eq] at hxn
    rcases List.mem_append.mp hx with hx | hx
    · rw [hold1 x hx, hc1] at hxn
      exact hn x hx hxn.1
    · simp only [List.mem_singleton] at hx
      subst hx
      exact hs hxn.2
  have e2 := CeresBlocks.addMovingCamera_eq h1
    { b with moving_cameras_ := b.moving_cameras_ ++ [⟨h.next_Camera, s1⟩] } c s2
  rw [if_neg hany2] at e2
  -- the heap after the second call
  have hold2 : ∀ x ∈ b.moving_cameras_,
      ((h1.make_shared_Camera (h1.cameras c).camera_name_ (h1.cameras c).camera_parameters_
        true).2.cameras x.cam).camera_name_ ≠ (h.cameras c).camera_name_ := by
    intro x hx
    have hne : x.cam ≠ h1.next_Camera := Heap.ne_next_Camera (hlive1 _ (hb.2 x hx))
    rw [Heap.make_shared_Camera_cameras, if_neg hne, hold1 x hx]
    exact hn x hx
  have hnew2a : ((h1.make_shared_Camera (h1.cameras c).camera_name_
      (h1.cameras c).camera_parameters_ true).2.cameras h.next_Camera).camera_name_ =
      (h.cameras c).camera_name_ := by
    have hne : h.next_Camera ≠ h1.next_Camera := Heap.ne_next_Camera hlnew1
    rw [Heap.make_shared_Camera_cameras, if_neg hne, hnew1]
  have hnew2b : ((h1.make_shared_Camera (h1.cameras c).camera_name_
      (h1.cameras c).camera_parameters_ true).2.cameras h1.next_Camera).camera_name_ =
      (h.cameras c).camera_name_ := by
    rw [Heap.make_shared_Camera_cameras, if_pos rfl]
    exact hc1
  generalize hh2 : (h1.make_shared_Camera (h1.cameras c).camera_name_
    (h1.cameras c).camera_parameters_ true).2 = h2 at e2 hold2 hnew2a hnew2b
  have hskip : ∀ x ∈ b.moving_cameras_, ∀ s : Int,
      (decide ((h.cameras c).camera_name_ = (h2.cameras x.cam).camera_name_) &&
        decide (s = x.scene_id)) = false := by
    intro x hx s
    have := hold2 x hx
    simp [Ne.symm this]
  have x1 : CeresBlocks.getMovingCameraParameterBlockExtrinsics h2
      { b with moving_cameras_ := b.moving_cameras_ ++ [⟨h.next_Camera, s1⟩] ++
        [⟨h1.next_Camera, s2⟩] } (h.cameras c).camera_name_ s1 =
      P_BLOCK.pb_extrinsics h.next_Camera := by
    simp only [CeresBlocks.getMovingCameraParameterBlockExtrinsics, List.append_assoc]
    rw [foreach_return_skip _ _ _ _ _ (fun x hx => hskip x hx s1)]
    simp [foreach_return, hnew2a]
  have x2 : CeresBlocks.getMovingCameraParameterBlockExtrinsics h2
      { b with moving_cameras_ := b.moving_cameras_ ++ [⟨h.next_Camera, s1⟩] ++
        [⟨h1.next_Camera, s2⟩] } (h.cameras c).camera_name_ s2 =
      P_BLOCK.pb_extrinsics h1.next_Camera := by
    simp only [CeresBlocks.getMovingCameraParameterBlockExtrinsics, List.append_assoc]
    rw [foreach_return_skip _ _ _ _ _ (fun x hx => hskip x hx s2)]
    simp [foreach_return, hnew2a, hnew2b, Ne.symm hs]
  refine ⟨h1, _, h2, _, e1, e2, ?_, ?_, x1, x2, ?_, ?_⟩
  · simp
  · have h0 : b.moving_cameras_.countP
        (fun mc => decide ((h2.cameras mc.cam).camera_name_ = (h.cameras c).camera_name_)) = 0 := by
      rw [List.countP_eq_zero]
      intro x hx hxn
      exact hold2 x hx (by simpa using hxn)
    simp [List.countP_append, h0, hnew2a, hnew2b, List.countP_cons]
  · rw [x1, x2]
    intro he
    exact Heap.ne_next_Camera hlnew1 (P_BLOCK.pb_extrinsics.inj he)
  · simp only [CeresBlocks.getMovingCameraParameterBlockIntrinsics, List.append_assoc]
    rw [foreach_return_skip]
    · simp [foreach_return, hnew2a]
    · intro x hx
      have := hold2 x hx
      simp [Ne.symm this]

theorem Example.live_blocks_A : Example.blocks_A.live Example.heap := by
  refine ⟨fun c hc => ?_, fun mc hmc => ?_⟩
  · simp only [Example.blocks_A, List.mem_singleton] at hc
    subst hc
    decide
  · simp [Example.blocks_A] at hmc

/-- Witness of C2: camera "B" (address 1) added under scenes 0 and 1 to the registry
holding static camera "A". -/
theorem addMovingCamera_two_scenes_witness :
    ((0 : Int) ≠ 1 ∧ Example.blocks_A.live Example.heap ∧
      ∀ mc ∈ Example.blocks_A.moving_cameras_,
        (Example.heap.cameras mc.cam).camera_name_ ≠ (Example.heap.cameras 1).camera_name_) ∧
    ∃ h1 b1 h2 b2,
      Example.blocks_A.addMovingCamera Example.heap 1 0 = (true, h1, b1) ∧
      b1.addMovingCamera h1 1 1 = (true, h2, b2) ∧
      b2.moving_cameras_ =
        Example.blocks_A.moving_cameras_ ++
          [⟨Example.heap.next_Camera, 0⟩, ⟨h1.next_Camera, 1⟩] ∧
      b2.moving_cameras_.countP
        (fun mc => decide ((h2.cameras mc.cam).camera_name_ =
          (Example.heap.cameras 1).camera_name_)) = 2 ∧
      b2.getMovingCameraParameterBlockExtrinsics h2 (Example.heap.cameras 1).camera_name_ 0 =
        P_BLOCK.pb_extrinsics Example.heap.next_Camera ∧
      b2.getMovingCameraParameterBlockExtrinsics h2 (Example.heap.cameras 1).camera_name_ 1 =
        P_BLOCK.pb_extrinsics h1.next_Camera ∧
      b2.getMovingCameraParameterBlockExtrinsics h2 (Example.heap.cameras 1).camera_name_ 0 ≠
        b2.getMovingCameraParameterBlockExtrinsics h2 (Example.heap.cameras 1).camera_name_ 1 ∧
      b2.getMovingCameraParameterBlockIntrinsics h2 (Example.heap.cameras 1).camera_name_ =
        P_BLOCK.pb_intrinsics Example.heap.next_Camera :=
  ⟨⟨by decide, Example.live_blocks_A, fun mc hmc => by simp [Example.blocks_A] at hmc⟩,
    addMovingCamera_two_scenes Example.heap Example.blocks_A 1 0 1 (by decide)
      Example.live_blocks_A (fun mc hmc => by simp [Example.blocks_A] at hmc)⟩

/-- C3, the code at a failing input: the moving target "M" (address 1) is added to the
empty registry under scenes 0 and 1.  Both calls return true and there are two entries,
but both entries hold the target passed in, so the pose lookups of the two scenes return
one and the same block. -/
theorem addMovingTarget_two_scenes_share_pose :
    (CeresBlocks.ctor.addMovingTarget Example.heap 1 0).1 = true ∧
    ((CeresBlocks.ctor.addMovingTarget Example.heap 1 0).2.addMovingTarget Example.heap 1 1).1
      = true ∧
    ((CeresBlocks.ctor.addMovingTarget Example.heap 1 0).2.addMovingTarget Example.heap 1
      1).2.moving_targets_ = [⟨1, 0⟩, ⟨1, 1⟩] ∧
    ((CeresBlocks.ctor.addMovingTarget Example.heap 1 0).2.addMovingTarget Example.heap 1
      1).2.getMovingTargetPoseParameterBlock Example.heap "M" 0 = P_BLOCK.pb_pose 1 ∧
    ((CeresBlocks.ctor.addMovingTarget Example.heap 1 0).2.addMovingTarget Example.heap 1
      1).2.getMovingTargetPoseParameterBlock Example.heap "M" 1 = P_BLOCK.pb_pose 1 := by
  decide

/-- C4: in every registry state reachable from the empty registry by calls of
`addStaticCamera`, `addStaticTarget`, `addMovingCamera`, `addMovingTarget` and
`clearCamerasTargets`, no two static cameras and no two static targets share a name, and
no two moving cameras and no two moving targets share a name together with a scene id. -/
theorem reachable_distinct (h : Heap) (b : CeresBlocks) (hr : Reachable h b) :
    b.static_cameras_.Pairwise
      (fun c1 c2 => (h.cameras c1).camera_name_ ≠ (h.cameras c2).camera_name_) ∧
    b.static_targets_.Pairwise
      (fun t1 t2 => (h.targets t1).target_name ≠ (h.targets t2).target_name) ∧
    b.moving_cameras_.Pairwise
      (fun m1 m2 => ¬ ((h.cameras m1.cam).camera_name_ = (h.cameras m2.cam).camera_name_ ∧
        m1.scene_id = m2.scene_id)) ∧
    b.moving_targets_.Pairwise
      (fun m1 m2 => ¬ ((h.targets m1.targ).target_name = (h.targets m2.targ).target_name ∧
        m1.scene_id = m2.scene_id)) :=
  hr.live_distinct.2

theorem RegistryCall.argLive_of_grows {h1 h2 : Heap} (c : RegistryCall) (he : h1.grows h2)
    (ha : c.argLive h1) : c.argLive h2 := by
  cases c with
  | addStaticCamera cam => exact he.2.2 _ ha
  | addMovingCamera cam s => exact he.2.2 _ ha
  | _ => trivial

theorem Reachable.runAll {h : Heap} {b : CeresBlocks} (hr : Reachable h b)
    (calls : List RegistryCall) (hadd : ∀ c ∈ calls, c.isAdd = true)
    (ha : ∀ c ∈ calls, c.argLive h) :
    Reachable (RegistryCall.runAll h b calls).1 (RegistryCall.runAll h b calls).2 := by
  induction calls generalizing h b with
  | nil => exact hr
  | cons c rest ih =>
    refine ih (Reachable.call c hr (ha c (List.mem_cons_self c rest)))
      (fun c2 hc2 => hadd c2 (List.mem_cons_of_mem c hc2)) ?_
    intro c2 hc2
    exact RegistryCall.argLive_of_grows c2
      (RegistryCall.run_heap_grows h b c (hadd c (List.mem_cons_self c rest)))
      (ha c2 (List.mem_cons_of_mem c hc2))

theorem Example.reachable_calls :
    Reachable (RegistryCall.runAll Example.heap CeresBlocks.ctor Example.calls).1
      (RegistryCall.runAll Example.heap CeresBlocks.ctor Example.calls).2 :=
  Reachable.runAll (Reachable.ctor Example.heap) Example.calls (by decide) (by
    intro c hc
    simp only [Example.calls, List.mem_cons, List.mem_singleton, List.not_mem_nil,
      or_false] at hc
    rcases hc with rfl | rfl | rfl | rfl | rfl | rfl | rfl | rfl | rfl <;>
      first | trivial | exact (by decide : Example.heap.live_camera 0) |
        exact (by decide : Example.heap.live_camera 1))

/-- Witness of C4: the state after the calls `Example.calls`, which try to enter every
identity twice; it holds one static camera, one static target, two moving cameras and two
moving targets. -/
theorem reachable_distinct_witness :
    Reachable (RegistryCall.runAll Example.heap CeresBlocks.ctor Example.calls).1
      (RegistryCall.runAll Example.heap CeresBlocks.ctor Example.calls).2 ∧
    (RegistryCall.runAll Example.heap CeresBlocks.ctor Example.calls).2 =
      { static_cameras_ := [0], static_targets_ := [0],
        moving_cameras_ := [⟨2, 0⟩, ⟨3, 1⟩], moving_targets_ := [⟨1, 0⟩, ⟨1, 1⟩] } ∧
    ((RegistryCall.runAll Example.heap CeresBlocks.ctor Example.calls).2.static_cameras_.Pairwise
      (fun c1 c2 =>
        ((RegistryCall.runAll Example.heap CeresBlocks.ctor Example.calls).1.cameras
          c1).camera_name_ ≠
        ((RegistryCall.runAll Example.heap CeresBlocks.ctor Example.calls).1.cameras
          c2).camera_name_) ∧
    (RegistryCall.runAll Example.heap CeresBlocks.ctor Example.calls).2.static_targets_.Pairwise
      (fun t1 t2 =>
        ((RegistryCall.runAll Example.heap CeresBlocks.ctor Example.calls).1.targets
          t1).target_name ≠
        ((RegistryCall.runAll Example.heap CeresBlocks.ctor Example.calls).1.targets
          t2).target_name) ∧
    (RegistryCall.runAll Example.heap CeresBlocks.ctor Example.calls).2.moving_cameras_.Pairwise
      (fun m1 m2 => ¬
        (((RegistryCall.runAll Example.heap CeresBlocks.ctor Example.calls).1.cameras
          m1.cam).camera_name_ =
        ((RegistryCall.runAll Example.heap CeresBlocks.ctor Example.calls).1.cameras
          m2.cam).camera_name_ ∧ m1.scene_id = m2.scene_id)) ∧
    (RegistryCall.runAll Example.heap CeresBlocks.ctor Example.calls).2.moving_targets_.Pairwise
      (fun m1 m2 => ¬
        (((RegistryCall.runAll Example.heap CeresBlocks.ctor Example.calls).1.targets
          m1.targ).target_name =
        ((RegistryCall.runAll Example.heap CeresBlocks.ctor Example.calls).1.targets
          m2.targ).target_name ∧ m1.scene_id = m2.scene_id))) :=
  ⟨Example.reachable_calls, by decide,
    reachable_distinct _ _ Example.reachable_calls⟩


theorem foreach_return_eq_NULL_iff {α : Type} (test : α → Bool) (found : α → P_BLOCK)
    (l : List α) (hf : ∀ x, found x ≠ P_BLOCK.NULL) :
    foreach_return test found P_BLOCK.NULL l = P_BLOCK.NULL ↔ ∀ x ∈ l, test x = false := by
  have h1 := foreach_return_any test found P_BLOCK.NULL l hf
  constructor
  · intro he x hx
    by_contra hx2
    have : l.any test = true := List.any_eq_true.mpr ⟨x, hx, by simpa using hx2⟩
    exact (h1.mpr this) he
  · intro hall
    exact foreach_return_none _ _ _ _ hall

theorem foreach_return_at_first {α β : Type} (test : α → Bool) (found : α → β) (o : β)
    (l pre post : List α) (x : α) (hl : l = pre ++ x :: post)
    (hpre : ∀ y ∈ pre, test y = false) (hx : test x = true) :
    foreach_return test found o l = found x := by
  rw [hl, foreach_return_skip _ _ _ _ _ hpre]
  simp [foreach_return, hx]

/-- C5, as stated, fails for moving cameras: camera "B" (address 1) is added under scene
0 to the empty registry.  The call returns true, and the extrinsics lookup for ("B", 0)
returns the block of the copy the registry allocated at address 2, not the block of the
camera that was passed in. -/
theorem addMovingCamera_lookup_not_argument_block :
    (CeresBlocks.ctor.addMovingCamera Example.heap 1 0).1 = true ∧
    (CeresBlocks.ctor.addMovingCamera Example.heap 1 0).2.2.getMovingCameraParameterBlockExtrinsics
      (CeresBlocks.ctor.addMovingCamera Example.heap 1 0).2.1 "B" 0 = P_BLOCK.pb_extrinsics 2 ∧
    (CeresBlocks.ctor.addMovingCamera Example.heap 1 0).2.2.getMovingCameraParameterBlockExtrinsics
      (CeresBlocks.ctor.addMovingCamera Example.heap 1 0).2.1 "B" 0 ≠ P_BLOCK.pb_extrinsics 1 := by
  decide

/-- C5, amended: after `addStaticCamera(c)` returns true the static intrinsics and
extrinsics lookups for the name of `c` return the blocks of `c`; after
`addStaticTarget(t)` returns true the pose lookup returns the pose block of `t`; after
`addMovingTarget(mt, s)` returns true the pose lookup for the name and `s` returns the pose
block of `mt`; after `addMovingCamera(mc, s)` returns true the extrinsics lookup for the
name and `s` returns the extrinsics block of the camera the registry allocated for the new
entry (a moving camera with the name of `mc`), which is not the block of `mc`. -/
theorem lookup_after_add (h : Heap) (b : CeresBlocks) (hb : b.live h) (c mc : CameraPtr)
    (t mt : TargetPtr) (s : Int) (hmc : h.live_camera mc) :
    ((b.addStaticCamera h c).1 = true →
      (b.addStaticCamera h c).2.getStaticCameraParameterBlockIntrinsics h
        (h.cameras c).camera_name_ = P_BLOCK.pb_intrinsics c ∧
      (b.addStaticCamera h c).2.getStaticCameraParameterBlockExtrinsics h
        (h.cameras c).camera_name_ = P_BLOCK.pb_extrinsics c) ∧
    ((b.addStaticTarget h t).1 = true →
      (b.addStaticTarget h t).2.getStaticTargetPoseParameterBlock h
        (h.targets t).target_name = P_BLOCK.pb_pose t) ∧
    ((b.addMovingTarget h mt s).1 = true →
      (b.addMovingTarget h mt s).2.getMovingTargetPoseParameterBlock h
        (h.targets mt).target_name s = P_BLOCK.pb_pose mt) ∧
    ((b.addMovingCamera h mc s).1 = true →
      (b.addMovingCamera h mc s).2.2.moving_cameras_ =
        b.moving_cameras_ ++ [⟨h.next_Camera, s⟩] ∧
      ((b.addMovingCamera h mc s).2.1.cameras h.next_Camera).camera_name_ =
        (h.cameras mc).camera_name_ ∧
      ((b.addMovingCamera h mc s).2.1.cameras h.next_Camera).is_moving_ = true ∧
      (b.addMovingCamera h mc s).2.2.getMovingCameraParameterBlockExtrinsics
        (b.addMovingCamera h mc s).2.1 (h.cameras mc).camera_name_ s =
          P_BLOCK.pb_extrinsics h.next_Camera ∧
      P_BLOCK.pb_extrinsics h.next_Camera ≠ P_BLOCK.pb_extrinsics mc) := by
  refine ⟨?_, ?_, ?_, ?_⟩
  · rw [CeresBlocks.addStaticCamera_eq]
    split
    · intro hf; simp at hf
    · rename_i hany
      intro _
      have hskip : ∀ x ∈ b.static_cameras_,
          decide ((h.cameras c).camera_name_ = (h.cameras x).camera_name_) = false := by
        intro x hx
        by_contra hx2
        exact hany (List.any_eq_true.mpr ⟨x, hx, by simpa [eq_comm] using hx2⟩)
      constructor
      · exact foreach_return_at_first _ _ _ _ b.static_cameras_ [] c rfl hskip (by simp)
      · exact foreach_return_at_first _ _ _ _ b.static_cameras_ [] c rfl hskip (by simp)
  · rw [CeresBlocks.addStaticTarget_eq]
    split
    · intro hf; simp at hf
    · rename_i hany
      intro _
      have hskip : ∀ x ∈ b.static_targets_,
          decide ((h.targets t).target_name = (h.targets x).target_name) = false := by
        intro x hx
        by_contra hx2
        exact hany (List.any_eq_true.mpr ⟨x, hx, by simpa [eq_comm] using hx2⟩)
      exact foreach_return_at_first _ _ _ _ b.static_targets_ [] t rfl hskip (by simp)
  · rw [CeresBlocks.addMovingTarget_eq]
    split
    · intro hf; simp at hf
    · rename_i hany
      intro _
      have hskip : ∀ x ∈ b.moving_targets_,
          (decide ((h.targets mt).target_name = (h.targets x.targ).target_name) &&
            decide (s = x.scene_id)) = false := by
        intro x hx
        by_contra hx2
        refine hany (List.any_eq_true.mpr ⟨x, hx, ?_⟩)
        simp only [Bool.not_eq_false, Bool.and_eq_true, decide_eq_true_eq] at hx2 ⊢
        exact ⟨hx2.1.symm, hx2.2.symm⟩
      exact foreach_return_at_first _ _ _ _ b.moving_targets_ [] ⟨mt, s⟩ rfl hskip (by simp)
  · rw [CeresBlocks.addMovingCamera_eq]
    split
    · intro hf; simp at hf
    · rename_i hany
      intro _
      have hnew : ((h.make_shared_Camera (h.cameras mc).camera_name_
          (h.cameras mc).camera_parameters_ true).2.cameras h.next_Camera) =
          Camera.ctor (h.cameras h.next_Camera) (h.cameras mc).camera_name_
            (h.cameras mc).camera_parameters_ true := by
        rw [Heap.make_shared_Camera_cameras, if_pos rfl]
      have hskip : ∀ x ∈ b.moving_cameras_,
          (decide ((h.cameras mc).camera_name_ =
            ((h.make_shared_Camera (h.cameras mc).camera_name_
              (h.cameras mc).camera_parameters_ true).2.cameras x.cam).camera_name_) &&
            decide (s = x.scene_id)) = false := by
        intro x hx
        rw [Heap.make_shared_Camera_cameras, if_neg (Heap.ne_next_Camera (hb.2 x hx))]
        by_contra hx2
        refine hany (List.any_eq_true.mpr ⟨x, hx, ?_⟩)
        simp only [Bool.not_eq_false, Bool.and_eq_true, decide_eq_true_eq] at hx2 ⊢
        exact ⟨hx2.1.symm, hx2.2.symm⟩
      refine ⟨rfl, by rw [hnew]; rfl, by rw [hnew]; rfl, ?_, ?_⟩
      · refine foreach_return_at_first _ _ _ _ b.moving_cameras_ [] ⟨h.next_Camera, s⟩ rfl
          hskip ?_
        simp only [hnew, Camera.ctor, decide_True, Bool.and_self]
      · intro he
        injection he with he
        exact Heap.ne_next_Camera hmc he.symm


/-- Witness of C5 (amended): on the registry holding static camera "A", camera "B"
(address 1) is added as a static and as a moving camera, target "T" (address 0) as a
static target and target "M" (address 1) as a moving target, scene 0; every call returns
true. -/
theorem lookup_after_add_witness :
    (Example.blocks_A.live Example.heap ∧ Example.heap.live_camera 1 ∧
      (Example.blocks_A.addStaticCamera Example.heap 1).1 = true ∧
      (Example.blocks_A.addStaticTarget Example.heap 0).1 = true ∧
      (Example.blocks_A.addMovingTarget Example.heap 1 0).1 = true ∧
      (Example.blocks_A.addMovingCamera Example.heap 1 0).1 = true) ∧
    ((Example.blocks_A.addStaticCamera Example.heap 1).2.getStaticCameraParameterBlockIntrinsics
        Example.heap (Example.heap.cameras 1).camera_name_ = P_BLOCK.pb_intrinsics 1 ∧
      (Example.blocks_A.addStaticCamera Example.heap 1).2.getStaticCameraParameterBlockExtrinsics
        Example.heap (Example.heap.cameras 1).camera_name_ = P_BLOCK.pb_extrinsics 1) ∧
    (Example.blocks_A.addStaticTarget Example.heap 0).2.getStaticTargetPoseParameterBlock
        Example.heap (Example.heap.targets 0).target_name = P_BLOCK.pb_pose 0 ∧
    (Example.blocks_A.addMovingTarget Example.heap 1 0).2.getMovingTargetPoseParameterBlock
        Example.heap (Example.heap.targets 1).target_name 0 = P_BLOCK.pb_pose 1 ∧
    ((Example.blocks_A.addMovingCamera Example.heap 1 0).2.2.moving_cameras_ =
        Example.blocks_A.moving_cameras_ ++ [⟨Example.heap.next_Camera, 0⟩] ∧
      ((Example.blocks_A.addMovingCamera Example.heap 1 0).2.1.cameras
        Example.heap.next_Camera).camera_name_ = (Example.heap.cameras 1).camera_name_ ∧
      ((Example.blocks_A.addMovingCamera Example.heap 1 0).2.1.cameras
        Example.heap.next_Camera).is_moving_ = true ∧
      (Example.blocks_A.addMovingCamera Example.heap 1 0).2.2.getMovingCameraParameterBlockExtrinsics
        (Example.blocks_A.addMovingCamera Example.heap 1 0).2.1
        (Example.heap.cameras 1).camera_name_ 0 =
          P_BLOCK.pb_extrinsics Example.heap.next_Camera ∧
      P_BLOCK.pb_extrinsics Example.heap.next_Camera ≠ P_BLOCK.pb_extrinsics 1) :=
  ⟨⟨Example.live_blocks_A, by decide, by decide, by decide, by decide, by decide⟩,
    (lookup_after_add Example.heap Example.blocks_A Example.live_blocks_A 1 1 0 1 0
      (by decide)).1 (by decide),
    (lookup_after_add Example.heap Example.blocks_A Example.live_blocks_A 1 1 0 1 0
      (by decide)).2.1 (by decide),
    (lookup_after_add Example.heap Example.blocks_A Example.live_blocks_A 1 1 0 1 0
      (by decide)).2.2.1 (by decide),
    (lookup_after_add Example.heap Example.blocks_A Example.live_blocks_A 1 1 0 1 0
      (by decide)).2.2.2 (by decide)⟩

theorem and_decide_eq_false_iff (n m : String) (s t : Int) :
    (decide (n = m) && decide (s = t)) = false ↔ ¬ (m = n ∧ t = s) := by
  constructor
  · rintro h ⟨h1, h2⟩
    subst h1
    subst h2
    simp at h
  · intro h
    by_contra hc
    simp only [Bool.not_eq_false, Bool.and_eq_true, decide_eq_true_eq] at hc
    exact h ⟨hc.1.symm, hc.2.symm⟩

/-- C6: a static camera lookup (intrinsics or extrinsics) returns `NULL` exactly when no
static camera entry has the name, the moving camera extrinsics lookup exactly when no
moving camera entry has the name and the scene id, and the static and moving target pose
lookups likewise; when there is a matching entry, the handle returned is the block of the
first one in insertion order. -/
theorem lookup_NULL_iff_absent (h : Heap) (b : CeresBlocks) (n : String) (s : Int) :
    ((b.getStaticCameraParameterBlockExtrinsics h n = P_BLOCK.NULL ↔
        ∀ c ∈ b.static_cameras_, (h.cameras c).camera_name_ ≠ n) ∧
      (b.getStaticCameraParameterBlockIntrinsics h n = P_BLOCK.NULL ↔
        ∀ c ∈ b.static_cameras_, (h.cameras c).camera_name_ ≠ n) ∧
      ∀ pre c post, b.static_cameras_ = pre ++ c :: post →
        (∀ x ∈ pre, (h.cameras x).camera_name_ ≠ n) → (h.cameras c).camera_name_ = n →
        b.getStaticCameraParameterBlockExtrinsics h n = P_BLOCK.pb_extrinsics c ∧
        b.getStaticCameraParameterBlockIntrinsics h n = P_BLOCK.pb_intrinsics c) ∧
    ((b.getMovingCameraParameterBlockExtrinsics h n s = P_BLOCK.NULL ↔
        ∀ mc ∈ b.moving_cameras_, ¬ ((h.cameras mc.cam).camera_name_ = n ∧ mc.scene_id = s)) ∧
      ∀ pre mc post, b.moving_cameras_ = pre ++ mc :: post →
        (∀ x ∈ pre, ¬ ((h.cameras x.cam).camera_name_ = n ∧ x.scene_id = s)) →
        ((h.cameras mc.cam).camera_name_ = n ∧ mc.scene_id = s) →
        b.getMovingCameraParameterBlockExtrinsics h n s = P_BLOCK.pb_extrinsics mc.cam) ∧
    ((b.getStaticTargetPoseParameterBlock h n = P_BLOCK.NULL ↔
        ∀ t ∈ b.static_targets_, (h.targets t).target_name ≠ n) ∧
      ∀ pre t post, b.static_targets_ = pre ++ t :: post →
        (∀ x ∈ pre, (h.targets x).target_name ≠ n) → (h.targets t).target_name = n →
        b.getStaticTargetPoseParameterBlock h n = P_BLOCK.pb_pose t) ∧
    ((b.getMovingTargetPoseParameterBlock h n s = P_BLOCK.NULL ↔
        ∀ mt ∈ b.moving_targets_, ¬ ((h.targets mt.targ).target_name = n ∧ mt.scene_id = s)) ∧
      ∀ pre mt post, b.moving_targets_ = pre ++ mt :: post →
        (∀ x ∈ pre, ¬ ((h.targets x.targ).target_name = n ∧ x.scene_id = s)) →
        ((h.targets mt.targ).target_name = n ∧ mt.scene_id = s) →
        b.getMovingTargetPoseParameterBlock h n s = P_BLOCK.pb_pose mt.targ) := by
  refine ⟨⟨?_, ?_, ?_⟩, ⟨?_, ?_⟩, ⟨?_, ?_⟩, ⟨?_, ?_⟩⟩
  · unfold CeresBlocks.getStaticCameraParameterBlockExtrinsics
    rw [foreach_return_eq_NULL_iff _ _ _ (fun _ => by simp)]
    simp [eq_comm]
  · unfold CeresBlocks.getStaticCameraParameterBlockIntrinsics
    rw [foreach_return_eq_NULL_iff _ _ _ (fun _ => by simp)]
    simp [eq_comm]
  · intro pre c post hl hpre hc
    have hpre2 : ∀ x ∈ pre, decide (n = (h.cameras x).camera_name_) = false :=
      fun x hx => by simpa [eq_comm] using hpre x hx
    exact ⟨foreach_return_at_first _ _ _ _ pre post c hl hpre2 (by simp [hc]),
      foreach_return_at_first _ _ _ _ pre post c hl hpre2 (by simp [hc])⟩
  · unfold CeresBlocks.getMovingCameraParameterBlockExtrinsics
    rw [foreach_return_eq_NULL_iff _ _ _ (fun _ => by simp)]
    exact forall_congr' fun x => forall_congr' fun _ => and_decide_eq_false_iff _ _ _ _
  · intro pre mc post hl hpre hc
    refine foreach_return_at_first _ _ _ _ pre post mc hl ?_ (by simp [hc.1, hc.2])
    intro x hx
    have := hpre x hx
    by_contra hx2
    simp only [Bool.not_eq_false, Bool.and_eq_true, decide_eq_true_eq] at hx2
    exact this ⟨hx2.1.symm, hx2.2.symm⟩
  · unfold CeresBlocks.getStaticTargetPoseParameterBlock
    rw [foreach_return_eq_NULL_iff _ _ _ (fun _ => by simp)]
    simp [eq_comm]
  · intro pre t post hl hpre hc
    have hpre2 : ∀ x ∈ pre, decide (n = (h.targets x).target_name) = false :=
      fun x hx => by simpa [eq_comm] using hpre x hx
    exact foreach_return_at_first _ _ _ _ pre post t hl hpre2 (by simp [hc])
  · unfold CeresBlocks.getMovingTargetPoseParameterBlock
    rw [foreach_return_eq_NULL_iff _ _ _ (fun _ => by simp)]
    exact forall_congr' fun x => forall_congr' fun _ => and_decide_eq_false_iff _ _ _ _
  · intro pre mt post hl hpre hc
    refine foreach_return_at_first _ _ _ _ pre post mt hl ?_ (by simp [hc.1, hc.2])
    intro x hx
    have := hpre x hx
    by_contra hx2
    simp only [Bool.not_eq_false, Bool.and_eq_true, decide_eq_true_eq] at hx2
    exact this ⟨hx2.1.symm, hx2.2.symm⟩

/-- C7: in a registry whose camera pointers own allocated cameras, a lookup (any of the
eight, for any identity) that returns a handle returns the same handle after any call of
`addStaticCamera`, `addStaticTarget`, `addMovingCamera` or `addMovingTarget`, whatever the
argument. -/
theorem lookup_stable_under_add (h : Heap) (b : CeresBlocks) (hb : b.live h) (q : Lookup)
    (c : RegistryCall) (hc : c.isAdd = true) (hq : q.get h b ≠ P_BLOCK.NULL) :
    q.get (c.run h b).1 (c.run h b).2 = q.get h b :=
  Lookup.get_grows hb (RegistryCall.run_heap_grows h b c hc)
    (RegistryCall.run_registry_grows h b c hc) q hq

/-- Witness of C7: the extrinsics handle of static camera "A" before and after
`addMovingCamera` of camera "B" under scene 0, a call that allocates a camera. -/
theorem lookup_stable_under_add_witness :
    (Example.blocks_A.live Example.heap ∧
      (RegistryCall.addMovingCamera 1 0).isAdd = true ∧
      (Lookup.StaticCameraExtrinsics "A").get Example.heap Example.blocks_A ≠ P_BLOCK.NULL) ∧
    (Lookup.StaticCameraExtrinsics "A").get
      ((RegistryCall.addMovingCamera 1 0).run Example.heap Example.blocks_A).1
      ((RegistryCall.addMovingCamera 1 0).run Example.heap Example.blocks_A).2 =
    (Lookup.StaticCameraExtrinsics "A").get Example.heap Example.blocks_A :=
  ⟨⟨Example.live_blocks_A, rfl, by decide⟩,
    lookup_stable_under_add Example.heap Example.blocks_A Example.live_blocks_A
      (Lookup.StaticCameraExtrinsics "A") (RegistryCall.addMovingCamera 1 0) rfl (by decide)⟩


/-! ## The observation pass: one observation -/

theorem register_target_grows (h : Heap) (b : CeresBlocks) (t : TargetPtr) (s : Int) :
    b.grows (register_target h b t s) := by
  unfold register_target
  split
  · exact RegistryCall.run_registry_grows h b (RegistryCall.addMovingTarget t s) rfl
  · exact RegistryCall.run_registry_grows h b (RegistryCall.addStaticTarget t) rfl

theorem register_target_cameras (h : Heap) (b : CeresBlocks) (t : TargetPtr) (s : Int) :
    (register_target h b t s).static_cameras_ = b.static_cameras_ ∧
    (register_target h b t s).moving_cameras_ = b.moving_cameras_ := by
  unfold register_target
  split
  · rw [CeresBlocks.addMovingTarget_eq]
    split <;> exact ⟨rfl, rfl⟩
  · rw [CeresBlocks.addStaticTarget_eq]
    split <;> exact ⟨rfl, rfl⟩

/-- Right after the registration of its target, the pose and point lookups of an
observation find an entry. -/
theorem register_target_found (h : Heap) (b : CeresBlocks) (t : TargetPtr) (s : Int)
    (i : Int) :
    (target_pose_lookup h t s).get h (register_target h b t s) ≠ P_BLOCK.NULL ∧
    (target_point_lookup h t i).hits h (register_target h b t s) = true := by
  unfold register_target target_pose_lookup target_point_lookup
  by_cases hm : (h.targets t).is_moving = true
  · simp only [hm, ↓reduceIte, Lookup.get, Lookup.hits,
      CeresBlocks.getMovingTargetPoseParameterBlock]
    rw [foreach_return_any _ _ _ _ (fun _ => by simp), CeresBlocks.addMovingTarget_eq]
    split
    · rename_i hany
      obtain ⟨x, hx, hxt⟩ := List.any_eq_true.mp hany
      simp only [Bool.and_eq_true, decide_eq_true_eq] at hxt
      exact ⟨List.any_eq_true.mpr ⟨x, hx, by simp [hxt.1, hxt.2]⟩,
        List.any_eq_true.mpr ⟨x, hx, by simp [hxt.1]⟩⟩
    · exact ⟨List.any_eq_true.mpr ⟨⟨t, s⟩, by simp, by simp⟩,
        List.any_eq_true.mpr ⟨⟨t, s⟩, by simp, by simp⟩⟩
  · have hm2 : (h.targets t).is_moving = false := by simpa using hm
    simp only [hm2, Bool.false_eq_true, ↓reduceIte, Lookup.get, Lookup.hits,
      CeresBlocks.getStaticTargetPoseParameterBlock]
    rw [foreach_return_any _ _ _ _ (fun _ => by simp), CeresBlocks.addStaticTarget_eq]
    split
    · rename_i hany
      obtain ⟨x, hx, hxt⟩ := List.any_eq_true.mp hany
      simp only [decide_eq_true_eq] at hxt
      exact ⟨List.any_eq_true.mpr ⟨x, hx, by simp [hxt]⟩,
        List.any_eq_true.mpr ⟨x, hx, by simp [hxt]⟩⟩
    · exact ⟨List.any_eq_true.mpr ⟨t, by simp, by simp⟩,
        List.any_eq_true.mpr ⟨t, by simp, by simp⟩⟩

/-- The body of the observation loop, in one piece: the target is registered and one
data point with the handles looked up right after is appended. -/
theorem runObservations_observation_eq {σ : Type} (sid : Int) (name : String)
    (I E : P_BLOCK) (m : Machine σ) (ob : Observation) :
    runObservations_observation sid name I E m ob =
      { m with
        job := { m.job with
          ceres_blocks_ := register_target m.heap m.blocks ob.target sid
          observation_data_point_list_ :=
            { items := m.items ++
                [{ camera_name_ := name
                   target_name_ := (m.heap.targets ob.target).target_name
                   scene_id_ := sid
                   camera_intrinsics_ := I
                   camera_extrinsics_ := E
                   point_id_ := ob.point_id
                   target_pose_ := (target_pose_lookup m.heap ob.target sid).get m.heap
                     (register_target m.heap m.blocks ob.target sid)
                   point_position_ := (target_point_lookup m.heap ob.target ob.point_id).get
                     m.heap (register_target m.heap m.blocks ob.target sid)
                   image_x_ := ob.image_loc_x
                   image_y_ := ob.image_loc_y }] } } } := by
  unfold runObservations_observation register_target target_pose_lookup target_point_lookup
  by_cases hm : (m.heap.targets ob.target).is_moving = true
  · simp only [hm, ↓reduceIte, Lookup.get, ObservationDataPointList.addObservationPoint,
      Machine.blocks, Machine.items]
  · have hm2 : (m.heap.targets ob.target).is_moving = false := by simpa using hm
    simp only [hm2, Bool.false_eq_true, ↓reduceIte, Lookup.get,
      ObservationDataPointList.addObservationPoint, Machine.blocks, Machine.items]

/-- The loop over the observations of one camera: heap and observers are untouched, the
registry grows by targets only, and one data point per observation is appended, whose
target handles are those the registry at the end of the loop returns. -/
theorem runObservations_observation_foldl {σ : Type} (sid : Int) (name : String)
    (I E : P_BLOCK) (L : List Observation) (m : Machine σ) :
    (L.foldl (runObservations_observation sid name I E) m).heap = m.heap ∧
    (L.foldl (runObservations_observation sid name I E) m).observers = m.observers ∧
    (L.foldl (runObservations_observation sid name I E) m).job.scene_list_ =
      m.job.scene_list_ ∧
    m.blocks.grows (L.foldl (runObservations_observation sid name I E) m).blocks ∧
    (L.foldl (runObservations_observation sid name I E) m).blocks.static_cameras_ =
      m.blocks.static_cameras_ ∧
    (L.foldl (runObservations_observation sid name I E) m).blocks.moving_cameras_ =
      m.blocks.moving_cameras_ ∧
    (L.foldl (runObservations_observation sid name I E) m).items =
      m.items ++ L.map (data_point_with m.heap
        (L.foldl (runObservations_observation sid name I E) m).blocks sid name I E) ∧
    ∀ ob ∈ L,
      (target_pose_lookup m.heap ob.target sid).get m.heap
        (L.foldl (runObservations_observation sid name I E) m).blocks ≠ P_BLOCK.NULL ∧
      (target_point_lookup m.heap ob.target ob.point_id).hits m.heap
        (L.foldl (runObservations_observation sid name I E) m).blocks = true := by
  induction L generalizing m with
  | nil =>
    refine ⟨rfl, rfl, rfl, CeresBlocks.grows_refl _, rfl, rfl, ?_, ?_⟩
    · simp
    · intro ob hob
      simp at hob
  | cons ob rest ih =>
    simp only [List.foldl_cons]
    have hstep := runObservations_observation_eq sid name I E m ob
    generalize runObservations_observation sid name I E m ob = m1 at hstep
    have h1 : m1.heap = m.heap := by rw [hstep]
    have h2 : m1.observers = m.observers := by rw [hstep]
    have h3 : m1.job.scene_list_ = m.job.scene_list_ := by rw [hstep]
    have h4 : m1.blocks = register_target m.heap m.blocks ob.target sid := by rw [hstep]
    have h5 : m1.items = m.items ++ [data_point_with m.heap m1.blocks sid name I E ob] := by
      rw [h4, hstep]; rfl
    obtain ⟨i1, i2, i3, i4, i5, i6, i7, i8⟩ := ih m1
    generalize rest.foldl (runObservations_observation sid name I E) m1 = m2 at *
    have hg1 : m.blocks.grows m1.blocks := by
      rw [h4]; exact register_target_grows _ _ _ _
    have hf := register_target_found m.heap m.blocks ob.target sid ob.point_id
    rw [← h4] at hf
    have hs1 := Lookup.get_registry_grows i4 _ hf.1
    have hs2 := Lookup.get_registry_grows_hits i4 _ hf.2
    have hc := register_target_cameras m.heap m.blocks ob.target sid
    rw [← h4] at hc
    refine ⟨i1.trans h1, i2.trans h2, i3.trans h3, CeresBlocks.grows_trans hg1 i4,
      i5.trans hc.1, i6.trans hc.2, ?_, ?_⟩
    · rw [i7, h5, h1, List.map_cons, List.append_assoc, List.singleton_append]
      congr 2
      simp only [data_point_with, hs1, hs2]
    · intro ob2 hob2
      rcases List.mem_cons.mp hob2 with rfl | hob2
      · rw [hs1]; exact ⟨hf.1, Lookup.hits_registry_grows i4 _ hf.2⟩
      · have := i8 ob2 hob2
        rw [h1] at this
        exact this


/-! ## The observation pass: one camera -/

theorem camera_lookups_of_grows {h1 h2 : Heap} (c : CameraPtr) (sid : Int)
    (he : h1.grows h2) (hc : h1.live_camera c) :
    camera_intrinsics_lookup h2 c = camera_intrinsics_lookup h1 c ∧
    camera_extrinsics_lookup h2 c sid = camera_extrinsics_lookup h1 c sid := by
  unfold camera_intrinsics_lookup camera_extrinsics_lookup
  rw [he.1 c hc]
  exact ⟨rfl, rfl⟩

theorem target_lookups_of_grows {h1 h2 : Heap} (t : TargetPtr) (sid i : Int)
    (he : h1.grows h2) :
    target_pose_lookup h2 t sid = target_pose_lookup h1 t sid ∧
    target_point_lookup h2 t i = target_point_lookup h1 t i := by
  unfold target_pose_lookup target_point_lookup
  rw [he.2.1]
  exact ⟨rfl, rfl⟩

/-- Registering a camera of a scene only grows heap and registry, keeps the registry
pointers allocated, and makes the two camera lookups find an entry. -/
theorem register_camera_spec (h : Heap) (b : CeresBlocks) (c : CameraPtr) (sid : Int)
    (hb : b.live h) (hc : h.live_camera c) :
    h.grows (register_camera h b c sid).1 ∧ b.grows (register_camera h b c sid).2 ∧
    (register_camera h b c sid).2.live (register_camera h b c sid).1 ∧
    (camera_intrinsics_lookup h c).get (register_camera h b c sid).1
      (register_camera h b c sid).2 ≠ P_BLOCK.NULL ∧
    (camera_extrinsics_lookup h c sid).get (register_camera h b c sid).1
      (register_camera h b c sid).2 ≠ P_BLOCK.NULL := by
  unfold register_camera camera_intrinsics_lookup camera_extrinsics_lookup
  by_cases hm : (h.cameras c).is_moving_ = true
  · simp only [hm, ↓reduceIte]
    have hg := RegistryCall.run_heap_grows h b (RegistryCall.addMovingCamera c sid) rfl
    have hr := RegistryCall.run_registry_grows h b (RegistryCall.addMovingCamera c sid) rfl
    have hl := RegistryCall.run_live (RegistryCall.addMovingCamera c sid) hb hc
    simp only [RegistryCall.run] at hg hr hl
    refine ⟨hg, hr, hl, ?_, ?_⟩
    · simp only [Lookup.get, CeresBlocks.getMovingCameraParameterBlockIntrinsics]
      rw [foreach_return_any _ _ _ _ (fun _ => by simp), CeresBlocks.addMovingCamera_eq]
      split
      · rename_i hany
        obtain ⟨x, hx, hxt⟩ := List.any_eq_true.mp hany
        simp only [Bool.and_eq_true, decide_eq_true_eq] at hxt
        exact List.any_eq_true.mpr ⟨x, hx, by simp [hxt.1]⟩
      · refine List.any_eq_true.mpr ⟨⟨h.next_Camera, sid⟩, by simp, ?_⟩
        simp [Heap.make_shared_Camera_cameras, Camera.ctor]
    · simp only [Lookup.get, CeresBlocks.getMovingCameraParameterBlockExtrinsics]
      rw [foreach_return_any _ _ _ _ (fun _ => by simp), CeresBlocks.addMovingCamera_eq]
      split
      · rename_i hany
        obtain ⟨x, hx, hxt⟩ := List.any_eq_true.mp hany
        simp only [Bool.and_eq_true, decide_eq_true_eq] at hxt
        exact List.any_eq_true.mpr ⟨x, hx, by simp [hxt.1, hxt.2]⟩
      · refine List.any_eq_true.mpr ⟨⟨h.next_Camera, sid⟩, by simp, ?_⟩
        simp [Heap.make_shared_Camera_cameras, Camera.ctor]
  · have hm2 : (h.cameras c).is_moving_ = false := by simpa using hm
    simp only [hm2, Bool.false_eq_true, ↓reduceIte]
    have hr := RegistryCall.run_registry_grows h b (RegistryCall.addStaticCamera c) rfl
    have hl := RegistryCall.run_live (RegistryCall.addStaticCamera c) hb hc
    simp only [RegistryCall.run] at hr hl
    refine ⟨Heap.grows_self h, hr, hl, ?_, ?_⟩
    · simp only [Lookup.get, CeresBlocks.getStaticCameraParameterBlockIntrinsics]
      rw [foreach_return_any _ _ _ _ (fun _ => by simp), CeresBlocks.addStaticCamera_eq]
      split
      · rename_i hany
        obtain ⟨x, hx, hxt⟩ := List.any_eq_true.mp hany
        simp only [decide_eq_true_eq] at hxt
        exact List.any_eq_true.mpr ⟨x, hx, by simp [hxt]⟩
      · exact List.any_eq_true.mpr ⟨c, by simp, by simp⟩
    · simp only [Lookup.get, CeresBlocks.getStaticCameraParameterBlockExtrinsics]
      rw [foreach_return_any _ _ _ _ (fun _ => by simp), CeresBlocks.addStaticCamera_eq]
      split
      · rename_i hany
        obtain ⟨x, hx, hxt⟩ := List.any_eq_true.mp hany
        simp only [decide_eq_true_eq] at hxt
        exact List.any_eq_true.mpr ⟨x, hx, by simp [hxt]⟩
      · exact List.any_eq_true.mpr ⟨c, by simp, by simp⟩

/-- The body of the camera loop, in one piece. -/
theorem runObservations_camera_eq {σ : Type} (observer : CameraObserver σ) (sid : Int)
    (m : Machine σ) (c : CameraPtr) :
    runObservations_camera observer sid m c =
      match (m.heap.cameras c).camera_observer_ with
      | none => none
      | some o =>
        if observer.observationsDone o m.observers = false then none
        else
          some ((observer.getObservations o { observations := [] }
              m.observers).1.2.observations.foldl
            (runObservations_observation sid (m.heap.cameras c).camera_name_
              ((camera_intrinsics_lookup m.heap c).get (register_camera m.heap m.blocks c sid).1
                (register_camera m.heap m.blocks c sid).2)
              ((camera_extrinsics_lookup m.heap c sid).get
                (register_camera m.heap m.blocks c sid).1
                (register_camera m.heap m.blocks c sid).2))
            { heap := (register_camera m.heap m.blocks c sid).1
              observers := (observer.getObservations o { observations := [] } m.observers).2
              job := { m.job with
                ceres_blocks_ := (register_camera m.heap m.blocks c sid).2 } }) := by
  unfold runObservations_camera register_camera camera_intrinsics_lookup
    camera_extrinsics_lookup Camera.isMoving
  cases hobs : (m.heap.cameras c).camera_observer_ with
  | none => rfl
  | some o =>
    by_cases hm : (m.heap.cameras c).is_moving_ = true
    · simp only [hm, ↓reduceIte, Lookup.get, Machine.blocks]
    · have hm2 : (m.heap.cameras c).is_moving_ = false := by simpa using hm
      simp only [hm2, Bool.false_eq_true, ↓reduceIte, Lookup.get, Machine.blocks]


/-- Once the four lookups of an observation find their entries, the data point they
resolve stays the same however heap and registry grow. -/
theorem resolved_data_point_of_grows {h1 h2 : Heap} {b1 b2 : CeresBlocks} (sid : Int)
    (c : CameraPtr) (ob : Observation) (hb : b1.live h1) (hc : h1.live_camera c)
    (he : h1.grows h2) (hg : b1.grows b2) (hf : found_all h1 b1 sid c ob) :
    resolved_data_point h2 b2 sid c ob = resolved_data_point h1 b1 sid c ob ∧
    found_all h2 b2 sid c ob := by
  obtain ⟨f1, f2, f3, f4⟩ := hf
  have hcl := camera_lookups_of_grows c sid he hc
  have htl := target_lookups_of_grows ob.target sid ob.point_id he
  have g1 := Lookup.get_grows hb he hg _ f1
  have g2 := Lookup.get_grows hb he hg _ f2
  have g3 := Lookup.get_grows hb he hg _ f3
  have g4 := Lookup.get_grows_hits hb he hg _ f4
  constructor
  · simp only [resolved_data_point, hcl.1, hcl.2, htl.1, htl.2, g1, g2, g3, g4, he.1 c hc,
      he.2.1]
  · unfold found_all
    rw [hcl.1, hcl.2, htl.1, htl.2, g1, g2, g3]
    exact ⟨f1, f2, f3, Lookup.hits_grows hb he hg _ f4⟩

/-- One camera of a scene: when the step comes to its end, the heap and the registry have grown,
the registry pointers are still allocated, and the data points appended are, observation
by observation, the ones the registry after the step resolves. -/
theorem runObservations_camera_spec {σ : Type} (observer : CameraObserver σ) (sid : Int)
    (m m2 : Machine σ) (c : CameraPtr) (hb : m.blocks.live m.heap)
    (hc : m.heap.live_camera c) (hrun : runObservations_camera observer sid m c = some m2) :
    ∃ o, (m.heap.cameras c).camera_observer_ = some o ∧
      m2.observers = (observer.getObservations o { observations := [] } m.observers).2 ∧
      m2.job.scene_list_ = m.job.scene_list_ ∧
      m.heap.grows m2.heap ∧ m.blocks.grows m2.blocks ∧ m2.blocks.live m2.heap ∧
      m2.items = m.items ++
        (observer.getObservations o { observations := [] } m.observers).1.2.observations.map
          (resolved_data_point m2.heap m2.blocks sid c) ∧
      ∀ ob ∈ (observer.getObservations o { observations := [] } m.observers).1.2.observations,
        found_all m2.heap m2.blocks sid c ob := by
  rw [runObservations_camera_eq] at hrun
  cases hobs : (m.heap.cameras c).camera_observer_ with
  | none => rw [hobs] at hrun; simp at hrun
  | some o =>
    rw [hobs] at hrun
    simp only at hrun
    split at hrun
    · simp at hrun
    · obtain ⟨r1, r2, r3, r4, r5⟩ := register_camera_spec m.heap m.blocks c sid hb hc
      have hfold := runObservations_observation_foldl sid (m.heap.cameras c).camera_name_
        ((camera_intrinsics_lookup m.heap c).get (register_camera m.heap m.blocks c sid).1
          (register_camera m.heap m.blocks c sid).2)
        ((camera_extrinsics_lookup m.heap c sid).get (register_camera m.heap m.blocks c sid).1
          (register_camera m.heap m.blocks c sid).2)
        (observer.getObservations o { observations := [] } m.observers).1.2.observations
        { heap := (register_camera m.heap m.blocks c sid).1
          observers := (observer.getObservations o { observations := [] } m.observers).2
          job := { m.job with ceres_blocks_ := (register_camera m.heap m.blocks c sid).2 } }
      rw [Option.some.injEq] at hrun
      rw [hrun] at hfold
      simp only [Machine.blocks, Machine.items] at hfold
      obtain ⟨f1, f2, f3, f4, f5, f6, f7, f8⟩ := hfold
      generalize hrc : register_camera m.heap m.blocks c sid = rc at *
      have hlive2 : m2.blocks.live m2.heap := by
        refine ⟨fun x hx => ?_, fun x hx => ?_⟩
        · rw [f1]
          have : x ∈ rc.2.static_cameras_ := by
            simp only [Machine.blocks] at hx
            rw [f5] at hx
            exact hx
          exact r3.1 x this
        · rw [f1]
          have : x ∈ rc.2.moving_cameras_ := by
            simp only [Machine.blocks] at hx
            rw [f6] at hx
            exact hx
          exact r3.2 x this
      have hcl := camera_lookups_of_grows c sid r1 hc
      have hI := Lookup.get_registry_grows f4 _ r4
      have hE := Lookup.get_registry_grows f4 _ r5
      have hname : (rc.1.cameras c).camera_name_ = (m.heap.cameras c).camera_name_ := by
        rw [r1.1 c hc]
      refine ⟨o, rfl, f2, f3, ?_, CeresBlocks.grows_trans r2 f4, hlive2, ?_, ?_⟩
      · rw [f1]; exact r1
      · simp only [Machine.items, Machine.blocks]
        rw [f7]
        congr 1
        apply List.map_congr_left
        intro ob hob
        simp only [data_point_with, resolved_data_point, f1, hcl.1, hcl.2, hname,
          Machine.blocks, hI, hE]
      · intro ob hob
        have := f8 ob hob
        unfold found_all
        simp only [f1, hcl.1, hcl.2, Machine.blocks]
        exact ⟨by rw [hI]; exact r4, by rw [hE]; exact r5, this.1, this.2⟩


/-! ## The observation pass: the cameras of a scene, a scene, the scenes -/

theorem collected_congr {σ : Type} (observer : CameraObserver σ) (h1 h2 : Heap)
    (cams : List CameraPtr) (s : σ) (hc : ∀ c ∈ cams, h2.cameras c = h1.cameras c) :
    collected observer h2 cams s = collected observer h1 cams s := by
  induction cams generalizing s with
  | nil => rfl
  | cons c rest ih =>
    have h0 := hc c (List.mem_cons_self c rest)
    have ih2 := fun s => ih s (fun x hx => hc x (List.mem_cons_of_mem c hx))
    simp only [collected, h0]
    cases (h1.cameras c).camera_observer_ with
    | none => rfl
    | some o => simp only [ih2]

/-- Every entry of `collected` is a camera of the list with what its observer returned
in some state. -/
theorem collected_mem {σ : Type} (observer : CameraObserver σ) (h : Heap)
    (cams : List CameraPtr) (s : σ) (cl : CameraPtr × List Observation)
    (hcl : cl ∈ collected observer h cams s) :
    cl.1 ∈ cams ∧ ∃ o s2, (h.cameras cl.1).camera_observer_ = some o ∧
      cl.2 = (observer.getObservations o { observations := [] } s2).1.2.observations := by
  induction cams generalizing s with
  | nil => simp [collected] at hcl
  | cons c rest ih =>
    simp only [collected] at hcl
    cases hobs : (h.cameras c).camera_observer_ with
    | none => rw [hobs] at hcl; simp at hcl
    | some o =>
      rw [hobs] at hcl
      simp only [List.mem_cons] at hcl
      rcases hcl with rfl | hcl
      · exact ⟨List.mem_cons_self _ _, o, s, hobs, rfl⟩
      · obtain ⟨i1, i2⟩ := ih _ hcl
        exact ⟨List.mem_cons_of_mem _ i1, i2⟩

/-- The fourth loop of a scene: the data points appended are, camera by camera and
observation by observation, the ones the registry after the loop resolves. -/
theorem runObservations_cameras_spec {σ : Type} (observer : CameraObserver σ) (sid : Int)
    (cams : List CameraPtr) (m m2 : Machine σ) (hb : m.blocks.live m.heap)
    (hc : ∀ c ∈ cams, m.heap.live_camera c)
    (hrun : runObservations_cameras observer sid cams m = some m2) :
    m2.job.scene_list_ = m.job.scene_list_ ∧
    m.heap.grows m2.heap ∧ m.blocks.grows m2.blocks ∧ m2.blocks.live m2.heap ∧
    (collected observer m.heap cams m.observers).map Prod.fst = cams ∧
    m2.items = m.items ++ (collected observer m.heap cams m.observers).flatMap
      (fun cl => cl.2.map (resolved_data_point m2.heap m2.blocks sid cl.1)) ∧
    ∀ cl ∈ collected observer m.heap cams m.observers, ∀ ob ∈ cl.2,
      found_all m2.heap m2.blocks sid cl.1 ob := by
  induction cams generalizing m with
  | nil =>
    simp only [runObservations_cameras, Option.some.injEq] at hrun
    subst hrun
    refine ⟨rfl, Heap.grows_self _, CeresBlocks.grows_refl _, hb, rfl, ?_, ?_⟩
    · simp [collected]
    · intro cl hcl
      simp [collected] at hcl
  | cons c rest ih =>
    simp only [runObservations_cameras] at hrun
    cases hstep : runObservations_camera observer sid m c with
    | none => rw [hstep] at hrun; simp at hrun
    | some m1 =>
      rw [hstep] at hrun
      simp only at hrun
      have hc0 : m.heap.live_camera c := hc c (List.mem_cons_self c rest)
      obtain ⟨o, b1, b2, b3, b4, b5, b6, b7, b8⟩ :=
        runObservations_camera_spec observer sid m m1 c hb hc0 hstep
      have hrest : ∀ x ∈ rest, m1.heap.live_camera x :=
        fun x hx => b4.2.2 _ (hc x (List.mem_cons_of_mem c hx))
      obtain ⟨i1, i2, i3, i4, i5, i6, i7⟩ := ih m1 b6 hrest hrun
      have hcol : collected observer m1.heap rest m1.observers =
          collected observer m.heap rest
            (observer.getObservations o { observations := [] } m.observers).2 := by
        rw [b2]
        exact collected_congr observer m.heap m1.heap rest _
          (fun x hx => b4.1 x (hc x (List.mem_cons_of_mem c hx)))
      rw [hcol] at i5 i6 i7
      have hc1 : m1.heap.live_camera c := b4.2.2 _ hc0
      have hstable : ∀ ob ∈
          (observer.getObservations o { observations := [] } m.observers).1.2.observations,
          resolved_data_point m2.heap m2.blocks sid c ob =
            resolved_data_point m1.heap m1.blocks sid c ob ∧
          found_all m2.heap m2.blocks sid c ob :=
        fun ob hob => resolved_data_point_of_grows sid c ob b6 hc1 i2 i3 (b8 ob hob)
      refine ⟨i1.trans b3, Heap.grows_chain b4 i2, CeresBlocks.grows_trans b5 i3, i4, ?_, ?_, ?_⟩
      · simp only [collected, b1, List.map_cons, i5]
      · simp only [collected, b1, List.flatMap_cons]
        rw [i6, b7, List.append_assoc]
        congr 2
        apply List.map_congr_left
        intro ob hob
        exact (hstable ob hob).1.symm
      · intro cl hcl
        simp only [collected, b1, List.mem_cons] at hcl
        rcases hcl with rfl | hcl
        · intro ob hob
          exact (hstable ob hob).2
        · exact i7 cl hcl

theorem runObservations_clear_some {σ : Type} (observer : CameraObserver σ) (h : Heap)
    (cams : List CameraPtr) (s s2 : σ) (hrun : runObservations_clear observer h cams s = some s2) :
    ∀ c ∈ cams, ∃ o, (h.cameras c).camera_observer_ = some o := by
  induction cams generalizing s with
  | nil => intro c hc; simp at hc
  | cons c rest ih =>
    simp only [runObservations_clear] at hrun
    cases hobs : (h.cameras c).camera_observer_ with
    | none => rw [hobs] at hrun; simp at hrun
    | some o =>
      rw [hobs] at hrun
      intro x hx
      rcases List.mem_cons.mp hx with rfl | hx
      · exact ⟨o, hobs⟩
      · exact ih _ hrun x hx

/-- One scene: as for the fourth loop, with the observers in the state `s3` the first
three loops leave them in. -/
theorem runObservations_scene_spec {σ : Type} (observer : CameraObserver σ)
    (sc : ObservationScene) (m m2 : Machine σ) (hb : m.blocks.live m.heap)
    (hc : ∀ c ∈ sc.cameras_in_scene_, m.heap.live_camera c)
    (hrun : runObservations_scene observer m sc = some m2) :
    ∃ s3, m2.job.scene_list_ = m.job.scene_list_ ∧
      m.heap.grows m2.heap ∧ m.blocks.grows m2.blocks ∧ m2.blocks.live m2.heap ∧
      (collected observer m.heap sc.cameras_in_scene_ s3).map Prod.fst =
        sc.cameras_in_scene_ ∧
      m2.items = m.items ++ (collected observer m.heap sc.cameras_in_scene_ s3).flatMap
        (fun cl => cl.2.map (resolved_data_point m2.heap m2.blocks sc.scene_id_ cl.1)) ∧
      ∀ cl ∈ collected observer m.heap sc.cameras_in_scene_ s3, ∀ ob ∈ cl.2,
        found_all m2.heap m2.blocks sc.scene_id_ cl.1 ob := by
  unfold runObservations_scene at hrun
  simp only at hrun
  cases h1 : runObservations_clear observer m.heap sc.cameras_in_scene_ m.observers with
  | none => rw [h1] at hrun; simp at hrun
  | some s1 =>
    rw [h1] at hrun
    simp only at hrun
    cases h2 : runObservations_addTarget observer m.heap sc.observation_command_list_ s1 with
    | none => rw [h2] at hrun; simp at hrun
    | some s2 =>
      rw [h2] at hrun
      simp only at hrun
      cases h3 : runObservations_trigger observer m.heap sc.cameras_in_scene_ s2 with
      | none => rw [h3] at hrun; simp at hrun
      | some s3 =>
        rw [h3] at hrun
        simp only at hrun
        exact ⟨s3, runObservations_cameras_spec observer sc.scene_id_ sc.cameras_in_scene_
          { m with observers := s3 } m2 hb hc hrun⟩


theorem from_scenes_of_grows {σ : Type} (observer : CameraObserver σ) {h1 h2 : Heap}
    {b1 b2 : CeresBlocks} (scenes : List ObservationScene) (p : ObservationDataPoint)
    (hb : b1.live h1) (hc : ∀ sc ∈ scenes, ∀ c ∈ sc.cameras_in_scene_, h1.live_camera c)
    (he : h1.grows h2) (hg : b1.grows b2) (hp : from_scenes observer h1 b1 scenes p) :
    from_scenes observer h2 b2 scenes p := by
  obtain ⟨sc, hsc, c, hcm, o, s, ob, ho, hob, hf, hpe⟩ := hp
  have hcl := hc sc hsc c hcm
  have hst := resolved_data_point_of_grows sc.scene_id_ c ob hb hcl he hg hf
  exact ⟨sc, hsc, c, hcm, o, s, ob, by rw [he.1 c hcl]; exact ho, hob, hst.2,
    by rw [hst.1]; exact hpe⟩

theorem from_scenes_mono {σ : Type} (observer : CameraObserver σ) (h : Heap)
    (b : CeresBlocks) (scenes scenes2 : List ObservationScene) (p : ObservationDataPoint)
    (hsub : ∀ sc ∈ scenes, sc ∈ scenes2) (hp : from_scenes observer h b scenes p) :
    from_scenes observer h b scenes2 p := by
  obtain ⟨sc, hsc, rest⟩ := hp
  exact ⟨sc, hsub sc hsc, rest⟩

/-- The loop over the scenes: heap and registry grow, the registry pointers stay
allocated, and every data point appended is one the registry at the end resolves for an
observation some camera of some scene reported. -/
theorem runObservations_scenes_spec {σ : Type} (observer : CameraObserver σ)
    (scenes : List ObservationScene) (m m2 : Machine σ) (hb : m.blocks.live m.heap)
    (hc : ∀ sc ∈ scenes, ∀ c ∈ sc.cameras_in_scene_, m.heap.live_camera c)
    (hrun : runObservations_scenes observer scenes m = some m2) :
    m2.job.scene_list_ = m.job.scene_list_ ∧
    m.heap.grows m2.heap ∧ m.blocks.grows m2.blocks ∧ m2.blocks.live m2.heap ∧
    ∃ new, m2.items = m.items ++ new ∧
      ∀ p ∈ new, from_scenes observer m2.heap m2.blocks scenes p := by
  induction scenes generalizing m with
  | nil =>
    simp only [runObservations_scenes, Option.some.injEq] at hrun
    subst hrun
    exact ⟨rfl, Heap.grows_self _, CeresBlocks.grows_refl _, hb, [], by simp,
      fun p hp => by simp at hp⟩
  | cons sc rest ih =>
    simp only [runObservations_scenes] at hrun
    cases hstep : runObservations_scene observer m sc with
    | none => rw [hstep] at hrun; simp at hrun
    | some m1 =>
      rw [hstep] at hrun
      simp only at hrun
      have hc0 := hc sc (List.mem_cons_self sc rest)
      obtain ⟨s3, a1, a2, a3, a4, a5, a6, a7⟩ :=
        runObservations_scene_spec observer sc m m1 hb hc0 hstep
      have hrest : ∀ sc2 ∈ rest, ∀ c ∈ sc2.cameras_in_scene_, m1.heap.live_camera c :=
        fun sc2 h2 c hcm => a2.2.2 _ (hc sc2 (List.mem_cons_of_mem sc h2) c hcm)
      obtain ⟨i1, i2, i3, i4, new2, i5, i6⟩ := ih m1 a4 hrest hrun
      refine ⟨i1.trans a1, Heap.grows_chain a2 i2, CeresBlocks.grows_trans a3 i3, i4,
        ((collected observer m.heap sc.cameras_in_scene_ s3).flatMap fun cl =>
          List.map (resolved_data_point m1.heap m1.blocks sc.scene_id_ cl.1) cl.2) ++ new2,
        by rw [i5, a6, List.append_assoc], ?_⟩
      intro p hp
      rcases List.mem_append.mp hp with hp | hp
      · obtain ⟨cl, hcl, hpcl⟩ := List.mem_flatMap.mp hp
        obtain ⟨ob, hob, hpe⟩ := List.mem_map.mp hpcl
        obtain ⟨hmem, o, s2, ho, hobs⟩ := collected_mem observer m.heap _ s3 cl hcl
        have hlive1 : m1.heap.live_camera cl.1 := a2.2.2 _ (hc0 cl.1 hmem)
        have hfrom1 : from_scenes observer m1.heap m1.blocks (sc :: rest) p :=
          ⟨sc, List.mem_cons_self sc rest, cl.1, hmem, o, s2, ob,
            by rw [a2.1 cl.1 (hc0 cl.1 hmem)]; exact ho, by rw [← hobs]; exact hob,
            a7 cl hcl ob hob, hpe.symm⟩
        refine from_scenes_of_grows observer (sc :: rest) p a4 ?_ i2 i3 hfrom1
        intro sc2 h2 c hcm
        exact a2.2.2 _ (hc sc2 h2 c hcm)
      · exact from_scenes_mono observer _ _ rest (sc :: rest) p
          (fun x hx => List.mem_cons_of_mem sc hx) (i6 p hp)

/-- The first statement of the pass leaves an empty registry. -/
theorem runObservations_begin_blocks {σ : Type} (m : Machine σ) :
    (runObservations_begin m).blocks = CeresBlocks.ctor :=
  rfl

theorem runObservations_begin_live {σ : Type} (m : Machine σ) :
    (runObservations_begin m).blocks.live (runObservations_begin m).heap :=
  ⟨fun x hx => by simp [runObservations_begin_blocks, CeresBlocks.ctor] at hx,
    fun x hx => by simp [runObservations_begin_blocks, CeresBlocks.ctor] at hx⟩

/-- The first statement of the pass releases the copies of the moving entries and
touches nothing else in the heap. -/
theorem runObservations_begin_heap {σ : Type} (m : Machine σ) :
    (∀ p, (runObservations_begin m).heap.live_camera p ↔
      m.heap.live_camera p ∧ ∀ mc ∈ m.blocks.moving_cameras_, mc.cam ≠ p) ∧
    (runObservations_begin m).heap.cameras = m.heap.cameras ∧
    (runObservations_begin m).heap.targets = m.heap.targets :=
  Heap.release_all m.job.ceres_blocks_.moving_cameras_ m.heap

theorem runObservations_begin_cameras {σ : Type} (m : Machine σ) :
    (runObservations_begin m).heap.cameras = m.heap.cameras :=
  (runObservations_begin_heap m).2.1

theorem runObservations_begin_targets {σ : Type} (m : Machine σ) :
    (runObservations_begin m).heap.targets = m.heap.targets :=
  (runObservations_begin_heap m).2.2

/-- The pass reaches the end of its body exactly when the loop over the scenes, started
on the cleared registry, comes to its end. -/
theorem runObservations_no_return_iff {σ : Type} (observer : CameraObserver σ)
    (m mf : Machine σ) :
    CalibrationJob.runObservations observer m = some (Completion.no_return mf) ↔
      runObservations_scenes observer m.job.scene_list_ (runObservations_begin m) = some mf := by
  unfold CalibrationJob.runObservations
  cases runObservations_scenes observer m.job.scene_list_ (runObservations_begin m) with
  | none => simp
  | some x => simp

/-- The pass never leaves its body through a `return` statement. -/
theorem runObservations_not_returned {σ : Type} (observer : CameraObserver σ)
    (m mf : Machine σ) (v : Bool) :
    CalibrationJob.runObservations observer m ≠ some (Completion.returned v mf) := by
  unfold CalibrationJob.runObservations
  cases runObservations_scenes observer m.job.scene_list_ (runObservations_begin m) with
  | none => simp
  | some x => simp

theorem foreach_return_mem {α : Type} (test : α → Bool) (found : α → P_BLOCK) (l : List α)
    (hq : foreach_return test found P_BLOCK.NULL l ≠ P_BLOCK.NULL) :
    ∃ x ∈ l, test x = true ∧ foreach_return test found P_BLOCK.NULL l = found x := by
  rcases foreach_return_first test found P_BLOCK.NULL l with ⟨_, he⟩ |
    ⟨pre, x, post, hl, _, hx, he⟩
  · exact absurd he hq
  · exact ⟨x, by rw [hl]; simp, hx, he⟩

theorem foreach_return_hit {α : Type} (test : α → Bool) (found : α → P_BLOCK) (l : List α)
    (hq : l.any test = true) :
    ∃ x ∈ l, test x = true ∧ foreach_return test found P_BLOCK.NULL l = found x := by
  rcases foreach_return_first test found P_BLOCK.NULL l with ⟨hn, _⟩ |
    ⟨pre, x, post, hl, _, hx, he⟩
  · obtain ⟨x, hx, hxt⟩ := List.any_eq_true.mp hq
    rw [hn x hx] at hxt
    exact absurd hxt (by simp)
  · exact ⟨x, by rw [hl]; simp, hx, he⟩

/-- When the four lookups of an observation find their entries, the data point they
resolve refers to entries of the registry that carry its camera and target names. -/
theorem resolved_of_found_all (h : Heap) (b : CeresBlocks) (sid : Int) (c : CameraPtr)
    (ob : Observation) (hf : found_all h b sid c ob) :
    (resolved_data_point h b sid c ob).resolved h b := by
  obtain ⟨f1, f2, f3, f4⟩ := hf
  unfold ObservationDataPoint.resolved
  simp only [resolved_data_point]
  refine ⟨?_, ?_, ?_, ?_⟩
  · unfold camera_intrinsics_lookup at f1 ⊢
    split at f1
    · rename_i hm
      simp only [hm, ↓reduceIte, Lookup.get,
        CeresBlocks.getMovingCameraParameterBlockIntrinsics] at f1 ⊢
      obtain ⟨x, hx, ht, he⟩ := foreach_return_mem _ _ _ f1
      exact ⟨x.cam, he, Or.inr ⟨x, hx, rfl⟩, (of_decide_eq_true ht).symm⟩
    · rename_i hm
      simp only [hm, ↓reduceIte, Lookup.get,
        CeresBlocks.getStaticCameraParameterBlockIntrinsics] at f1 ⊢
      obtain ⟨x, hx, ht, he⟩ := foreach_return_mem _ _ _ f1
      exact ⟨x, he, Or.inl hx, (of_decide_eq_true ht).symm⟩
  · unfold camera_extrinsics_lookup at f2 ⊢
    split at f2
    · rename_i hm
      simp only [hm, ↓reduceIte, Lookup.get,
        CeresBlocks.getMovingCameraParameterBlockExtrinsics] at f2 ⊢
      obtain ⟨x, hx, ht, he⟩ := foreach_return_mem _ _ _ f2
      simp only [Bool.and_eq_true, decide_eq_true_eq] at ht
      exact ⟨x.cam, he, Or.inr ⟨x, hx, rfl⟩, ht.1.symm⟩
    · rename_i hm
      simp only [hm, ↓reduceIte, Lookup.get,
        CeresBlocks.getStaticCameraParameterBlockExtrinsics] at f2 ⊢
      obtain ⟨x, hx, ht, he⟩ := foreach_return_mem _ _ _ f2
      exact ⟨x, he, Or.inl hx, (of_decide_eq_true ht).symm⟩
  · unfold target_pose_lookup at f3 ⊢
    split at f3
    · rename_i hm
      simp only [hm, ↓reduceIte, Lookup.get,
        CeresBlocks.getMovingTargetPoseParameterBlock] at f3 ⊢
      obtain ⟨x, hx, ht, he⟩ := foreach_return_mem _ _ _ f3
      simp only [Bool.and_eq_true, decide_eq_true_eq] at ht
      exact ⟨x.targ, he, Or.inr ⟨x, hx, rfl⟩, ht.1.symm⟩
    · rename_i hm
      simp only [hm, ↓reduceIte, Lookup.get,
        CeresBlocks.getStaticTargetPoseParameterBlock] at f3 ⊢
      obtain ⟨x, hx, ht, he⟩ := foreach_return_mem _ _ _ f3
      exact ⟨x, he, Or.inl hx, (of_decide_eq_true ht).symm⟩
  · unfold target_point_lookup at f4 ⊢
    split at f4
    · rename_i hm
      simp only [hm, ↓reduceIte, Lookup.get, Lookup.hits,
        CeresBlocks.getMovingTargetPointParameterBlock] at f4 ⊢
      obtain ⟨x, hx, ht, he⟩ := foreach_return_hit _
        (fun mt : MovingTarget => h.point_block mt.targ ob.point_id) _ f4
      exact ⟨x.targ, he, Or.inr ⟨x, hx, rfl⟩, (of_decide_eq_true ht).symm⟩
    · rename_i hm
      simp only [hm, ↓reduceIte, Lookup.get, Lookup.hits,
        CeresBlocks.getStaticTargetPointParameterBlock] at f4 ⊢
      obtain ⟨x, hx, ht, he⟩ := foreach_return_hit _
        (fun t : TargetPtr => h.point_block t ob.point_id) _ f4
      exact ⟨x, he, Or.inl hx, (of_decide_eq_true ht).symm⟩

/-- The whole pass: every data point it appends is one the registry at the end resolves
for an observation some camera of some scene reported. -/
theorem runObservations_spec {σ : Type} (observer : CameraObserver σ) (m mf : Machine σ)
    (hlive : ∀ sc ∈ m.job.scene_list_, ∀ c ∈ sc.cameras_in_scene_,
      (runObservations_begin m).heap.live_camera c)
    (hrun : CalibrationJob.runObservations observer m = some (Completion.no_return mf)) :
    (runObservations_begin m).heap.grows mf.heap ∧ mf.blocks.live mf.heap ∧
    ∃ new, mf.items = m.items ++ new ∧
      ∀ p ∈ new, from_scenes observer mf.heap mf.blocks m.job.scene_list_ p := by
  rw [runObservations_no_return_iff] at hrun
  obtain ⟨_, s2, _, s4, new, s5, s6⟩ := runObservations_scenes_spec observer m.job.scene_list_
    (runObservations_begin m) mf (runObservations_begin_live m) hlive hrun
  exact ⟨s2, s4, new, s5, s6⟩

/-- A pass that gives a result has reached the end of its body. -/
theorem runObservations_isSome {σ : Type} (observer : CameraObserver σ) (m : Machine σ)
    (h : (CalibrationJob.runObservations observer m).isSome = true) :
    ∃ mf, CalibrationJob.runObservations observer m = some (Completion.no_return mf) := by
  obtain ⟨x, hx⟩ := Option.isSome_iff_exists.mp h
  cases x with
  | returned v mf => exact absurd hx (runObservations_not_returned observer m mf v)
  | no_return mf => exact ⟨mf, hx⟩

/-- C10, as stated, fails: target "T" has four points (ids 0 to 3) and the moving target
"M" has none; the detector of static camera "A" reports one observation of "T" with point
id 4 and one of "M" with point id 0.  The pass appends two data points: the point handle of
the first is element 4 of the points of target 0, outside that sequence, and the point
handle of the second is `NULL`, the not-found value, though "M" is registered. -/
theorem runObservations_point_out_of_bounds :
    ∃ mf,
      CalibrationJob.runObservations (Example.detector [⟨0, 4, 50, 51⟩, ⟨1, 0, 60, 61⟩])
        (Example.machine [Example.scene_A 0]) = some (Completion.no_return mf) ∧
      mf.items.map (fun p => (p.target_name_, p.point_id_, p.point_position_)) =
        [("T", 4, P_BLOCK.pb 0 4), ("M", 0, P_BLOCK.NULL)] ∧
      (mf.heap.targets 0).pts.length = 4 ∧ (mf.heap.targets 1).pts.length = 0 ∧
      mf.blocks.static_targets_ = [0] ∧ mf.blocks.moving_targets_ = [⟨1, 0⟩] ∧
      (∃ p ∈ mf.items, ¬ P_BLOCK.in_bounds mf.heap p.point_position_) ∧
      ∃ p ∈ mf.items, p.point_position_ = P_BLOCK.NULL := by
  have hsome : (CalibrationJob.runObservations
      (Example.detector [⟨0, 4, 50, 51⟩, ⟨1, 0, 60, 61⟩])
      (Example.machine [Example.scene_A 0])).isSome = true := by decide
  obtain ⟨mf, hmf⟩ := runObservations_isSome _ _ hsome
  have hval : (CalibrationJob.runObservations
      (Example.detector [⟨0, 4, 50, 51⟩, ⟨1, 0, 60, 61⟩])
      (Example.machine [Example.scene_A 0])).map
        (fun m => (m.state.items.map (fun p => (p.target_name_, p.point_id_, p.point_position_)),
          (m.state.heap.targets 0).pts.length, (m.state.heap.targets 1).pts.length))
      = some ([("T", 4, P_BLOCK.pb 0 4), ("M", 0, P_BLOCK.NULL)], 4, 0) := by
    decide
  have hval2 : (CalibrationJob.runObservations
      (Example.detector [⟨0, 4, 50, 51⟩, ⟨1, 0, 60, 61⟩])
      (Example.machine [Example.scene_A 0])).map
        (fun m => (m.state.blocks.static_targets_, m.state.blocks.moving_targets_))
      = some ([0], [⟨1, 0⟩]) := by
    decide
  rw [hmf] at hval hval2
  simp only [Option.map_some', Option.some.injEq, Prod.mk.injEq, Completion.state] at hval hval2
  obtain ⟨h1, h2, h3⟩ := hval
  obtain ⟨h4, h5⟩ := hval2
  refine ⟨mf, hmf, h1, h2, h3, h4, h5, ?_, ?_⟩
  · cases hitems : mf.items with
    | nil => rw [hitems] at h1; simp at h1
    | cons p rest =>
      rw [hitems] at h1
      simp only [List.map_cons, List.cons.injEq, Prod.mk.injEq] at h1
      refine ⟨p, List.mem_cons_self p rest, ?_⟩
      rw [h1.1.2.2]
      intro hin
      simp only [P_BLOCK.in_bounds, h2] at hin
      exact absurd hin.2 (by decide)
  · cases hitems : mf.items with
    | nil => rw [hitems] at h1; simp at h1
    | cons p rest =>
      cases rest with
      | nil => rw [hitems] at h1; simp at h1
      | cons q rest2 =>
        rw [hitems] at h1
        simp only [List.map_cons, List.cons.injEq, Prod.mk.injEq] at h1
        exact ⟨q, List.mem_cons_of_mem _ (List.mem_cons_self q rest2), h1.2.1.2.2⟩

/-- What `&pts[point_id].pb[0]` is worth: it points into the point sequence exactly when
`0 ≤ point_id < pts.size()`, and it is the null pointer exactly when the target has no
points and `point_id` is 0. -/
theorem Heap.point_block_spec (h : Heap) (t : TargetPtr) (i : Int) :
    (P_BLOCK.in_bounds h (h.point_block t i) ↔
      0 ≤ i ∧ i < ((h.targets t).pts.length : Int)) ∧
    (h.point_block t i = P_BLOCK.NULL ↔ (h.targets t).pts = [] ∧ i = 0) := by
  unfold Heap.point_block
  by_cases hp : (h.targets t).pts = []
  · by_cases hi : i = 0
    · simp [hp, hi, P_BLOCK.in_bounds]
    · simp [hp, hi, P_BLOCK.in_bounds]
  · simp [hp, P_BLOCK.in_bounds]

/-- C10, amended: every data point that a pass which reaches the end of its body has
appended has camera intrinsics, camera extrinsics and target pose handles that are not
`NULL` and are blocks of entries the registry holds (for the camera and target names
stored in the point).  Its point handle is the value of `&pts[point_id_].pb[0]` on a
registered target with the target name stored in the point: it points into the point
sequence of that target exactly when `0 ≤ point_id_ < pts.size()`, and it is `NULL`
exactly when that target has no points and `point_id_` is 0. -/
theorem runObservations_points_resolved {σ : Type} (observer : CameraObserver σ)
    (m mf : Machine σ)
    (hlive : ∀ sc ∈ m.job.scene_list_, ∀ c ∈ sc.cameras_in_scene_,
      (runObservations_begin m).heap.live_camera c)
    (hrun : CalibrationJob.runObservations observer m = some (Completion.no_return mf)) :
    ∃ new, mf.items = m.items ++ new ∧
      ∀ p ∈ new,
        p.camera_intrinsics_ ≠ P_BLOCK.NULL ∧ p.camera_extrinsics_ ≠ P_BLOCK.NULL ∧
        p.target_pose_ ≠ P_BLOCK.NULL ∧ p.resolved mf.heap mf.blocks ∧
        ∃ t, mf.blocks.has_target t ∧ (mf.heap.targets t).target_name = p.target_name_ ∧
          p.point_position_ = mf.heap.point_block t p.point_id_ ∧
          (P_BLOCK.in_bounds mf.heap p.point_position_ ↔
            0 ≤ p.point_id_ ∧ p.point_id_ < ((mf.heap.targets t).pts.length : Int)) ∧
          (p.point_position_ = P_BLOCK.NULL ↔
            (mf.heap.targets t).pts = [] ∧ p.point_id_ = 0) := by
  obtain ⟨_, _, new, hitems, hfrom⟩ := runObservations_spec observer m mf hlive hrun
  refine ⟨new, hitems, ?_⟩
  intro p hp
  obtain ⟨sc, _, c, _, o, s, ob, _, _, hf, hpe⟩ := hfrom p hp
  have hres := resolved_of_found_all mf.heap mf.blocks sc.scene_id_ c ob hf
  obtain ⟨f1, f2, f3, f4⟩ := hf
  subst hpe
  obtain ⟨t, ht1, ht2, ht3⟩ := hres.2.2.2
  refine ⟨f1, f2, f3, hres, t, ht2, ht3, ht1, ?_, ?_⟩
  · rw [ht1]
    exact (Heap.point_block_spec mf.heap t _).1
  · rw [ht1]
    exact (Heap.point_block_spec mf.heap t _).2

/-- Witness of C10 (amended): the job of the counterexample. -/
theorem runObservations_points_resolved_witness :
    ∃ mf,
      (∀ sc ∈ (Example.machine [Example.scene_A 0]).job.scene_list_,
        ∀ c ∈ sc.cameras_in_scene_,
          (runObservations_begin (Example.machine [Example.scene_A 0])).heap.live_camera c) ∧
      CalibrationJob.runObservations (Example.detector [⟨0, 4, 50, 51⟩, ⟨1, 0, 60, 61⟩])
        (Example.machine [Example.scene_A 0]) = some (Completion.no_return mf) ∧
      ∃ new, mf.items = (Example.machine [Example.scene_A 0]).items ++ new ∧
        ∀ p ∈ new,
          p.camera_intrinsics_ ≠ P_BLOCK.NULL ∧ p.camera_extrinsics_ ≠ P_BLOCK.NULL ∧
          p.target_pose_ ≠ P_BLOCK.NULL ∧ p.resolved mf.heap mf.blocks ∧
          ∃ t, mf.blocks.has_target t ∧ (mf.heap.targets t).target_name = p.target_name_ ∧
            p.point_position_ = mf.heap.point_block t p.point_id_ ∧
            (P_BLOCK.in_bounds mf.heap p.point_position_ ↔
              0 ≤ p.point_id_ ∧ p.point_id_ < ((mf.heap.targets t).pts.length : Int)) ∧
            (p.point_position_ = P_BLOCK.NULL ↔
              (mf.heap.targets t).pts = [] ∧ p.point_id_ = 0) := by
  have hsome : (CalibrationJob.runObservations
      (Example.detector [⟨0, 4, 50, 51⟩, ⟨1, 0, 60, 61⟩])
      (Example.machine [Example.scene_A 0])).isSome = true := by decide
  obtain ⟨mf, hmf⟩ := runObservations_isSome _ _ hsome
  have hlive : ∀ sc ∈ (Example.machine [Example.scene_A 0]).job.scene_list_,
      ∀ c ∈ sc.cameras_in_scene_,
        (runObservations_begin (Example.machine [Example.scene_A 0])).heap.live_camera c := by
    decide
  exact ⟨mf, hlive, hmf,
    runObservations_points_resolved (Example.detector [⟨0, 4, 50, 51⟩, ⟨1, 0, 60, 61⟩])
      (Example.machine [Example.scene_A 0]) mf hlive hmf⟩

/-! ## Claims about the optimization step -/

theorem runOptimization_residual_spec (h : Heap) (problem_ : Problem)
    (p : ObservationDataPoint) (hp : p.readable h) :
    ∃ r, runOptimization_residual h problem_ p =
        some { residual_blocks := problem_.residual_blocks ++ [r] } ∧
      r.parameter_blocks = [p.camera_extrinsics_, p.target_pose_] ∧
      r.cost_function.ox = p.image_x_ ∧ r.cost_function.oy = p.image_y_ := by
  obtain ⟨h0, h1, h2, h3, h4, h5, h6⟩ := hp
  obtain ⟨v0, e0⟩ := Option.isSome_iff_exists.mp h0
  obtain ⟨v1, e1⟩ := Option.isSome_iff_exists.mp h1
  obtain ⟨v2, e2⟩ := Option.isSome_iff_exists.mp h2
  obtain ⟨v3, e3⟩ := Option.isSome_iff_exists.mp h3
  obtain ⟨v4, e4⟩ := Option.isSome_iff_exists.mp h4
  obtain ⟨v5, e5⟩ := Option.isSome_iff_exists.mp h5
  obtain ⟨v6, e6⟩ := Option.isSome_iff_exists.mp h6
  refine ⟨⟨⟨p.image_x_, p.image_y_, v0, v1, v2, v3, v4, v5, v6⟩, none,
    [p.camera_extrinsics_, p.target_pose_]⟩, ?_, rfl, rfl, rfl⟩
  simp only [runOptimization_residual, e0, e1, e2, e3, e4, e5, e6, Problem.AddResidualBlock]

theorem runOptimization_inner_spec (h : Heap) (items : List ObservationDataPoint)
    (problem_ : Problem) (hread : ∀ p ∈ items, p.readable h) :
    ∃ new, runOptimization_inner h items problem_ =
        some { residual_blocks := problem_.residual_blocks ++ new } ∧
      List.Forall₂ (fun p r => r.parameter_blocks = [p.camera_extrinsics_, p.target_pose_] ∧
        r.cost_function.ox = p.image_x_ ∧ r.cost_function.oy = p.image_y_) items new := by
  induction items generalizing problem_ with
  | nil => exact ⟨[], by simp [runOptimization_inner], List.Forall₂.nil⟩
  | cons p rest ih =>
    obtain ⟨r, hr, hr2⟩ := runOptimization_residual_spec h problem_ p
      (hread p (List.mem_cons_self p rest))
    obtain ⟨new, hn, hn2⟩ := ih { residual_blocks := problem_.residual_blocks ++ [r] }
      (fun q hq => hread q (List.mem_cons_of_mem p hq))
    refine ⟨r :: new, ?_, List.Forall₂.cons hr2 hn2⟩
    simp only [runOptimization_inner, hr, hn, List.append_assoc, List.singleton_append]

/-- A data point for which the inner loop has a result can be read. -/
theorem runOptimization_residual_readable (h : Heap) (problem_ p2 : Problem)
    (p : ObservationDataPoint) (hr : runOptimization_residual h problem_ p = some p2) :
    p.readable h := by
  unfold runOptimization_residual at hr
  unfold ObservationDataPoint.readable
  cases e0 : h.read p.camera_intrinsics_ 0 <;> rw [e0] at hr <;> try (simp at hr)
  cases e1 : h.read p.camera_intrinsics_ 1 <;> rw [e1] at hr <;> try (simp at hr)
  cases e2 : h.read p.camera_intrinsics_ 2 <;> rw [e2] at hr <;> try (simp at hr)
  cases e3 : h.read p.camera_intrinsics_ 3 <;> rw [e3] at hr <;> try (simp at hr)
  cases e4 : h.read p.point_position_ 0 <;> rw [e4] at hr <;> try (simp at hr)
  cases e5 : h.read p.point_position_ 1 <;> rw [e5] at hr <;> try (simp at hr)
  cases e6 : h.read p.point_position_ 2 <;> rw [e6] at hr <;> try (simp at hr)
  simp

/-- The hypothesis of C13 (amended) is needed: `runOptimization` has a result only on a
store whose data points can all be read. -/
theorem runOptimization_result_readable (h : Heap) (problem_ : Problem)
    (store : ObservationDataPointList) (r : OptimizationResult)
    (hr : CalibrationJob.runOptimization h problem_ store = some r) :
    ∀ p ∈ store.items, p.readable h := by
  have inner : ∀ (items : List ObservationDataPoint) (pr pr2 : Problem),
      runOptimization_inner h items pr = some pr2 → ∀ p ∈ items, p.readable h := by
    intro items
    induction items with
    | nil => intro _ _ _ p hp; simp at hp
    | cons q rest ih =>
      intro pr pr2 hrun p hp
      simp only [runOptimization_inner] at hrun
      cases hq : runOptimization_residual h pr q with
      | none => rw [hq] at hrun; simp at hrun
      | some pq =>
        rw [hq] at hrun
        rcases List.mem_cons.mp hp with rfl | hp2
        · exact runOptimization_residual_readable h pr pq p hq
        · exact ih pq pr2 hrun p hp2
  unfold CalibrationJob.runOptimization at hr
  cases hitems : store.items with
  | nil => intro p hp; simp at hp
  | cons q rest =>
    rw [hitems] at hr
    simp only at hr
    cases hin : runOptimization_inner h (q :: rest) problem_ with
    | none => rw [hin] at hr; simp at hr
    | some pr2 => exact inner (q :: rest) problem_ pr2 hin

/-- C13 (as the code has it): not for every store.  The store is the one the observation
pass builds when the detector reports point id 4 of target "T", which has four points,
and point id 0 of target "M", which has none: two data points, with the point handles
`&pts[4]` and `NULL`.  On this store `runOptimization` reads through these handles and
has no defined result; no residual block is handed back. -/
theorem runOptimization_unreadable_store :
    (CalibrationJob.runObservations (Example.detector [⟨0, 4, 50, 51⟩, ⟨1, 0, 60, 61⟩])
      (Example.machine [Example.scene_A 0])).map
      (fun r => (r.state.items.length, r.state.items.map (fun p => p.point_position_),
        CalibrationJob.runOptimization r.state.heap ⟨[]⟩
          r.state.job.observation_data_point_list_)) =
      some (2, [P_BLOCK.pb 0 4, P_BLOCK.NULL], none) := by
  decide

/-- C13 (amended): for a store of `n` data points whose handles can be read,
`runOptimization` returns `true` with exactly `n` residual blocks added behind those the
problem had, one per data point in store order; the block of a data point is registered
on exactly its `camera_extrinsics_` and `target_pose_` handles and has its `image_x_`,
`image_y_` as observation constants. -/
theorem runOptimization_adds_residuals (h : Heap) (problem_ : Problem)
    (store : ObservationDataPointList) (hread : ∀ p ∈ store.items, p.readable h) :
    ∃ new,
      CalibrationJob.runOptimization h problem_ store =
        some { returned := true
               problem_ := { residual_blocks := problem_.residual_blocks ++ new }
               solver_calls := []
               summary := none } ∧
      new.length = store.items.length ∧
      List.Forall₂ (fun p r => r.parameter_blocks = [p.camera_extrinsics_, p.target_pose_] ∧
        r.cost_function.ox = p.image_x_ ∧ r.cost_function.oy = p.image_y_)
        store.items new := by
  obtain ⟨new, hn, hn2⟩ := runOptimization_inner_spec h store.items problem_ hread
  refine ⟨new, ?_, hn2.length_eq.symm, hn2⟩
  unfold CalibrationJob.runOptimization
  cases hitems : store.items with
  | nil =>
    rw [hitems] at hn2
    cases hn2
    simp
  | cons p rest =>
    simp only
    rw [← hitems, hn]

theorem Example.two_items_readable : ∀ p ∈ Example.two_items, p.readable Example.heap := by
  intro p hp
  simp only [Example.two_items, List.mem_cons, List.mem_singleton, List.not_mem_nil,
    or_false] at hp
  rcases hp with rfl | rfl <;>
    exact ⟨by decide, by decide, by decide, by decide, by decide, by decide, by decide⟩

/-- Witness of C13 (amended): a store of two data points and an empty problem. -/
theorem runOptimization_adds_residuals_witness :
    (∀ p ∈ (⟨Example.two_items⟩ : ObservationDataPointList).items, p.readable Example.heap) ∧
    ∃ new,
      CalibrationJob.runOptimization Example.heap ⟨[]⟩ ⟨Example.two_items⟩ =
        some { returned := true
               problem_ := { residual_blocks := (⟨[]⟩ : Problem).residual_blocks ++ new }
               solver_calls := []
               summary := none } ∧
      new.length = (⟨Example.two_items⟩ : ObservationDataPointList).items.length ∧
      List.Forall₂ (fun p r => r.parameter_blocks = [p.camera_extrinsics_, p.target_pose_] ∧
        r.cost_function.ox = p.image_x_ ∧ r.cost_function.oy = p.image_y_)
        (⟨Example.two_items⟩ : ObservationDataPointList).items new :=
  ⟨Example.two_items_readable,
    runOptimization_adds_residuals Example.heap ⟨[]⟩ ⟨Example.two_items⟩
      Example.two_items_readable⟩

/-- C17, the code at a failing input: `runOptimization` on a store of two data points
and an empty problem.  It returns `true` with the two residual blocks added, without
having called the solver and without a summary for the caller. -/
theorem runOptimization_never_solves :
    (CalibrationJob.runOptimization Example.heap ⟨[]⟩ ⟨Example.two_items⟩).map
      (fun r => (r.returned, r.problem_.residual_blocks.length, r.solver_calls, r.summary)) =
      some (true, 2, [], none) := by
  decide


/-! ## Claims about `ROSCameraObserver::addTarget` -/

/-- C16, as stated, fails for AR tags: the target at address 3 has the recognized type
`ARtag`, and `addTarget` returns `false` for it. -/
theorem addTarget_ARtag_false :
    (Example.pattern_heap.targets 3).target_type = pattern_options.ARtag ∧
    (Example.observer.addTarget Example.pattern_heap 3 Example.roi).1 = false := by
  decide

/-- C16, amended: `addTarget` returns `true` exactly for the targets whose type is
`Chessboard` or `CircleGrid`; it returns `false` for every type that is no pattern option
and for `ARtag`. -/
theorem addTarget_true_iff (h : Heap) (self : ROSCameraObserver) (targ : TargetPtr)
    (roi : Roi) :
    ((self.addTarget h targ roi).1 = true ↔
      ((h.targets targ).target_type = pattern_options.Chessboard ∨
        (h.targets targ).target_type = pattern_options.CircleGrid)) ∧
    ((h.targets targ).target_type = pattern_options.ARtag →
      (self.addTarget h targ roi).1 = false) ∧
    (((h.targets targ).target_type ≠ pattern_options.Chessboard ∧
        (h.targets targ).target_type ≠ pattern_options.CircleGrid ∧
        (h.targets targ).target_type ≠ pattern_options.ARtag) →
      (self.addTarget h targ roi).1 = false) := by
  unfold ROSCameraObserver.addTarget
  by_cases h0 : (h.targets targ).target_type = pattern_options.Chessboard
  · simp [h0, ROSCameraObserver.addTarget_pattern, pattern_options.Chessboard,
      pattern_options.CircleGrid, pattern_options.ARtag]
  · by_cases h1 : (h.targets targ).target_type = pattern_options.CircleGrid
    · simp [h1, ROSCameraObserver.addTarget_pattern, pattern_options.Chessboard,
        pattern_options.CircleGrid, pattern_options.ARtag]
    · by_cases h2 : (h.targets targ).target_type = pattern_options.ARtag
      · simp [h2, ROSCameraObserver.addTarget_pattern, pattern_options.Chessboard,
          pattern_options.CircleGrid, pattern_options.ARtag]
      · simp [h0, h1, h2]

/-- Witness of C16 (amended): the AR tag at address 3 and the target of unknown type at
address 4. -/
theorem addTarget_true_iff_witness :
    ((Example.pattern_heap.targets 3).target_type = pattern_options.ARtag ∧
      (Example.pattern_heap.targets 4).target_type ≠ pattern_options.Chessboard ∧
      (Example.pattern_heap.targets 4).target_type ≠ pattern_options.CircleGrid ∧
      (Example.pattern_heap.targets 4).target_type ≠ pattern_options.ARtag) ∧
    (Example.observer.addTarget Example.pattern_heap 3 Example.roi).1 = false ∧
    (Example.observer.addTarget Example.pattern_heap 4 Example.roi).1 = false :=
  ⟨by decide,
    (addTarget_true_iff Example.pattern_heap Example.observer 3 Example.roi).2.1 (by decide),
    (addTarget_true_iff Example.pattern_heap Example.observer 4 Example.roi).2.2 (by decide)⟩

/-- C19, the code at a failing input: an observer without target is given the target of
unknown type at address 4.  `addTarget` returns `false`, rows, columns and region of
interest are as before, but `instance_target_` is now that target; for the AR tag at
address 3 it returns `false` with `instance_target_` and `pattern_` both changed. -/
theorem addTarget_false_keeps_target :
    (Example.observer.addTarget Example.pattern_heap 4 Example.roi).1 = false ∧
    Example.observer.instance_target_ = none ∧
    (Example.observer.addTarget Example.pattern_heap 4 Example.roi).2.instance_target_ =
      some 4 ∧
    (Example.observer.addTarget Example.pattern_heap 4 Example.roi).2.input_roi_ =
      Example.observer.input_roi_ ∧
    (Example.observer.addTarget Example.pattern_heap 4 Example.roi).2.pattern_rows_ =
      Example.observer.pattern_rows_ ∧
    (Example.observer.addTarget Example.pattern_heap 4 Example.roi).2.pattern_cols_ =
      Example.observer.pattern_cols_ ∧
    (Example.observer.addTarget Example.pattern_heap 3 Example.roi).1 = false ∧
    (Example.observer.addTarget Example.pattern_heap 3 Example.roi).2.instance_target_ =
      some 3 ∧
    Example.observer.pattern_ = pattern_options.Chessboard ∧
    (Example.observer.addTarget Example.pattern_heap 3 Example.roi).2.pattern_ =
      pattern_options.ARtag := by
  decide


/-! ## Claims about the scene model -/

theorem addObservationToScene_inner (test : CameraPtr → Prop) [DecidablePred test]
    (cams : List CameraPtr) (flag : Bool) :
    cams.foldl (fun flag camera => if test camera then true else flag) flag =
      (flag || cams.any (fun c => decide (test c))) := by
  induction cams generalizing flag with
  | nil => simp
  | cons c rest ih =>
    simp only [List.foldl_cons, ih, List.any_cons]
    by_cases hc : test c <;> simp [hc]

theorem addObservationToScene_outer {α : Type} (test : CameraPtr → Prop)
    [DecidablePred test] (cmds : List α) (cams : List CameraPtr) (flag : Bool) :
    cmds.foldl (fun flag _command =>
        cams.foldl (fun flag camera => if test camera then true else flag) flag) flag =
      (flag || (!cmds.isEmpty && cams.any (fun c => decide (test c)))) := by
  simp only [addObservationToScene_inner]
  generalize cams.any (fun c => decide (test c)) = A
  induction cmds generalizing flag with
  | nil => simp
  | cons c rest ih =>
    rw [List.foldl_cons, ih]
    cases flag <;> cases A <;> simp

/-- One call of `addObservationToScene` on a scene that has a camera as soon as it has a
command: the command is appended, and its camera is appended unless a camera of the scene
has the same name. -/
theorem addObservationToScene_eq (h : Heap) (sc : ObservationScene) (cmd : ObservationCmd)
    (hinv : sc.observation_command_list_ = [] → sc.cameras_in_scene_ = []) :
    sc.addObservationToScene h cmd =
      { sc with
        cameras_in_scene_ :=
          if sc.cameras_in_scene_.any (fun c =>
              decide ((h.cameras c).camera_name_ = (h.cameras cmd.camera).camera_name_)) then
            sc.cameras_in_scene_
          else sc.cameras_in_scene_ ++ [cmd.camera]
        observation_command_list_ := sc.observation_command_list_ ++ [cmd] } := by
  unfold ObservationScene.addObservationToScene
  simp only [addObservationToScene_outer
    (fun c => (h.cameras c).camera_name_ = (h.cameras cmd.camera).camera_name_),
    Bool.false_or]
  cases hl : sc.observation_command_list_ with
  | nil => simp [hinv hl]
  | cons a as => simp

theorem any_first_appearances (h : Heap) (l : List CameraPtr) (n : String) :
    (first_appearances h l).any (fun c => decide ((h.cameras c).camera_name_ = n)) =
      l.any (fun c => decide ((h.cameras c).camera_name_ = n)) := by
  induction l with
  | nil => rfl
  | cons c rest ih =>
    simp only [first_appearances, List.any_cons, ← ih]
    by_cases hc : (h.cameras c).camera_name_ = n
    · simp [hc]
    · simp only [hc, decide_False, Bool.false_or, List.any_filter]
      congr 1
      funext x
      by_cases hx : (h.cameras x).camera_name_ = n
      · have : ¬ n = (h.cameras c).camera_name_ := fun e => hc e.symm
        simp [hx, this]
      · simp [hx]

theorem first_appearances_append (h : Heap) (l : List CameraPtr) (c : CameraPtr) :
    first_appearances h (l ++ [c]) =
      if l.any (fun x => decide ((h.cameras x).camera_name_ = (h.cameras c).camera_name_))
      then first_appearances h l else first_appearances h l ++ [c] := by
  induction l with
  | nil => simp [first_appearances]
  | cons a rest ih =>
    show first_appearances h (a :: (rest ++ [c])) = _
    rw [first_appearances, ih, List.any_cons]
    by_cases ha : (h.cameras a).camera_name_ = (h.cameras c).camera_name_
    · simp only [ha, decide_True, Bool.true_or, if_true, first_appearances]
      split
      · rfl
      · simp [List.filter_append, List.filter_cons]
    · simp only [ha, decide_False, Bool.false_or, first_appearances]
      split
      · rfl
      · have : ¬ (h.cameras c).camera_name_ = (h.cameras a).camera_name_ := fun e => ha e.symm
        simp [List.filter_append, List.filter_cons, this]

theorem first_appearances_pairwise (h : Heap) (l : List CameraPtr) :
    (first_appearances h l).Pairwise
      (fun c1 c2 => (h.cameras c1).camera_name_ ≠ (h.cameras c2).camera_name_) := by
  induction l with
  | nil => exact List.Pairwise.nil
  | cons c rest ih =>
    simp only [first_appearances]
    refine List.Pairwise.cons ?_ (ih.sublist (List.filter_sublist _))
    intro x hx
    have := (List.mem_filter.mp hx).2
    simp only [decide_eq_true_eq] at this
    exact fun e => this e.symm

theorem ObservationScene.build_snoc (h : Heap) (scene_id : Int) (cmds : List ObservationCmd)
    (cmd : ObservationCmd) :
    ObservationScene.build h scene_id (cmds ++ [cmd]) =
      (ObservationScene.build h scene_id cmds).addObservationToScene h cmd := by
  simp [ObservationScene.build, List.foldl_append]

/-- C18: the scene built from the empty scene by `addObservationToScene` calls holds the
commands in call order, and its cameras are the cameras of the commands with pairwise
different names in order of first appearance: no two cameras of the scene share a name,
and every camera name of a command is the name of a camera of the scene. -/
theorem addObservationToScene_sequence (h : Heap) (scene_id : Int)
    (cmds : List ObservationCmd) :
    (ObservationScene.build h scene_id cmds).scene_id_ = scene_id ∧
    (ObservationScene.build h scene_id cmds).observation_command_list_ = cmds ∧
    (ObservationScene.build h scene_id cmds).cameras_in_scene_ =
      first_appearances h (cmds.map (fun cmd => cmd.camera)) ∧
    (ObservationScene.build h scene_id cmds).cameras_in_scene_.Pairwise
      (fun c1 c2 => (h.cameras c1).camera_name_ ≠ (h.cameras c2).camera_name_) ∧
    ∀ cmd ∈ cmds, ∃ c ∈ (ObservationScene.build h scene_id cmds).cameras_in_scene_,
      (h.cameras c).camera_name_ = (h.cameras cmd.camera).camera_name_ := by
  have main : (ObservationScene.build h scene_id cmds).scene_id_ = scene_id ∧
      (ObservationScene.build h scene_id cmds).observation_command_list_ = cmds ∧
      (ObservationScene.build h scene_id cmds).cameras_in_scene_ =
        first_appearances h (cmds.map (fun cmd => cmd.camera)) := by
    induction cmds using List.reverseRecOn with
    | nil => exact ⟨rfl, rfl, rfl⟩
    | append_singleton cmds cmd ih =>
      obtain ⟨i1, i2, i3⟩ := ih
      have hinv : (ObservationScene.build h scene_id cmds).observation_command_list_ = [] →
          (ObservationScene.build h scene_id cmds).cameras_in_scene_ = [] := by
        intro he
        rw [i2] at he
        rw [i3, he]
        rfl
      rw [ObservationScene.build_snoc, addObservationToScene_eq h _ cmd hinv]
      refine ⟨i1, by rw [i2], ?_⟩
      simp only [List.map_append, List.map_cons, List.map_nil, first_appearances_append, i3,
        any_first_appearances]
  obtain ⟨m1, m2, m3⟩ := main
  refine ⟨m1, m2, m3, by rw [m3]; exact first_appearances_pairwise h _, ?_⟩
  intro cmd hcmd
  have hany : (first_appearances h (cmds.map (fun cmd => cmd.camera))).any
      (fun c => decide ((h.cameras c).camera_name_ = (h.cameras cmd.camera).camera_name_))
      = true := by
    rw [any_first_appearances]
    exact List.any_eq_true.mpr ⟨cmd.camera, List.mem_map_of_mem _ hcmd, by simp⟩
  obtain ⟨c, hc, hn⟩ := List.any_eq_true.mp hany
  exact ⟨c, by rw [m3]; exact hc, by simpa using hn⟩


/-- C20, the code at a failing input: camera "C" (address 0), whose parameters are not
zero, is added under scene 5 to the empty registry over a heap whose free storage holds
zeros.  The call returns true and the new entry has scene id 5, the name "C" and is
moving, but its `camera_parameters_` are what the storage held, not the parameters of
"C"; likewise `Camera(name, params, is_moving)` leaves in `camera_parameters_` what the
storage held. -/
theorem addMovingCamera_parameters_not_copied :
    (CeresBlocks.ctor.addMovingCamera Example.heap_C 0 5).1 = true ∧
    (CeresBlocks.ctor.addMovingCamera Example.heap_C 0 5).2.2.moving_cameras_ = [⟨1, 5⟩] ∧
    ((CeresBlocks.ctor.addMovingCamera Example.heap_C 0 5).2.1.cameras 1).camera_name_ =
      (Example.heap_C.cameras 0).camera_name_ ∧
    ((CeresBlocks.ctor.addMovingCamera Example.heap_C 0 5).2.1.cameras 1).is_moving_ = true ∧
    ((CeresBlocks.ctor.addMovingCamera Example.heap_C 0 5).2.1.cameras 1).camera_parameters_ ≠
      (Example.heap_C.cameras 0).camera_parameters_ ∧
    ((CeresBlocks.ctor.addMovingCamera Example.heap_C 0 5).2.1.cameras 1).camera_parameters_ =
      (Example.heap_C.cameras 1).camera_parameters_ ∧
    (Camera.ctor (Example.heap_C.cameras 1) "C" Example.parameters true).camera_parameters_ ≠
      Example.parameters := by
  decide

/-! ## load -/

theorem CeresBlocks.addStaticCamera_grows (h : Heap) (b : CeresBlocks) (c : CameraPtr) :
    b.grows (b.addStaticCamera h c).2 :=
  RegistryCall.run_registry_grows h b (RegistryCall.addStaticCamera c) rfl

theorem CeresBlocks.addStaticTarget_grows (h : Heap) (b : CeresBlocks) (t : TargetPtr) :
    b.grows (b.addStaticTarget h t).2 :=
  RegistryCall.run_registry_grows h b (RegistryCall.addStaticTarget t) rfl

theorem CeresBlocks.addMovingCamera_grows (h : Heap) (b : CeresBlocks) (c : CameraPtr)
    (scene_id : Int) : b.grows (b.addMovingCamera h c scene_id).2.2 :=
  RegistryCall.run_registry_grows h b (RegistryCall.addMovingCamera c scene_id) rfl

theorem CeresBlocks.addMovingTarget_grows (h : Heap) (b : CeresBlocks) (t : TargetPtr)
    (scene_id : Int) : b.grows (b.addMovingTarget h t scene_id).2 :=
  RegistryCall.run_registry_grows h b (RegistryCall.addMovingTarget t scene_id) rfl

theorem CeresBlocks.grows.trans_left {b1 b2 b3 : CeresBlocks} (h23 : b2.grows b3)
    (h12 : b1.grows b2) : b1.grows b3 :=
  CeresBlocks.grows_trans h12 h23

theorem load_static_cameras_grows (camera_parameters : YamlNode) (is : List Nat) (s : LoadState) :
    s.ceres_blocks_.grows (load_static_cameras camera_parameters is s).2.ceres_blocks_ := by
  induction is generalizing s with
  | nil => exact CeresBlocks.grows_refl _
  | cons i rest ih =>
    rw [load_static_cameras]
    split
    · exact CeresBlocks.grows_refl _
    · exact (ih _).trans_left (CeresBlocks.addStaticCamera_grows _ _ _)

theorem load_moving_cameras_grows (camera_parameters : YamlNode) (is : List Nat) (s : LoadState) :
    s.ceres_blocks_.grows (load_moving_cameras camera_parameters is s).2.ceres_blocks_ := by
  induction is generalizing s with
  | nil => exact CeresBlocks.grows_refl _
  | cons i rest ih =>
    rw [load_moving_cameras]
    split
    · exact CeresBlocks.grows_refl _
    · exact CeresBlocks.grows_refl _
    · exact (ih _).trans_left (CeresBlocks.addMovingCamera_grows _ _ _ _)

theorem load_cameras_grows (camera_doc : YamlNode) (s : LoadState) :
    s.ceres_blocks_.grows (load_cameras camera_doc s).2.ceres_blocks_ := by
  have h1 : ∀ r1 : Option Abort × LoadState, s.ceres_blocks_.grows r1.2.ceres_blocks_ →
      s.ceres_blocks_.grows
        (match r1 with
          | (some e, s1) => (some e, s1)
          | (none, s1) =>
            match camera_doc.FindValue "moving_cameras" with
            | some camera_parameters =>
              load_moving_cameras camera_parameters (List.range camera_parameters.size) s1
            | none => (none, s1)).2.ceres_blocks_ := by
    rintro ⟨a, s1⟩ h
    cases a with
    | some e => exact h
    | none =>
      dsimp only
      split
      · exact CeresBlocks.grows_trans h (load_moving_cameras_grows _ _ _)
      · exact h
  unfold load_cameras
  apply h1
  split
  · exact load_static_cameras_grows _ _ _
  · exact CeresBlocks.grows_refl _

theorem load_static_targets_grows (target_parameters : YamlNode) (temp_target : TargetPtr)
    (is : List Nat) (h : Heap) (b : CeresBlocks) :
    b.grows (load_static_targets target_parameters temp_target is ⟨h, b⟩).2.ceres_blocks_ := by
  induction is generalizing h b with
  | nil => exact CeresBlocks.grows_refl _
  | cons i rest ih =>
    rw [load_static_targets]
    split
    · exact CeresBlocks.grows_refl _
    · dsimp only
      split
      · exact CeresBlocks.grows_refl _
      · exact (ih _ _).trans_left (CeresBlocks.addStaticTarget_grows _ _ _)

theorem load_moving_targets_grows (target_parameters : YamlNode) (temp_target : TargetPtr)
    (is : List Nat) (scene_id : Nat) (h : Heap) (b : CeresBlocks) :
    b.grows
      (load_moving_targets target_parameters temp_target is scene_id ⟨h, b⟩).2.ceres_blocks_ := by
  induction is generalizing h b scene_id with
  | nil => exact CeresBlocks.grows_refl _
  | cons i rest ih =>
    rw [load_moving_targets]
    split
    · exact CeresBlocks.grows_refl _
    · dsimp only
      split
      · exact CeresBlocks.grows_refl _
      · exact (ih _ _ _).trans_left (CeresBlocks.addMovingTarget_grows _ _ _ _)

theorem load_targets_grows (target_doc : YamlNode) (scene_id0 : Nat) (s : LoadState) :
    s.ceres_blocks_.grows (load_targets target_doc scene_id0 s).2.ceres_blocks_ := by
  have h1 : ∀ r1 : Option Abort × LoadState, s.ceres_blocks_.grows r1.2.ceres_blocks_ →
      s.ceres_blocks_.grows
        (match r1 with
          | (some e, s1) => (some e, s1)
          | (none, s1) =>
            match target_doc.FindValue "moving_targets" with
            | some target_parameters =>
              let temp_target := s1.heap.make_shared_Target
              let h1 := temp_target.2.set_target temp_target.1
                { temp_target.2.targets temp_target.1 with is_moving := true }
              load_moving_targets target_parameters temp_target.1
                (List.range target_parameters.size) scene_id0 { s1 with heap := h1 }
            | none => (none, s1)).2.ceres_blocks_ := by
    rintro ⟨a, s1⟩ h
    cases a with
    | some e => exact h
    | none =>
      dsimp only
      split
      · refine CeresBlocks.grows_trans h ?_
        dsimp only
        exact load_moving_targets_grows _ _ _ _ _ _
      · exact h
  unfold load_targets
  apply h1
  split
  · dsimp only
    exact load_static_targets_grows _ _ _ _ _
  · exact CeresBlocks.grows_refl _

/-- C15 (as the code has it): `load` can return `false` with entries added to the
registry.  The camera document holds one static camera and the target document fails to
parse: `load` returns `false`, and the registry, empty before the call, holds the
camera. -/
theorem load_false_keeps_cameras :
    (CalibrationJob.load (ConfigFile.document Example.camera_doc) ConfigFile.malformed
      (ConfigFile.document YamlNode.null) 0 Example.load_state).1
      = LoadOutcome.returned false ∧
    Example.load_state.ceres_blocks_.static_cameras_ = [] ∧
    (CalibrationJob.load (ConfigFile.document Example.camera_doc) ConfigFile.malformed
      (ConfigFile.document YamlNode.null) 0
      Example.load_state).2.ceres_blocks_.static_cameras_.length = 1 := by
  decide

/-- C15 (amended): when `load` returns `false`, every entry the registry held before the
call is still there, in its place, and the state is the one of the last document that was
read to its end: the state before the call when a file cannot be opened or the camera
document fails to parse; the state after the camera document when the target document
fails to parse; the state after the camera and the target document when the job document
fails to parse. -/
theorem load_returned_false (camera_input_file target_input_file caljob_input_file : ConfigFile)
    (scene_id0 : Nat) (s : LoadState)
    (h : (CalibrationJob.load camera_input_file target_input_file caljob_input_file
      scene_id0 s).1 = LoadOutcome.returned false) :
    s.ceres_blocks_.grows (CalibrationJob.load camera_input_file target_input_file
      caljob_input_file scene_id0 s).2.ceres_blocks_ ∧
    (((camera_input_file.fail = true ∨ target_input_file.fail = true ∨
        caljob_input_file.fail = true ∨ camera_input_file = ConfigFile.malformed) ∧
      (CalibrationJob.load camera_input_file target_input_file caljob_input_file
        scene_id0 s).2 = s) ∨
    (∃ camera_doc, camera_input_file = ConfigFile.document camera_doc ∧
      target_input_file = ConfigFile.malformed ∧
      (load_cameras camera_doc s).1 = none ∧
      (CalibrationJob.load camera_input_file target_input_file caljob_input_file
        scene_id0 s).2 = (load_cameras camera_doc s).2) ∨
    (∃ camera_doc target_doc, camera_input_file = ConfigFile.document camera_doc ∧
      target_input_file = ConfigFile.document target_doc ∧
      caljob_input_file = ConfigFile.malformed ∧
      (load_cameras camera_doc s).1 = none ∧
      (load_targets target_doc scene_id0 (load_cameras camera_doc s).2).1 = none ∧
      (CalibrationJob.load camera_input_file target_input_file caljob_input_file
        scene_id0 s).2 = (load_targets target_doc scene_id0 (load_cameras camera_doc s).2).2)) := by
  have key : ((camera_input_file.fail = true ∨ target_input_file.fail = true ∨
        caljob_input_file.fail = true ∨ camera_input_file = ConfigFile.malformed) ∧
      (CalibrationJob.load camera_input_file target_input_file caljob_input_file
        scene_id0 s).2 = s) ∨
    (∃ camera_doc, camera_input_file = ConfigFile.document camera_doc ∧
      target_input_file = ConfigFile.malformed ∧
      (load_cameras camera_doc s).1 = none ∧
      (CalibrationJob.load camera_input_file target_input_file caljob_input_file
        scene_id0 s).2 = (load_cameras camera_doc s).2) ∨
    (∃ camera_doc target_doc, camera_input_file = ConfigFile.document camera_doc ∧
      target_input_file = ConfigFile.document target_doc ∧
      caljob_input_file = ConfigFile.malformed ∧
      (load_cameras camera_doc s).1 = none ∧
      (load_targets target_doc scene_id0 (load_cameras camera_doc s).2).1 = none ∧
      (CalibrationJob.load camera_input_file target_input_file caljob_input_file
        scene_id0 s).2 = (load_targets target_doc scene_id0 (load_cameras camera_doc s).2).2) := by
    cases camera_input_file with
    | unreadable => exact Or.inl ⟨Or.inl rfl, rfl⟩
    | malformed =>
      refine Or.inl ⟨Or.inr (Or.inr (Or.inr rfl)), ?_⟩
      cases target_input_file <;> cases caljob_input_file <;> rfl
    | document camera_doc =>
      cases target_input_file with
      | unreadable => exact Or.inl ⟨Or.inr (Or.inl rfl), rfl⟩
      | malformed =>
        cases caljob_input_file with
        | unreadable => exact Or.inl ⟨Or.inr (Or.inr (Or.inl rfl)), rfl⟩
        | malformed =>
          rcases hc : load_cameras camera_doc s with ⟨_ | e, s1⟩
          · exact Or.inr (Or.inl ⟨camera_doc, rfl, rfl, by rw [hc], by
              simp [CalibrationJob.load, ConfigFile.fail, load_try, hc]⟩)
          · simp [CalibrationJob.load, ConfigFile.fail, load_try, hc] at h
        | document caljob_doc =>
          rcases hc : load_cameras camera_doc s with ⟨_ | e, s1⟩
          · exact Or.inr (Or.inl ⟨camera_doc, rfl, rfl, by rw [hc], by
              simp [CalibrationJob.load, ConfigFile.fail, load_try, hc]⟩)
          · simp [CalibrationJob.load, ConfigFile.fail, load_try, hc] at h
      | document target_doc =>
        cases caljob_input_file with
        | unreadable => exact Or.inl ⟨Or.inr (Or.inr (Or.inl rfl)), rfl⟩
        | malformed =>
          rcases hc : load_cameras camera_doc s with ⟨_ | e, s1⟩
          · rcases ht : load_targets target_doc scene_id0 s1 with ⟨_ | e, s2⟩
            · exact Or.inr (Or.inr ⟨camera_doc, target_doc, rfl, rfl, rfl, by rw [hc], by
                rw [hc, ht], by
                simp [CalibrationJob.load, ConfigFile.fail, load_try, hc, ht]⟩)
            · simp [CalibrationJob.load, ConfigFile.fail, load_try, hc, ht] at h
          · simp [CalibrationJob.load, ConfigFile.fail, load_try, hc] at h
        | document caljob_doc =>
          rcases hc : load_cameras camera_doc s with ⟨_ | e, s1⟩
          · rcases ht : load_targets target_doc scene_id0 s1 with ⟨_ | e, s2⟩
            · rcases hj : load_caljob caljob_doc s2 with ⟨_ | e, s3⟩ <;>
                simp [CalibrationJob.load, ConfigFile.fail, load_try, hc, ht, hj] at h
            · simp [CalibrationJob.load, ConfigFile.fail, load_try, hc, ht] at h
          · simp [CalibrationJob.load, ConfigFile.fail, load_try, hc] at h
  refine ⟨?_, key⟩
  rcases key with ⟨_, e⟩ | ⟨camera_doc, _, _, _, e⟩ | ⟨camera_doc, target_doc, _, _, _, _, _, e⟩
  · rw [e]; exact CeresBlocks.grows_refl _
  · rw [e]; exact load_cameras_grows _ _
  · rw [e]
    exact CeresBlocks.grows_trans (load_cameras_grows _ _) (load_targets_grows _ _ _)

/-- C15 (amended), at the camera document with one static camera and a target document
that fails to parse. -/
theorem load_returned_false_witness :
    (CalibrationJob.load (ConfigFile.document Example.camera_doc) ConfigFile.malformed
      (ConfigFile.document YamlNode.null) 0 Example.load_state).1
      = LoadOutcome.returned false ∧
    Example.load_state.ceres_blocks_.grows
      (CalibrationJob.load (ConfigFile.document Example.camera_doc) ConfigFile.malformed
        (ConfigFile.document YamlNode.null) 0 Example.load_state).2.ceres_blocks_ :=
  ⟨by decide, (load_returned_false _ _ _ 0 Example.load_state (by decide)).1⟩
/-! ## The observation pass as a sequence of reports -/

/-- The registry after the loop over the observations of one camera: the targets of
the observations registered in turn. -/
theorem runObservations_observation_blocks {σ : Type} (sid : Int) (name : String)
    (I E : P_BLOCK) (L : List Observation) (m : Machine σ) :
    (L.foldl (runObservations_observation sid name I E) m).blocks =
      L.foldl (fun b ob => register_target m.heap b ob.target sid) m.blocks := by
  induction L generalizing m with
  | nil => rfl
  | cons ob rest ih =>
    simp only [List.foldl_cons]
    rw [ih, runObservations_observation_eq]

/-- One camera of a scene, when the step comes to its end: heap and registry are as
`register_report` gives them for what the observer handed over, and the data points of
that report are appended. -/
theorem runObservations_camera_trace {σ : Type} (observer : CameraObserver σ) (sid : Int)
    (m m2 : Machine σ) (c : CameraPtr) (hb : m.blocks.live m.heap)
    (hc : m.heap.live_camera c) (hrun : runObservations_camera observer sid m c = some m2) :
    ∃ Lc, m2.job.scene_list_ = m.job.scene_list_ ∧
      (m2.heap, m2.blocks) = register_report (m.heap, m.blocks) ⟨sid, c, Lc⟩ ∧
      m2.items = m.items ++ report_points (m.heap, m.blocks) ⟨sid, c, Lc⟩ ∧
      m.heap.grows m2.heap ∧ m2.blocks.live m2.heap := by
  obtain ⟨o, ho, -, s3, s4, -, s6, s7, -⟩ :=
    runObservations_camera_spec observer sid m m2 c hb hc hrun
  rw [runObservations_camera_eq, ho] at hrun
  simp only at hrun
  split at hrun
  · simp at hrun
  · simp only [Option.some.injEq] at hrun
    generalize (observer.getObservations o { observations := [] } m.observers).1.2.observations
      = Lc at hrun s7
    have hbl := runObservations_observation_blocks sid (m.heap.cameras c).camera_name_
      ((camera_intrinsics_lookup m.heap c).get (register_camera m.heap m.blocks c sid).1
        (register_camera m.heap m.blocks c sid).2)
      ((camera_extrinsics_lookup m.heap c sid).get (register_camera m.heap m.blocks c sid).1
        (register_camera m.heap m.blocks c sid).2) Lc
      { heap := (register_camera m.heap m.blocks c sid).1
        observers := (observer.getObservations o { observations := [] } m.observers).2
        job := { m.job with ceres_blocks_ := (register_camera m.heap m.blocks c sid).2 } }
    have hhp := (runObservations_observation_foldl sid (m.heap.cameras c).camera_name_
      ((camera_intrinsics_lookup m.heap c).get (register_camera m.heap m.blocks c sid).1
        (register_camera m.heap m.blocks c sid).2)
      ((camera_extrinsics_lookup m.heap c sid).get (register_camera m.heap m.blocks c sid).1
        (register_camera m.heap m.blocks c sid).2) Lc
      { heap := (register_camera m.heap m.blocks c sid).1
        observers := (observer.getObservations o { observations := [] } m.observers).2
        job := { m.job with ceres_blocks_ := (register_camera m.heap m.blocks c sid).2 } }).1
    rw [hrun] at hbl hhp
    have hreg : (m2.heap, m2.blocks) = register_report (m.heap, m.blocks) ⟨sid, c, Lc⟩ := by
      rw [hbl, hhp]
      rfl
    refine ⟨Lc, s3, hreg, ?_, s4, s6⟩
    rw [s7, report_points, ← hreg]

/-- The data points of two sequences of reports handled one after the other. -/
theorem reports_points_append (hb : Heap × CeresBlocks) (l1 l2 : List CameraReport) :
    reports_points hb (l1 ++ l2) =
      reports_points hb l1 ++ reports_points (l1.foldl register_report hb) l2 := by
  induction l1 generalizing hb with
  | nil => rfl
  | cons r rest ih =>
    show report_points hb r ++ reports_points (register_report hb r) (rest ++ l2) = _
    rw [ih]
    simp only [reports_points, List.foldl_cons, List.append_assoc]

/-- The scene and camera a report belongs to. -/
theorem report_keys_cons (sid : Int) (c : CameraPtr) (Lc : List Observation)
    (tr : List CameraReport) (rest : List CameraPtr)
    (h : tr.map (fun r => (r.scene_id, r.camera)) = rest.map (fun c => (sid, c))) :
    ((⟨sid, c, Lc⟩ : CameraReport) :: tr).map (fun r => (r.scene_id, r.camera)) =
      (c :: rest).map (fun c => (sid, c)) := by
  simp only [List.map_cons, h]

/-- The fourth loop of a scene, when it comes to its end: there is one report per camera
of the scene, in order, and heap, registry and data points are what these reports
give. -/
theorem runObservations_cameras_trace {σ : Type} (observer : CameraObserver σ) (sid : Int)
    (cams : List CameraPtr) (m m2 : Machine σ) (hb : m.blocks.live m.heap)
    (hc : ∀ c ∈ cams, m.heap.live_camera c)
    (hrun : runObservations_cameras observer sid cams m = some m2) :
    ∃ tr : List CameraReport,
      tr.map (fun r => (r.scene_id, r.camera)) = cams.map (fun c => (sid, c)) ∧
      m2.job.scene_list_ = m.job.scene_list_ ∧
      (m2.heap, m2.blocks) = tr.foldl register_report (m.heap, m.blocks) ∧
      m2.items = m.items ++ reports_points (m.heap, m.blocks) tr ∧
      m.heap.grows m2.heap ∧ m2.blocks.live m2.heap := by
  induction cams generalizing m with
  | nil =>
    simp only [runObservations_cameras, Option.some.injEq] at hrun
    subst hrun
    exact ⟨[], rfl, rfl, rfl, by simp [reports_points], Heap.grows_self _, hb⟩
  | cons c rest ih =>
    simp only [runObservations_cameras] at hrun
    cases hstep : runObservations_camera observer sid m c with
    | none => rw [hstep] at hrun; simp at hrun
    | some m1 =>
      rw [hstep] at hrun
      simp only at hrun
      obtain ⟨Lc, a1, a2, a3, a4, a5⟩ := runObservations_camera_trace observer sid m m1 c hb
        (hc c (List.mem_cons_self _ _)) hstep
      obtain ⟨tr, b0, b1, b2, b3, b4, b5⟩ := ih m1 a5
        (fun c1 h1 => a4.2.2 _ (hc c1 (List.mem_cons_of_mem _ h1))) hrun
      refine ⟨⟨sid, c, Lc⟩ :: tr, report_keys_cons sid c Lc tr rest b0, b1.trans a1, ?_, ?_,
        Heap.grows_chain a4 b4, b5⟩
      · rw [b2, a2]
        rfl
      · rw [b3, a3, a2, List.append_assoc]
        rfl

/-- One scene, when the body of the loop over the scenes comes to its end: there is one
report per camera of the scene, and heap, registry and data points are what these reports
give. -/
theorem runObservations_scene_trace {σ : Type} (observer : CameraObserver σ)
    (sc : ObservationScene) (m m2 : Machine σ) (hb : m.blocks.live m.heap)
    (hc : ∀ c ∈ sc.cameras_in_scene_, m.heap.live_camera c)
    (hrun : runObservations_scene observer m sc = some m2) :
    ∃ tr : List CameraReport,
      tr.map (fun r => (r.scene_id, r.camera)) =
        sc.cameras_in_scene_.map (fun c => (sc.scene_id_, c)) ∧
      m2.job.scene_list_ = m.job.scene_list_ ∧
      (m2.heap, m2.blocks) = tr.foldl register_report (m.heap, m.blocks) ∧
      m2.items = m.items ++ reports_points (m.heap, m.blocks) tr ∧
      m.heap.grows m2.heap ∧ m2.blocks.live m2.heap := by
  unfold runObservations_scene at hrun
  simp only at hrun
  cases h1 : runObservations_clear observer m.heap sc.cameras_in_scene_ m.observers with
  | none => rw [h1] at hrun; simp at hrun
  | some s1 =>
    rw [h1] at hrun
    simp only at hrun
    cases h2 : runObservations_addTarget observer m.heap sc.observation_command_list_ s1 with
    | none => rw [h2] at hrun; simp at hrun
    | some s2 =>
      rw [h2] at hrun
      simp only at hrun
      cases h3 : runObservations_trigger observer m.heap sc.cameras_in_scene_ s2 with
      | none => rw [h3] at hrun; simp at hrun
      | some s3 =>
        rw [h3] at hrun
        simp only at hrun
        exact runObservations_cameras_trace observer sc.scene_id_ sc.cameras_in_scene_
          { m with observers := s3 } m2 hb hc hrun

/-- The loop over the scenes, when it comes to its end: there is one report per camera
of every scene, in order, and heap, registry and data points are what these reports
give. -/
theorem runObservations_scenes_trace {σ : Type} (observer : CameraObserver σ)
    (scenes : List ObservationScene) (m m2 : Machine σ) (hb : m.blocks.live m.heap)
    (hc : ∀ sc ∈ scenes, ∀ c ∈ sc.cameras_in_scene_, m.heap.live_camera c)
    (hrun : runObservations_scenes observer scenes m = some m2) :
    ∃ tr : List CameraReport,
      tr.map (fun r => (r.scene_id, r.camera)) =
        scenes.flatMap (fun sc => sc.cameras_in_scene_.map (fun c => (sc.scene_id_, c))) ∧
      m2.job.scene_list_ = m.job.scene_list_ ∧
      (m2.heap, m2.blocks) = tr.foldl register_report (m.heap, m.blocks) ∧
      m2.items = m.items ++ reports_points (m.heap, m.blocks) tr ∧
      m.heap.grows m2.heap ∧ m2.blocks.live m2.heap := by
  induction scenes generalizing m with
  | nil =>
    simp only [runObservations_scenes, Option.some.injEq] at hrun
    subst hrun
    exact ⟨[], rfl, rfl, rfl, by simp [reports_points], Heap.grows_self _, hb⟩
  | cons sc rest ih =>
    simp only [runObservations_scenes] at hrun
    cases hstep : runObservations_scene observer m sc with
    | none => rw [hstep] at hrun; simp at hrun
    | some m1 =>
      rw [hstep] at hrun
      simp only at hrun
      obtain ⟨tr1, a0, a1, a2, a3, a4, a5⟩ := runObservations_scene_trace observer sc m m1 hb
        (hc sc (List.mem_cons_self _ _)) hstep
      obtain ⟨tr2, b0, b1, b2, b3, b4, b5⟩ := ih m1 a5
        (fun sc1 h1 c hcm => a4.2.2 _ (hc sc1 (List.mem_cons_of_mem _ h1) c hcm)) hrun
      refine ⟨tr1 ++ tr2, ?_, b1.trans a1, ?_, ?_, Heap.grows_chain a4 b4, b5⟩
      · rw [List.map_append, a0, b0, List.flatMap_cons]
      · rw [b2, a2, List.foldl_append]
      · rw [b3, a3, a2, reports_points_append, List.append_assoc]

/-- Registering the camera of a scene is a call of `addMovingCamera` or of
`addStaticCamera`. -/
theorem register_camera_run (h : Heap) (b : CeresBlocks) (c : CameraPtr) (sid : Int) :
    register_camera h b c sid =
      RegistryCall.run h b
        (if (h.cameras c).is_moving_ then RegistryCall.addMovingCamera c sid
         else RegistryCall.addStaticCamera c) := by
  unfold register_camera
  split <;> rfl

/-- Registering the target of an observation is a call of `addMovingTarget` or of
`addStaticTarget`. -/
theorem register_target_run (h : Heap) (b : CeresBlocks) (t : TargetPtr) (sid : Int) :
    (h, register_target h b t sid) =
      RegistryCall.run h b
        (if (h.targets t).is_moving then RegistryCall.addMovingTarget t sid
         else RegistryCall.addStaticTarget t) := by
  unfold register_target
  split <;> rfl

theorem Reachable.of_register_camera {h : Heap} {b : CeresBlocks} (hr : Reachable h b)
    (c : CameraPtr) (sid : Int) (hc : h.live_camera c) :
    Reachable (register_camera h b c sid).1 (register_camera h b c sid).2 := by
  rw [register_camera_run]
  refine Reachable.call _ hr ?_
  split <;> exact hc

theorem Reachable.of_register_target {h : Heap} {b : CeresBlocks} (hr : Reachable h b)
    (t : TargetPtr) (sid : Int) : Reachable h (register_target h b t sid) := by
  have h1 := Reachable.call (if (h.targets t).is_moving then RegistryCall.addMovingTarget t sid
    else RegistryCall.addStaticTarget t) hr (by split <;> trivial)
  rw [← register_target_run] at h1
  exact h1

theorem Reachable.of_register_targets {h : Heap} {b : CeresBlocks} (hr : Reachable h b)
    (sid : Int) (L : List Observation) :
    Reachable h (L.foldl (fun b ob => register_target h b ob.target sid) b) := by
  induction L generalizing b with
  | nil => exact hr
  | cons ob rest ih => exact ih (hr.of_register_target ob.target sid)

theorem Reachable.of_register_report {hb : Heap × CeresBlocks} (hr : Reachable hb.1 hb.2)
    (r : CameraReport) (hc : hb.1.live_camera r.camera) :
    Reachable (register_report hb r).1 (register_report hb r).2 :=
  (hr.of_register_camera r.camera r.scene_id hc).of_register_targets r.scene_id r.observations

/-- The targets of a list of observations registered in turn: the registry grows, by
targets only, and the target lookups of every observation find an entry. -/
theorem register_targets_spec (h : Heap) (b : CeresBlocks) (sid : Int)
    (L : List Observation) :
    b.grows (L.foldl (fun b ob => register_target h b ob.target sid) b) ∧
    (L.foldl (fun b ob => register_target h b ob.target sid) b).static_cameras_ =
      b.static_cameras_ ∧
    (L.foldl (fun b ob => register_target h b ob.target sid) b).moving_cameras_ =
      b.moving_cameras_ ∧
    ∀ ob ∈ L,
      (target_pose_lookup h ob.target sid).get h
        (L.foldl (fun b ob => register_target h b ob.target sid) b) ≠ P_BLOCK.NULL ∧
      (target_point_lookup h ob.target ob.point_id).hits h
        (L.foldl (fun b ob => register_target h b ob.target sid) b) = true := by
  have hf := runObservations_observation_foldl sid "" P_BLOCK.NULL P_BLOCK.NULL L
    ({ heap := h, observers := (), job := ⟨b, [], ⟨[]⟩⟩ } : Machine Unit)
  have hbl := runObservations_observation_blocks sid "" P_BLOCK.NULL P_BLOCK.NULL L
    ({ heap := h, observers := (), job := ⟨b, [], ⟨[]⟩⟩ } : Machine Unit)
  rw [hbl] at hf
  exact ⟨hf.2.2.2.1, hf.2.2.2.2.1, hf.2.2.2.2.2.1, hf.2.2.2.2.2.2.2⟩

/-- One report handled: heap and registry grow, the registry pointers stay allocated,
and the lookups for the camera and for every observation find an entry. -/
theorem register_report_spec (hb : Heap × CeresBlocks) (r : CameraReport)
    (hl : hb.2.live hb.1) (hc : hb.1.live_camera r.camera) :
    hb.1.grows (register_report hb r).1 ∧ hb.2.grows (register_report hb r).2 ∧
    (register_report hb r).2.live (register_report hb r).1 ∧
    (camera_intrinsics_lookup hb.1 r.camera).get (register_report hb r).1
      (register_report hb r).2 ≠ P_BLOCK.NULL ∧
    (camera_extrinsics_lookup hb.1 r.camera r.scene_id).get (register_report hb r).1
      (register_report hb r).2 ≠ P_BLOCK.NULL ∧
    ∀ ob ∈ r.observations,
      (target_pose_lookup hb.1 ob.target r.scene_id).get (register_report hb r).1
        (register_report hb r).2 ≠ P_BLOCK.NULL ∧
      (target_point_lookup hb.1 ob.target ob.point_id).hits (register_report hb r).1
        (register_report hb r).2 = true := by
  obtain ⟨r1, r2, r3, r4, r5⟩ := register_camera_spec hb.1 hb.2 r.camera r.scene_id hl hc
  obtain ⟨t1, t2, t3, t4⟩ := register_targets_spec
    (register_camera hb.1 hb.2 r.camera r.scene_id).1
    (register_camera hb.1 hb.2 r.camera r.scene_id).2 r.scene_id r.observations
  have hI := Lookup.get_registry_grows t1 _ r4
  have hE := Lookup.get_registry_grows t1 _ r5
  refine ⟨r1, CeresBlocks.grows_trans r2 t1, ⟨fun x hx => ?_, fun x hx => ?_⟩, ?_, ?_, ?_⟩
  · exact r3.1 x (by
      have : x ∈ (register_report hb r).2.static_cameras_ := hx
      rw [register_report] at this
      simpa only [t2] using this)
  · exact r3.2 x (by
      have : x ∈ (register_report hb r).2.moving_cameras_ := hx
      rw [register_report] at this
      simpa only [t3] using this)
  · rw [← hI] at r4
    exact r4
  · rw [← hE] at r5
    exact r5
  · intro ob hob
    have htl := target_lookups_of_grows ob.target r.scene_id ob.point_id r1
    have := t4 ob hob
    rw [htl.1, htl.2] at this
    exact this

/-- A sequence of reports handled: heap and registry grow, the registry pointers stay
allocated, and at the end the lookups for every camera and every observation of the
sequence find an entry. -/
theorem register_reports_spec (tr : List CameraReport) (hb : Heap × CeresBlocks)
    (hl : hb.2.live hb.1) (hc : ∀ r ∈ tr, hb.1.live_camera r.camera) :
    hb.1.grows (tr.foldl register_report hb).1 ∧ hb.2.grows (tr.foldl register_report hb).2 ∧
    (tr.foldl register_report hb).2.live (tr.foldl register_report hb).1 ∧
    ∀ r ∈ tr,
      (camera_intrinsics_lookup hb.1 r.camera).get (tr.foldl register_report hb).1
        (tr.foldl register_report hb).2 ≠ P_BLOCK.NULL ∧
      (camera_extrinsics_lookup hb.1 r.camera r.scene_id).get (tr.foldl register_report hb).1
        (tr.foldl register_report hb).2 ≠ P_BLOCK.NULL ∧
      ∀ ob ∈ r.observations,
        (target_pose_lookup hb.1 ob.target r.scene_id).get (tr.foldl register_report hb).1
          (tr.foldl register_report hb).2 ≠ P_BLOCK.NULL ∧
        (target_point_lookup hb.1 ob.target ob.point_id).hits (tr.foldl register_report hb).1
          (tr.foldl register_report hb).2 = true := by
  induction tr generalizing hb with
  | nil =>
    exact ⟨Heap.grows_self _, CeresBlocks.grows_refl _, hl, fun r hr => by simp at hr⟩
  | cons r0 rest ih =>
    obtain ⟨a1, a2, a3, a4, a5, a6⟩ :=
      register_report_spec hb r0 hl (hc r0 (List.mem_cons_self _ _))
    obtain ⟨b1, b2, b3, b4⟩ := ih (register_report hb r0) a3
      (fun r hr => a1.2.2 _ (hc r (List.mem_cons_of_mem _ hr)))
    simp only [List.foldl_cons]
    refine ⟨Heap.grows_chain a1 b1, CeresBlocks.grows_trans a2 b2, b3, fun r hr => ?_⟩
    rcases List.mem_cons.mp hr with rfl | hr2
    · refine ⟨?_, ?_, fun ob hob => ⟨?_, ?_⟩⟩
      · rw [Lookup.get_grows a3 b1 b2 _ a4]; exact a4
      · rw [Lookup.get_grows a3 b1 b2 _ a5]; exact a5
      · rw [Lookup.get_grows a3 b1 b2 _ (a6 ob hob).1]; exact (a6 ob hob).1
      · exact Lookup.hits_grows a3 b1 b2 _ (a6 ob hob).2
    · have hcl := camera_lookups_of_grows r.camera r.scene_id a1
        (hc r (List.mem_cons_of_mem _ hr2))
      obtain ⟨c1, c2, c3⟩ := b4 r hr2
      rw [hcl.1] at c1
      rw [hcl.2] at c2
      refine ⟨c1, c2, fun ob hob => ?_⟩
      have htl := target_lookups_of_grows ob.target r.scene_id ob.point_id a1
      have := c3 ob hob
      rw [htl.1, htl.2] at this
      exact this

/-- A sequence of reports handled from a registry state gives a registry state. -/
theorem Reachable.of_register_reports (tr : List CameraReport) {hb : Heap × CeresBlocks}
    (hr : Reachable hb.1 hb.2) (hc : ∀ r ∈ tr, hb.1.live_camera r.camera) :
    Reachable (tr.foldl register_report hb).1 (tr.foldl register_report hb).2 := by
  induction tr generalizing hb with
  | nil => exact hr
  | cons r0 rest ih =>
    simp only [List.foldl_cons]
    refine ih (hr.of_register_report r0 (hc r0 (List.mem_cons_self _ _))) (fun r hr2 => ?_)
    exact (register_report_spec hb r0 hr.live_distinct.1
      (hc r0 (List.mem_cons_self _ _))).1.2.2 _ (hc r (List.mem_cons_of_mem _ hr2))
/-! ## One registry entry per identity -/

theorem countP_le_one_of_pairwise_test {α : Type} (p : α → Bool) (l : List α)
    (hp : l.Pairwise (fun x y => ¬ (p x = true ∧ p y = true))) : l.countP p ≤ 1 := by
  induction l with
  | nil => simp
  | cons a as ih =>
    rw [List.pairwise_cons] at hp
    by_cases ha : p a = true
    · have h0 : as.countP p = 0 := by
        rw [List.countP_eq_zero]
        intro x hx hpx
        exact hp.1 x hx ⟨ha, hpx⟩
      simp [List.countP_cons, ha, h0]
    · simp only [List.countP_cons, ha, Bool.false_eq_true, ↓reduceIte, add_zero]
      exact ih hp.2

theorem countP_eq_one_of_pairwise_test {α : Type} (p : α → Bool) (l : List α)
    (hp : l.Pairwise (fun x y => ¬ (p x = true ∧ p y = true)))
    (hany : ∃ x ∈ l, p x = true) : l.countP p = 1 := by
  have h1 := countP_le_one_of_pairwise_test p l hp
  have h2 : 0 < l.countP p := List.countP_pos_iff.mpr hany
  omega

/-- In a registry without two entries of one identity, a camera whose extrinsics lookup
finds an entry has exactly one entry for its identity. -/
theorem camera_entries_eq_one {h : Heap} {b : CeresBlocks} (hd : b.distinct h)
    (c : CameraPtr) (sid : Int)
    (hf : (camera_extrinsics_lookup h c sid).get h b ≠ P_BLOCK.NULL) :
    b.camera_entries h (h.cameras c).camera_name_ (h.cameras c).is_moving_ sid = 1 := by
  unfold camera_extrinsics_lookup at hf
  unfold CeresBlocks.camera_entries
  by_cases hm : (h.cameras c).is_moving_ = true
  · rw [if_pos hm] at hf
    rw [if_pos hm]
    simp only [Lookup.get, CeresBlocks.getMovingCameraParameterBlockExtrinsics] at hf
    rw [foreach_return_any _ _ _ _ (fun _ => by simp)] at hf
    obtain ⟨x, hx, hpx⟩ := List.any_eq_true.mp hf
    refine countP_eq_one_of_pairwise_test _ _ (hd.2.2.1.imp ?_) ⟨x, hx, ?_⟩
    · intro e1 e2 hne hp
      simp only [Bool.and_eq_true, decide_eq_true_eq] at hp
      exact hne ⟨hp.1.1.trans hp.2.1.symm, hp.1.2.trans hp.2.2.symm⟩
    · simp only [Bool.and_eq_true, decide_eq_true_eq] at hpx ⊢
      exact ⟨hpx.1.symm, hpx.2.symm⟩
  · rw [if_neg hm] at hf
    rw [if_neg hm]
    simp only [Lookup.get, CeresBlocks.getStaticCameraParameterBlockExtrinsics] at hf
    rw [foreach_return_any _ _ _ _ (fun _ => by simp)] at hf
    obtain ⟨x, hx, hpx⟩ := List.any_eq_true.mp hf
    refine countP_eq_one_of_pairwise_test _ _ (hd.1.imp ?_) ⟨x, hx, ?_⟩
    · intro e1 e2 hne hp
      simp only [decide_eq_true_eq] at hp
      exact hne (hp.1.trans hp.2.symm)
    · simp only [decide_eq_true_eq] at hpx ⊢
      exact hpx.symm

/-- In a registry without two entries of one identity, a target whose pose lookup finds
an entry has exactly one entry for its identity. -/
theorem target_entries_eq_one {h : Heap} {b : CeresBlocks} (hd : b.distinct h)
    (t : TargetPtr) (sid : Int)
    (hf : (target_pose_lookup h t sid).get h b ≠ P_BLOCK.NULL) :
    b.target_entries h (h.targets t).target_name (h.targets t).is_moving sid = 1 := by
  unfold target_pose_lookup at hf
  unfold CeresBlocks.target_entries
  by_cases hm : (h.targets t).is_moving = true
  · rw [if_pos hm] at hf
    rw [if_pos hm]
    simp only [Lookup.get, CeresBlocks.getMovingTargetPoseParameterBlock] at hf
    rw [foreach_return_any _ _ _ _ (fun _ => by simp)] at hf
    obtain ⟨x, hx, hpx⟩ := List.any_eq_true.mp hf
    refine countP_eq_one_of_pairwise_test _ _ (hd.2.2.2.imp ?_) ⟨x, hx, ?_⟩
    · intro e1 e2 hne hp
      simp only [Bool.and_eq_true, decide_eq_true_eq] at hp
      exact hne ⟨hp.1.1.trans hp.2.1.symm, hp.1.2.trans hp.2.2.symm⟩
    · simp only [Bool.and_eq_true, decide_eq_true_eq] at hpx ⊢
      exact ⟨hpx.1.symm, hpx.2.symm⟩
  · rw [if_neg hm] at hf
    rw [if_neg hm]
    simp only [Lookup.get, CeresBlocks.getStaticTargetPoseParameterBlock] at hf
    rw [foreach_return_any _ _ _ _ (fun _ => by simp)] at hf
    obtain ⟨x, hx, hpx⟩ := List.any_eq_true.mp hf
    refine countP_eq_one_of_pairwise_test _ _ (hd.2.1.imp ?_) ⟨x, hx, ?_⟩
    · intro e1 e2 hne hp
      simp only [decide_eq_true_eq] at hp
      exact hne (hp.1.trans hp.2.symm)
    · simp only [decide_eq_true_eq] at hpx ⊢
      exact hpx.symm

/-- The targets a registration enters are the targets registered. -/
theorem register_target_has_target (h : Heap) (b : CeresBlocks) (t0 : TargetPtr) (sid : Int)
    (t : TargetPtr) (ht : (register_target h b t0 sid).has_target t) :
    b.has_target t ∨ t = t0 := by
  unfold register_target at ht
  split at ht
  · rw [CeresBlocks.addMovingTarget_eq] at ht
    split at ht
    · exact Or.inl ht
    · rcases ht with h1 | ⟨mt, hmt, rfl⟩
      · exact Or.inl (Or.inl h1)
      · simp only [List.mem_append, List.mem_singleton] at hmt
        rcases hmt with h2 | rfl
        · exact Or.inl (Or.inr ⟨mt, h2, rfl⟩)
        · exact Or.inr rfl
  · rw [CeresBlocks.addStaticTarget_eq] at ht
    split at ht
    · exact Or.inl ht
    · rcases ht with h1 | ⟨mt, hmt, rfl⟩
      · simp only [List.mem_append, List.mem_singleton] at h1
        rcases h1 with h2 | rfl
        · exact Or.inl (Or.inl h2)
        · exact Or.inr rfl
      · exact Or.inl (Or.inr ⟨mt, hmt, rfl⟩)

/-- Registering a camera leaves the targets of the registry and of the heap alone. -/
theorem register_camera_targets (h : Heap) (b : CeresBlocks) (c : CameraPtr) (sid : Int) :
    (register_camera h b c sid).2.static_targets_ = b.static_targets_ ∧
    (register_camera h b c sid).2.moving_targets_ = b.moving_targets_ := by
  unfold register_camera
  split
  · rw [CeresBlocks.addMovingCamera_eq]
    split <;> exact ⟨rfl, rfl⟩
  · rw [CeresBlocks.addStaticCamera_eq]
    split <;> exact ⟨rfl, rfl⟩

/-- The targets in the registry after the targets of a list of observations were
registered: those before and those of the observations. -/
theorem register_targets_has_target (h : Heap) (sid : Int) (L : List Observation)
    (b : CeresBlocks) (t : TargetPtr)
    (ht : (L.foldl (fun b ob => register_target h b ob.target sid) b).has_target t) :
    b.has_target t ∨ ∃ ob ∈ L, ob.target = t := by
  induction L generalizing b with
  | nil => exact Or.inl ht
  | cons ob rest ih =>
    rcases ih _ ht with h1 | ⟨ob2, hob2, rfl⟩
    · rcases register_target_has_target h b ob.target sid t h1 with h2 | rfl
      · exact Or.inl h2
      · exact Or.inr ⟨ob, List.mem_cons_self _ _, rfl⟩
    · exact Or.inr ⟨ob2, List.mem_cons_of_mem _ hob2, rfl⟩

/-- The targets in the registry after a sequence of reports: those before and those of
the observations reported. -/
theorem register_reports_has_target (tr : List CameraReport) (hb : Heap × CeresBlocks)
    (t : TargetPtr) (ht : (tr.foldl register_report hb).2.has_target t) :
    hb.2.has_target t ∨ ∃ r ∈ tr, ∃ ob ∈ r.observations, ob.target = t := by
  induction tr generalizing hb with
  | nil => exact Or.inl ht
  | cons r0 rest ih =>
    rcases ih _ ht with h1 | ⟨r, hr, ob, hob, rfl⟩
    · rcases register_targets_has_target _ _ _ _ _ h1 with h2 | ⟨ob, hob, rfl⟩
      · left
        have e := register_camera_targets hb.1 hb.2 r0.camera r0.scene_id
        unfold CeresBlocks.has_target at h2 ⊢
        rw [e.1, e.2] at h2
        exact h2
      · exact Or.inr ⟨r0, List.mem_cons_self _ _, ob, hob, rfl⟩
    · exact Or.inr ⟨r, List.mem_cons_of_mem _ hr, ob, hob, rfl⟩

/-- Handling a report leaves the targets of the heap alone. -/
theorem register_report_targets (hb : Heap × CeresBlocks) (r : CameraReport) :
    (register_report hb r).1.targets = hb.1.targets := by
  show (register_camera hb.1 hb.2 r.camera r.scene_id).1.targets = hb.1.targets
  unfold register_camera
  split
  · rw [CeresBlocks.addMovingCamera_eq]
    split <;> rfl
  · rfl

/-- Every observation of a report of the sequence has a data point, with the name of its
target. -/
theorem reports_points_has (tr : List CameraReport) (hb : Heap × CeresBlocks)
    (r : CameraReport) (hr : r ∈ tr) (ob : Observation) (hob : ob ∈ r.observations) :
    ∃ p ∈ reports_points hb tr, p.target_name_ = (hb.1.targets ob.target).target_name := by
  induction tr generalizing hb with
  | nil => simp at hr
  | cons r0 rest ih =>
    rcases List.mem_cons.mp hr with rfl | hr2
    · refine ⟨resolved_data_point (register_report hb r).1 (register_report hb r).2
        r.scene_id r.camera ob, ?_, ?_⟩
      · exact List.mem_append_left _ (List.mem_map_of_mem _ hob)
      · show ((register_report hb r).1.targets ob.target).target_name = _
        rw [register_report_targets]
    · obtain ⟨p, hp, hn⟩ := ih (register_report hb r0) hr2
      refine ⟨p, List.mem_append_right _ hp, ?_⟩
      rw [hn, register_report_targets]

/-- The reports of a pass and the cameras of its scenes are the same, scene by scene. -/
theorem report_keys_mem (tr : List CameraReport) (scenes : List ObservationScene)
    (hk : tr.map (fun r => (r.scene_id, r.camera)) =
      scenes.flatMap (fun sc => sc.cameras_in_scene_.map (fun c => (sc.scene_id_, c)))) :
    (∀ r ∈ tr, ∃ sc ∈ scenes, r.scene_id = sc.scene_id_ ∧ r.camera ∈ sc.cameras_in_scene_) ∧
    ∀ sc ∈ scenes, ∀ c ∈ sc.cameras_in_scene_,
      ∃ r ∈ tr, r.scene_id = sc.scene_id_ ∧ r.camera = c := by
  constructor
  · intro r hr
    have h1 : (r.scene_id, r.camera) ∈ tr.map (fun r => (r.scene_id, r.camera)) :=
      List.mem_map_of_mem _ hr
    rw [hk] at h1
    obtain ⟨sc, hsc, h2⟩ := List.mem_flatMap.mp h1
    obtain ⟨c, hc, h3⟩ := List.mem_map.mp h2
    simp only [Prod.mk.injEq] at h3
    exact ⟨sc, hsc, h3.1.symm, by rw [← h3.2]; exact hc⟩
  · intro sc hsc c hc
    have h1 : (sc.scene_id_, c) ∈
        scenes.flatMap (fun sc => sc.cameras_in_scene_.map (fun c => (sc.scene_id_, c))) :=
      List.mem_flatMap.mpr ⟨sc, hsc, List.mem_map_of_mem _ hc⟩
    rw [← hk] at h1
    obtain ⟨r, hr, h2⟩ := List.mem_map.mp h1
    simp only [Prod.mk.injEq] at h2
    exact ⟨r, hr, h2.1, h2.2⟩

/-- C14 (as the code has it), two cases.  A target named in a command of a scene, of
which no feature is detected, has no registry entry after the pass: the scene has one
command, camera "A" on the static target "T" (address 0), the detector reports nothing,
and when the pass has reached its end the registry holds no target at all.  A camera
named in a command has no entry for its identity when the scene already holds a camera
of its name with the other moving flag: the scene is built from a command for the static
camera "A" and one for a moving camera "A"; its camera list holds the static one only,
and after the pass there is no moving camera entry for ("A", 0). -/
theorem runObservations_undetected_target_absent :
    ((Example.scene_A 0).observation_command_list_.map (fun cmd => cmd.target) = [0] ∧
      (CalibrationJob.runObservations (Example.detector [])
        (Example.machine [Example.scene_A 0])).map
        (fun r => (r.state.blocks.target_entries r.state.heap
          (r.state.heap.targets 0).target_name (r.state.heap.targets 0).is_moving 0,
          r.state.blocks.static_targets_, r.state.blocks.moving_targets_))
        = some (0, [], [])) ∧
    (Example.machine_AA.job.scene_list_.map
        (fun sc => (sc.observation_command_list_.map (fun cmd => cmd.camera),
          sc.cameras_in_scene_)) = [([0, 1], [0])] ∧
      ((Example.heap_AA.cameras 1).camera_name_, (Example.heap_AA.cameras 1).is_moving_) =
        ("A", true) ∧
      (CalibrationJob.runObservations (Example.detector []) Example.machine_AA).map
        (fun r => (r.state.blocks.camera_entries r.state.heap "A" true 0,
          r.state.blocks.static_cameras_, r.state.blocks.moving_cameras_))
        = some (0, [0], [])) := by
  decide

/-- C14 (amended): when a pass has reached the end of its body, whatever the observers
handed over, every camera in the camera list of a scene has exactly one registry entry
for its identity (its name if static, its name and the scene if moving), and so has the
camera of every command whose name and moving flag are those of a camera in the camera
list of its scene; the target of the observation behind every data point the pass
appended has exactly one registry entry for its identity; and the registry holds a
target only if the pass appended a data point with its name. -/
theorem runObservations_registers_once {σ : Type} (observer : CameraObserver σ)
    (m mf : Machine σ)
    (hlive : ∀ sc ∈ m.job.scene_list_, ∀ c ∈ sc.cameras_in_scene_,
      (runObservations_begin m).heap.live_camera c)
    (hrun : CalibrationJob.runObservations observer m = some (Completion.no_return mf)) :
    (∀ sc ∈ m.job.scene_list_, ∀ c ∈ sc.cameras_in_scene_,
      mf.blocks.camera_entries mf.heap (m.heap.cameras c).camera_name_
        (m.heap.cameras c).is_moving_ sc.scene_id_ = 1) ∧
    (∀ sc ∈ m.job.scene_list_, ∀ cmd ∈ sc.observation_command_list_,
      (∃ c ∈ sc.cameras_in_scene_,
        (m.heap.cameras c).camera_name_ = (m.heap.cameras cmd.camera).camera_name_ ∧
        (m.heap.cameras c).is_moving_ = (m.heap.cameras cmd.camera).is_moving_) →
      mf.blocks.camera_entries mf.heap (m.heap.cameras cmd.camera).camera_name_
        (m.heap.cameras cmd.camera).is_moving_ sc.scene_id_ = 1) ∧
    ∃ new, mf.items = m.items ++ new ∧
      (∀ p ∈ new, ∃ sc ∈ m.job.scene_list_, ∃ c ∈ sc.cameras_in_scene_, ∃ ob,
        p = resolved_data_point mf.heap mf.blocks sc.scene_id_ c ob ∧
        mf.blocks.target_entries mf.heap (m.heap.targets ob.target).target_name
          (m.heap.targets ob.target).is_moving sc.scene_id_ = 1) ∧
      ∀ t, mf.blocks.has_target t →
        ∃ p ∈ new, p.target_name_ = (m.heap.targets t).target_name := by
  obtain ⟨-, -, new2, hitems2, hfrom⟩ := runObservations_spec observer m mf hlive hrun
  rw [runObservations_no_return_iff] at hrun
  obtain ⟨tr, hk, -, hfold, hitems, hgrow, -⟩ := runObservations_scenes_trace observer
    m.job.scene_list_ (runObservations_begin m) mf (runObservations_begin_live m) hlive hrun
  obtain ⟨hk1, hk2⟩ := report_keys_mem tr m.job.scene_list_ hk
  have hcam : ∀ r ∈ tr, (runObservations_begin m).heap.live_camera r.camera := by
    intro r hr
    obtain ⟨sc, hsc, -, hc⟩ := hk1 r hr
    exact hlive sc hsc _ hc
  have hreach : Reachable mf.heap mf.blocks := by
    have := Reachable.of_register_reports tr
      (show Reachable ((runObservations_begin m).heap, (runObservations_begin m).blocks).1
        ((runObservations_begin m).heap, (runObservations_begin m).blocks).2 from
        Reachable.ctor _) hcam
    rw [← hfold] at this
    exact this
  have hspec := (register_reports_spec tr
    ((runObservations_begin m).heap, (runObservations_begin m).blocks)
    (runObservations_begin_live m) hcam).2.2.2
  rw [← hfold] at hspec
  have hnew : new2 = reports_points
      ((runObservations_begin m).heap, (runObservations_begin m).blocks) tr :=
    List.append_cancel_left (hitems2.symm.trans hitems)
  have hpart1 : ∀ sc ∈ m.job.scene_list_, ∀ c ∈ sc.cameras_in_scene_,
      mf.blocks.camera_entries mf.heap (m.heap.cameras c).camera_name_
        (m.heap.cameras c).is_moving_ sc.scene_id_ = 1 := by
    intro sc hsc c hc
    obtain ⟨r, hr, hr1, hr2⟩ := hk2 sc hsc c hc
    have h1 := (hspec r hr).2.1
    simp only at h1
    rw [hr1, hr2] at h1
    have hcl := camera_lookups_of_grows c sc.scene_id_ hgrow (hlive sc hsc c hc)
    rw [← hcl.2] at h1
    have h2 := camera_entries_eq_one hreach.live_distinct.2 c sc.scene_id_ h1
    rw [hgrow.1 c (hlive sc hsc c hc), runObservations_begin_cameras] at h2
    exact h2
  refine ⟨hpart1, ?_, new2, hitems2, ?_, ?_⟩
  · intro sc hsc cmd _ hex
    obtain ⟨c, hc, hn, hmv⟩ := hex
    rw [← hn, ← hmv]
    exact hpart1 sc hsc c hc
  · intro p hp
    obtain ⟨sc, hsc, c, hc, o, s, ob, -, -, hf, hpe⟩ := hfrom p hp
    refine ⟨sc, hsc, c, hc, ob, hpe, ?_⟩
    have h2 := target_entries_eq_one hreach.live_distinct.2 ob.target sc.scene_id_ hf.2.2.1
    rw [hgrow.2.1, runObservations_begin_targets] at h2
    exact h2
  · intro t ht
    have h1 : (tr.foldl register_report
        ((runObservations_begin m).heap, (runObservations_begin m).blocks)).2.has_target t := by
      rw [← hfold]
      exact ht
    rcases register_reports_has_target _ _ t h1 with h2 | ⟨r, hr, ob, hob, rfl⟩
    · rcases h2 with h3 | ⟨mt, h3, -⟩
      · simp [runObservations_begin_blocks, CeresBlocks.ctor] at h3
      · simp [runObservations_begin_blocks, CeresBlocks.ctor] at h3
    · obtain ⟨p, hp, hn⟩ := reports_points_has tr
        ((runObservations_begin m).heap, (runObservations_begin m).blocks) r hr ob hob
      rw [hnew]
      refine ⟨p, hp, ?_⟩
      rw [hn, runObservations_begin_targets]

/-- C14 (amended), on the scene with the static camera "A" and the moving camera "B" and
a detector that reports four points of target "T". -/
theorem runObservations_registers_once_witness :
    ∃ mf,
      (∀ sc ∈ (Example.machine [Example.scene_AB]).job.scene_list_,
        ∀ c ∈ sc.cameras_in_scene_,
          (runObservations_begin (Example.machine [Example.scene_AB])).heap.live_camera c) ∧
      CalibrationJob.runObservations (Example.detector Example.four_points)
        (Example.machine [Example.scene_AB]) = some (Completion.no_return mf) ∧
      (∀ sc ∈ (Example.machine [Example.scene_AB]).job.scene_list_,
        ∀ c ∈ sc.cameras_in_scene_,
          mf.blocks.camera_entries mf.heap
            ((Example.machine [Example.scene_AB]).heap.cameras c).camera_name_
            ((Example.machine [Example.scene_AB]).heap.cameras c).is_moving_
            sc.scene_id_ = 1) ∧
      ∃ new, mf.items = (Example.machine [Example.scene_AB]).items ++ new ∧
        new.length = 8 ∧
        ∀ t, mf.blocks.has_target t →
          ∃ p ∈ new, p.target_name_ =
            ((Example.machine [Example.scene_AB]).heap.targets t).target_name := by
  have hsome : (CalibrationJob.runObservations (Example.detector Example.four_points)
      (Example.machine [Example.scene_AB])).isSome = true := by decide
  obtain ⟨mf, hmf⟩ := runObservations_isSome _ _ hsome
  have hlen : (CalibrationJob.runObservations (Example.detector Example.four_points)
      (Example.machine [Example.scene_AB])).map (fun r => r.state.items.length) = some 8 := by
    decide
  rw [hmf] at hlen
  simp only [Option.map_some', Option.some.injEq, Completion.state] at hlen
  have hlive : ∀ sc ∈ (Example.machine [Example.scene_AB]).job.scene_list_,
      ∀ c ∈ sc.cameras_in_scene_,
        (runObservations_begin (Example.machine [Example.scene_AB])).heap.live_camera c := by
    decide
  obtain ⟨h1, -, new, h3, -, h5⟩ := runObservations_registers_once
    (Example.detector Example.four_points) (Example.machine [Example.scene_AB]) mf hlive hmf
  refine ⟨mf, hlive, hmf, h1, new, h3, ?_, h5⟩
  rw [h3] at hlen
  simpa [Example.machine, Machine.items] using hlen
/-! ## Two passes side by side -/

/-- The loop over the static targets enters nothing but the one object `temp_target`,
and enters it at most once: with it in the registry, `addStaticTarget(temp_target)`
finds an entry of the same name, the object itself. -/
theorem load_static_targets_one (target_parameters : YamlNode) (temp_target : TargetPtr)
    (is : List Nat) (h : Heap) (b : CeresBlocks)
    (h0 : b.static_targets_ = [] ∨ b.static_targets_ = [temp_target]) :
    (load_static_targets target_parameters temp_target is ⟨h, b⟩).2.ceres_blocks_.static_targets_
        = [] ∨
      (load_static_targets target_parameters temp_target is
        ⟨h, b⟩).2.ceres_blocks_.static_targets_ = [temp_target] := by
  induction is generalizing h b with
  | nil => exact h0
  | cons i rest ih =>
    rw [load_static_targets]
    split
    · exact h0
    · dsimp only
      split
      · exact h0
      · apply ih
        rw [CeresBlocks.addStaticTarget_eq]
        rcases h0 with h1 | h1
        · right
          simp [h1]
        · right
          simp [h1]

/-- The points loop of a target entry changes nothing but the points. -/
theorem load_points_pose (points_node : YamlNode) (js : List Nat) (t : Target) :
    (load_points points_node js t).2.pose = t.pose ∧
    (load_points points_node js t).2.target_name = t.target_name := by
  induction js generalizing t with
  | nil => exact ⟨rfl, rfl⟩
  | cons j rest ih =>
    rw [load_points]
    split
    · exact ⟨rfl, rfl⟩
    · split
      · exact ⟨rfl, rfl⟩
      · split
        · exact ⟨rfl, rfl⟩
        · split
          · exact ih _
          · exact ⟨rfl, rfl⟩

theorem load_entry_points_pose (entry : YamlNode) (t : Target) :
    (load_entry_points entry t).2.pose = t.pose ∧
    (load_entry_points entry t).2.target_name = t.target_name := by
  unfold load_entry_points
  split
  · exact ⟨rfl, rfl⟩
  · exact load_points_pose _ _ _

/-- Every moving target entry that is read to its end leaves in `temp_target` a pose
whose `ay` is the entry's `angle_axis_ax`, like its `ax`, and whose `az` is the entry's
`angle_axis_ay`; the entry's `angle_axis_az` is not read. -/
theorem load_moving_target_entry_pose (entry : YamlNode) (t : Target × Nat)
    (hok : (load_moving_target_entry entry t).1 = none) :
    (entry.key "angle_axis_ax" >>= YamlNode.to_double) =
      .ok (load_moving_target_entry entry t).2.1.pose.ax ∧
    (load_moving_target_entry entry t).2.1.pose.ay =
      (load_moving_target_entry entry t).2.1.pose.ax ∧
    (entry.key "angle_axis_ay" >>= YamlNode.to_double) =
      .ok (load_moving_target_entry entry t).2.1.pose.az := by
  unfold load_moving_target_entry at hok ⊢
  rcases h1 : (entry.key "target_name" >>= YamlNode.to_string) with e | v1
  · simp [load_assign, h1] at hok
  rcases h2 : (entry.key "angle_axis_ax" >>= YamlNode.to_double) with e | v2
  · simp [load_assign, h1, h2] at hok
  rcases h3 : (entry.key "angle_axis_ay" >>= YamlNode.to_double) with e | v3
  · simp [load_assign, h1, h2, h3] at hok
  rcases h4 : (entry.key "position_x" >>= YamlNode.to_double) with e | v4
  · simp [load_assign, h1, h2, h3, h4] at hok
  rcases h5 : (entry.key "position_y" >>= YamlNode.to_double) with e | v5
  · simp [load_assign, h1, h2, h3, h4, h5] at hok
  rcases h6 : (entry.key "position_z" >>= YamlNode.to_double) with e | v6
  · simp [load_assign, h1, h2, h3, h4, h5, h6] at hok
  rcases h7 : (entry.key "scene_id" >>= YamlNode.to_unsigned) with e | v7
  · simp [load_assign, h1, h2, h3, h4, h5, h6, h7] at hok
  rcases h8 : (entry.key "num_points" >>= YamlNode.to_unsigned) with e | v8
  · simp [load_assign, h1, h2, h3, h4, h5, h6, h7, h8] at hok
  simp only [load_assign, h1, h2, h3, h4, h5, h6, h7, h8, (load_entry_points_pose entry _).1,
    and_self]

/-- C21, the code at a failing input: the target document has two static targets, "T1"
and "T2", and `load` is run on a fresh job.  It returns `true`, but the registry holds
one static target, not two: the one object the loop reads every entry into (address 0),
which carries the name and the pose of "T2" and the points of both entries. -/
theorem load_static_targets_share_object :
    (Example.target_doc_static.FindValue "static_targets").map YamlNode.size = some 2 ∧
    Example.load_state.ceres_blocks_.static_targets_ = [] ∧
    (CalibrationJob.load (ConfigFile.document Example.camera_doc)
      (ConfigFile.document Example.target_doc_static)
      (ConfigFile.document Example.caljob_doc) 0 Example.load_state).1 =
      LoadOutcome.returned true ∧
    (CalibrationJob.load (ConfigFile.document Example.camera_doc)
      (ConfigFile.document Example.target_doc_static)
      (ConfigFile.document Example.caljob_doc) 0
      Example.load_state).2.ceres_blocks_.static_targets_ = [0] ∧
    (CalibrationJob.load (ConfigFile.document Example.camera_doc)
      (ConfigFile.document Example.target_doc_static)
      (ConfigFile.document Example.caljob_doc) 0 Example.load_state).2.heap.targets 0 =
      { Target.value_init with
        target_name := "T2"
        pose := ⟨7, 8, 9, 10, 11, 12⟩
        num_points := 1
        pts := [⟨0, 0, 0⟩, ⟨1, 1, 0⟩] } := by
  decide

/-- C22, the code at a failing input: the target document has one moving target, "M" in
scene 5, with angle axis `(1, 2, 3)` and position `(4, 5, 6)`, and `load` is run on a
fresh job.  It returns `true` and registers the target under scene 5 with the position
`(4, 5, 6)`, but with the angle axis `(1, 1, 2)`: `ay` holds the entry's `angle_axis_ax`
and `az` its `angle_axis_ay`. -/
theorem load_moving_target_pose_shifted :
    ((Example.yaml_moving_target "M" 1 2 3 4 5 6 5 [Example.yaml_point 0 0 0]).key
      "angle_axis_ax" >>= YamlNode.to_double).toOption = some 1 ∧
    ((Example.yaml_moving_target "M" 1 2 3 4 5 6 5 [Example.yaml_point 0 0 0]).key
      "angle_axis_ay" >>= YamlNode.to_double).toOption = some 2 ∧
    ((Example.yaml_moving_target "M" 1 2 3 4 5 6 5 [Example.yaml_point 0 0 0]).key
      "angle_axis_az" >>= YamlNode.to_double).toOption = some 3 ∧
    (CalibrationJob.load (ConfigFile.document Example.camera_doc)
      (ConfigFile.document Example.target_doc_moving)
      (ConfigFile.document Example.caljob_doc) 0 Example.load_state).1 =
      LoadOutcome.returned true ∧
    (CalibrationJob.load (ConfigFile.document Example.camera_doc)
      (ConfigFile.document Example.target_doc_moving)
      (ConfigFile.document Example.caljob_doc) 0
      Example.load_state).2.ceres_blocks_.moving_targets_ = [⟨0, 5⟩] ∧
    ((CalibrationJob.load (ConfigFile.document Example.camera_doc)
      (ConfigFile.document Example.target_doc_moving)
      (ConfigFile.document Example.caljob_doc) 0 Example.load_state).2.heap.targets 0).pose =
      ⟨1, 1, 2, 4, 5, 6⟩ := by
  decide
/-! ## The data points of one scene -/

end industrial_extrinsic_cal
